import Mathlib

/-!
Shallow embedding of the Traveller star-system generator `src/worldgen.ts`
(the first of the two module copies in that file, whose line numbers the
claims cite).  JavaScript numbers are modelled as `Int` (all the values the
generator manipulates are integers), JS strings as `String`, and the ambient
`Math.random()` source as an explicit stream of naturals (`Dice`): each call
`Math.floor(Math.random() * n)` consumes one element `x` of the stream and
yields `x % n`, so every sequence of in-range draws of the original program
corresponds to some stream and conversely.  Fallible operations
(`new Array(negative)`, `arabicToRoman` out of range, hex codec failures)
return `Except`.
-/

namespace Worldgen

/-- Port codes, in TS enum declaration order (worldgen.ts lines 43-54). -/
inductive PortCode where
  | A | B | C | D | E | X | Y | H | G | F
deriving Repr, DecidableEq

/-- Star spectral types, declaration order (lines 56-64). -/
inductive StarType where
  | O | B | A | F | G | K | M
deriving Repr, DecidableEq

/-- Star luminosity sizes, declaration order (lines 66-75). -/
inductive StarSize where
  | Ia | Ib | II | III | IV | V | VI | D
deriving Repr, DecidableEq

/-- Facility tags (lines 77-85). -/
inductive Facility where
  | Naval | Scout | Farming | Mining | Colony | Lab | Military
deriving Repr, DecidableEq

/-- Trade classes (lines 87-98). -/
inductive TradeClass where
  | Agricultural | NonAgricultural | Industrial | NonIndustrial | Rich | Poor
  | WaterWorld | DesertWorld | VacuumWorld | Icecapped
deriving Repr, DecidableEq

/-- Numeric value of a TS `StarType` enum member (used by `<`/`<=` comparisons
in the source). -/
def StarType.toNat : StarType → Nat
  | .O => 0 | .B => 1 | .A => 2 | .F => 3 | .G => 4 | .K => 5 | .M => 6

/-- Numeric value of a TS `StarSize` enum member. -/
def StarSize.toNat : StarSize → Nat
  | .Ia => 0 | .Ib => 1 | .II => 2 | .III => 3 | .IV => 4 | .V => 5 | .VI => 6 | .D => 7

/-- Numeric value of a TS `GasGiantSize` member. -/
inductive GasGiantSize where
  | Small | Large
deriving Repr, DecidableEq

/-- A world (class `World`, lines 100-288).  The source stores a
`satellites: World[]` list inside each world; Lean structures cannot contain
their own type, so the satellite list of a body is carried next to the body in
its orbit slot (see `Slot`) or in `GasGiant`-style pairs, never inside
`World`.  In the program satellites never own satellites of their own, so no
information is lost.  The derived `astro_data` field (floating point, computed
by `astrodata.ts` and never read back by the generator) is omitted. -/
structure World where
  name : String
  orbit : Int
  star_orbit : Int
  is_satellite : Bool
  is_mainworld : Bool
  port : PortCode
  size : Int
  atmosphere : Int
  hydro : Int
  population : Int
  law_level : Int
  government : Int
  tech_level : Int
  facilities : List Facility
  trade_classes : List TradeClass
deriving Repr, DecidableEq

/-- The `World` constructor (lines 127-148): the remaining fields take their
field-initializer defaults (`port = A`, numeric stats 0, empty lists). -/
def mkWorld (name : String) (orbit star_orbit : Int) (size atmosphere hydro population : Int)
    (is_satellite is_mainworld : Bool) : World :=
  { name := name, orbit := orbit, star_orbit := star_orbit
    is_satellite := is_satellite, is_mainworld := is_mainworld
    port := .A, size := size, atmosphere := atmosphere, hydro := hydro
    population := population, law_level := 0, government := 0, tech_level := 0
    facilities := [], trade_classes := [] }

/-- Method `set_subordinate_stats` (lines 151-163). -/
def World.set_subordinate_stats (w : World) (port : PortCode)
    (government law_level tech_level : Int) (facilities : List Facility) : World :=
  { w with
    port := port, government := government, law_level := law_level
    tech_level := tech_level, facilities := facilities }

/-- Gas giant (class `GasGiant`, lines 295-316); its satellite list is carried
in the orbit slot next to it, like a world's. -/
structure GasGiant where
  name : String
  size : GasGiantSize
  orbit : Int
deriving Repr, DecidableEq

/-- Star descriptor (class `Star`, lines 326-330). -/
structure Star where
  star_type : StarType
  subtype : Nat
  size : StarSize
deriving Repr, DecidableEq

/-- Which companion field of the owning system a slot points at.  In the
source the slot stores the very same object as `system.secondary` /
`system.tertiary`; the embedding keeps the companion node in its field and
stores this reference tag in the slot. -/
inductive CompTag where
  | secondary | tertiary
deriving Repr, DecidableEq

/-- One cell of the `orbits` array (line 19).  `nul` is the JS `null` fill of
a fresh array ("not yet assigned"), `undef` is a hole / out-of-bounds read
(`undefined`), which the source distinguishes from `null` via `===`. -/
inductive Slot where
  | world (w : World) (sats : List World)
  | gasGiant (g : GasGiant) (sats : List World)
  | sysRef (t : CompTag)
  | empty (orbit : Int)
  | nul
  | undef
deriving Repr, DecidableEq

/-- A star-system node (class `System`, lines 6-41).  Recursive through the
`secondary` / `tertiary` companion links, hence an inductive. -/
inductive System where
  | mk (name : String) (star : Star) (secondary : Option System)
      (tertiary : Option System) (orbit : Int) (max_orbits : Nat)
      (main_world : Option World) (orbits : List Slot)

def System.name : System → String
  | .mk n _ _ _ _ _ _ _ => n

def System.star : System → Star
  | .mk _ s _ _ _ _ _ _ => s

def System.secondary : System → Option System
  | .mk _ _ se _ _ _ _ _ => se

def System.tertiary : System → Option System
  | .mk _ _ _ te _ _ _ _ => te

def System.orbit : System → Int
  | .mk _ _ _ _ o _ _ _ => o

def System.max_orbits : System → Nat
  | .mk _ _ _ _ _ m _ _ => m

def System.main_world : System → Option World
  | .mk _ _ _ _ _ _ w _ => w

def System.orbits : System → List Slot
  | .mk _ _ _ _ _ _ _ o => o

def System.withOrbits : System → List Slot → System
  | .mk n s se te o m w _, a => .mk n s se te o m w a

def System.withSecondary : System → Option System → System
  | .mk n s _ te o m w a, se => .mk n s se te o m w a

def System.withTertiary : System → Option System → System
  | .mk n s se _ o m w a, te => .mk n s se te o m w a

def System.withMainWorld : System → Option World → System
  | .mk n s se te o m _ a, w => .mk n s se te o m w a

def System.withMax : System → Nat → List Slot → System
  | .mk n s se te o _ w _, m, a => .mk n s se te o m w a

/-- Companion node addressed by a slot tag. -/
def System.companionOf (sys : System) : CompTag → Option System
  | .secondary => sys.secondary
  | .tertiary => sys.tertiary

/-- Replace the companion node addressed by a tag. -/
def System.withCompanion (sys : System) : CompTag → System → System
  | .secondary, c => sys.withSecondary (some c)
  | .tertiary, c => sys.withTertiary (some c)

/-- Errors that abort generation in the source: `arabicToRoman` on an input
outside `[0, 20]` (a thrown `Error`), and `new Array(n)` with `n < 0`
(a thrown `RangeError` inside `setMaxOrbits`). -/
inductive GenError where
  | romanRange
  | arrayLength
deriving Repr, DecidableEq

/-- Errors of the UPP codec: `decimalToHex` on an input outside `[0, 15]` and
`hexToDecimal` on a non-hex character. -/
inductive UppError where
  | notDigit (d : Int)
  | invalidDigit (c : Char)
deriving Repr, DecidableEq

/-! ## JS array semantics

`new Array(n).fill(null)` is `List.replicate n Slot.nul`.  Reading an index
that is negative or at/after `length` gives `undefined`; writing an index at
or after `length` grows the array, padding with holes (`undefined`); writing a
negative index stores a non-element property, which nothing in the program
ever reads back, so it is modelled as a no-op. -/

/-- JS read `a[i]`. -/
def jsGet (a : List Slot) (i : Int) : Slot :=
  if i < 0 then .undef else (a.getD i.toNat .undef)

/-- One-pass worker for `jsSet`: set position `n`, padding with holes past
the end of the array. -/
def jsSetGo (v : Slot) : List Slot → Nat → List Slot
  | [], 0 => [v]
  | [], n + 1 => .undef :: jsSetGo v [] n
  | _ :: tl, 0 => v :: tl
  | hd :: tl, n + 1 => hd :: jsSetGo v tl n

/-- JS write `a[i] = v`. -/
def jsSet (a : List Slot) (i : Int) (v : Slot) : List Slot :=
  if i < 0 then a else jsSetGo v a i.toNat

/-! ## Dice -/

/-- A stream of raw draws; `[]` behaves as an endless stream of zeros. -/
abbrev Dice := List Nat

/-- One `Math.floor(Math.random() * n)` call. -/
def draw (n : Nat) (d : Dice) : Nat × Dice :=
  (if n = 0 then 0 else d.headD 0 % n, d.tail)

/-- Function `roll2D` (lines 1513-1516). -/
def roll2D (d : Dice) : Nat × Dice :=
  let (a, d) := draw 6 d
  let (b, d) := draw 6 d
  (a + b + 2, d)

/-- Function `roll1D` (lines 1518-1521). -/
def roll1D (d : Dice) : Nat × Dice :=
  let (a, d) := draw 6 d
  (a + 1, d)

/-- Function `roll10` (lines 1523-1526). -/
def roll10 (d : Dice) : Nat × Dice :=
  draw 10 d

/-- Function `roll12` (lines 1528-1531). -/
def roll12 (d : Dice) : Nat × Dice :=
  draw 12 d

/-! ## Zone tables -/

/-- Zone thresholds (type `ZoneLimits`, lines 332-338). -/
structure ZoneLimits where
  inside : Int
  hot : Int
  inner : Int
  habitable : Int
  outer : Int
deriving Repr, DecidableEq

/-- Function `roundSubType` (lines 1534-1543): `Math.floor(subtype/5)*5`.  The
source throws for results other than 0 or 5, i.e. for `subtype ≥ 10`; every
call site passes a `roll10` result in `[0, 9]`, so the embedding is total. -/
def roundSubType (subtype : Nat) : Nat :=
  subtype / 5 * 5

/-- The `zoneTables` constant (lines 1584-1825), keyed by size, type and
rounded subtype (0 or 5; any other `sub` selects the 5 row, unreachable from
`roundSubType` of a digit). -/
def zoneTables (size : StarSize) (ty : StarType) (sub : Nat) : ZoneLimits :=
  match size, ty with
  | .Ia, .O => if sub = 0 then ⟨0, 0, 0, 0, 0⟩ else ⟨0, 0, 0, 0, 0⟩
  | .Ia, .B => if sub = 0 then ⟨0, 7, 12, 13, 14⟩ else ⟨0, 7, 12, 13, 14⟩
  | .Ia, .A => if sub = 0 then ⟨1, 6, 11, 12, 14⟩ else ⟨1, 6, 11, 12, 14⟩
  | .Ia, .F => if sub = 0 then ⟨2, 5, 11, 12, 14⟩ else ⟨2, 5, 10, 11, 14⟩
  | .Ia, .G => if sub = 0 then ⟨3, 6, 11, 12, 14⟩ else ⟨4, 6, 11, 12, 14⟩
  | .Ia, .K => if sub = 0 then ⟨5, 6, 11, 12, 14⟩ else ⟨5, 6, 11, 12, 14⟩
  | .Ia, .M => if sub = 0 then ⟨6, 6, 11, 12, 14⟩ else ⟨0, 6, 11, 12, 14⟩
  | .Ib, .O => if sub = 0 then ⟨0, 0, 0, 0, 0⟩ else ⟨0, 0, 0, 0, 0⟩
  | .Ib, .B => if sub = 0 then ⟨0, 7, 12, 13, 14⟩ else ⟨0, 5, 10, 11, 14⟩
  | .Ib, .A => if sub = 0 then ⟨0, 4, 10, 11, 14⟩ else ⟨0, 4, 9, 10, 14⟩
  | .Ib, .F => if sub = 0 then ⟨0, 4, 9, 10, 14⟩ else ⟨0, 3, 9, 10, 14⟩
  | .Ib, .G => if sub = 0 then ⟨0, 3, 9, 10, 14⟩ else ⟨1, 4, 9, 10, 14⟩
  | .Ib, .K => if sub = 0 then ⟨3, 4, 9, 10, 14⟩ else ⟨4, 5, 10, 11, 14⟩
  | .Ib, .M => if sub = 0 then ⟨5, 5, 10, 11, 14⟩ else ⟨6, 6, 11, 12, 14⟩
  | .II, .O => if sub = 0 then ⟨0, 0, 0, 0, 0⟩ else ⟨0, 0, 0, 0, 0⟩
  | .II, .B => if sub = 0 then ⟨0, 6, 11, 12, 13⟩ else ⟨0, 4, 10, 11, 13⟩
  | .II, .A => if sub = 0 then ⟨0, 2, 8, 9, 13⟩ else ⟨0, 1, 7, 8, 13⟩
  | .II, .F => if sub = 0 then ⟨0, 1, 7, 8, 13⟩ else ⟨0, 1, 7, 8, 13⟩
  | .II, .G => if sub = 0 then ⟨0, 1, 7, 8, 13⟩ else ⟨0, 1, 7, 8, 13⟩
  | .II, .K => if sub = 0 then ⟨0, 1, 8, 9, 13⟩ else ⟨1, 2, 8, 9, 13⟩
  | .II, .M => if sub = 0 then ⟨3, 3, 9, 10, 13⟩ else ⟨5, 5, 10, 11, 13⟩
  | .III, .O => if sub = 0 then ⟨0, 0, 0, 0, 0⟩ else ⟨0, 0, 0, 0, 0⟩
  | .III, .B => if sub = 0 then ⟨0, 6, 11, 12, 13⟩ else ⟨0, 4, 9, 10, 13⟩
  | .III, .A => if sub = 0 then ⟨0, 0, 7, 8, 13⟩ else ⟨0, 0, 6, 7, 13⟩
  | .III, .F => if sub = 0 then ⟨0, 0, 5, 6, 13⟩ else ⟨0, 0, 5, 6, 13⟩
  | .III, .G => if sub = 0 then ⟨0, 0, 5, 6, 13⟩ else ⟨0, 0, 6, 7, 13⟩
  | .III, .K => if sub = 0 then ⟨0, 0, 6, 7, 13⟩ else ⟨0, 0, 7, 8, 13⟩
  | .III, .M => if sub = 0 then ⟨0, 1, 7, 8, 13⟩ else ⟨3, 3, 8, 9, 13⟩
  | .IV, .O => if sub = 0 then ⟨0, 0, 0, 0, 0⟩ else ⟨0, 0, 0, 0, 0⟩
  | .IV, .B => if sub = 0 then ⟨0, 6, 11, 12, 13⟩ else ⟨0, 2, 8, 9, 13⟩
  | .IV, .A => if sub = 0 then ⟨0, 0, 6, 7, 13⟩ else ⟨-1, -1, 5, 6, 13⟩
  | .IV, .F => if sub = 0 then ⟨-1, -1, 5, 6, 13⟩ else ⟨-1, -1, 4, 5, 13⟩
  | .IV, .G => if sub = 0 then ⟨-1, -1, 4, 5, 13⟩ else ⟨-1, -1, 4, 5, 13⟩
  | .IV, .K => if sub = 0 then ⟨-1, -1, 3, 4, 13⟩ else ⟨0, 0, 0, 0, 0⟩
  | .IV, .M => if sub = 0 then ⟨0, 0, 0, 0, 0⟩ else ⟨0, 0, 0, 0, 0⟩
  | .V, .O => if sub = 0 then ⟨0, 0, 0, 0, 0⟩ else ⟨0, 0, 0, 0, 0⟩
  | .V, .B => if sub = 0 then ⟨0, 5, 11, 12, 14⟩ else ⟨0, 2, 8, 9, 14⟩
  | .V, .A => if sub = 0 then ⟨-1, -1, 6, 7, 14⟩ else ⟨-1, -1, 5, 6, 14⟩
  | .V, .F => if sub = 0 then ⟨-1, -1, 4, 5, 14⟩ else ⟨-1, -1, 3, 4, 14⟩
  | .V, .G => if sub = 0 then ⟨-1, -1, 2, 3, 14⟩ else ⟨-1, -1, 2, 3, 14⟩
  | .V, .K => if sub = 0 then ⟨-1, -1, -1, 0, 14⟩ else ⟨-1, -1, -1, 0, 14⟩
  | .V, .M => if sub = 0 then ⟨-1, -1, -1, -1, 14⟩ else ⟨-1, -1, -1, -1, 14⟩
  | .VI, .O => if sub = 0 then ⟨0, 0, 0, 0, 0⟩ else ⟨0, 0, 0, 0, 0⟩
  | .VI, .B => if sub = 0 then ⟨0, 0, 0, 0, 0⟩ else ⟨0, 0, 0, 0, 0⟩
  | .VI, .A => if sub = 0 then ⟨0, 0, 0, 0, 0⟩ else ⟨0, 0, 0, 0, 0⟩
  | .VI, .F => if sub = 0 then ⟨0, 0, 0, 0, 0⟩ else ⟨-1, -1, 2, 3, 4⟩
  | .VI, .G => if sub = 0 then ⟨-1, -1, 1, 2, 4⟩ else ⟨-1, -1, 0, 1, 4⟩
  | .VI, .K => if sub = 0 then ⟨-1, -1, -1, 1, 4⟩ else ⟨-1, -1, -1, -1, 4⟩
  | .VI, .M => if sub = 0 then ⟨-1, -1, -1, -1, 4⟩ else ⟨-1, -1, -1, -1, 4⟩
  | .D, .O => if sub = 0 then ⟨0, 0, 0, 0, 0⟩ else ⟨0, 0, 0, 0, 0⟩
  | .D, .B => if sub = 0 then ⟨-1, -1, -1, 0, 4⟩ else ⟨-1, -1, -1, 0, 4⟩
  | .D, .A => if sub = 0 then ⟨-1, -1, -1, -1, 4⟩ else ⟨-1, -1, -1, -1, 4⟩
  | .D, .F => if sub = 0 then ⟨-1, -1, -1, -1, 4⟩ else ⟨-1, -1, -1, -1, 4⟩
  | .D, .G => if sub = 0 then ⟨-1, -1, -1, -1, 4⟩ else ⟨-1, -1, -1, -1, 4⟩
  | .D, .K => if sub = 0 then ⟨-1, -1, -1, -1, 4⟩ else ⟨-1, -1, -1, -1, 4⟩
  | .D, .M => if sub = 0 then ⟨-1, -1, -1, -1, 4⟩ else ⟨-1, -1, -1, -1, 4⟩

/-- Function `getZone` (lines 1545-1549). -/
def getZone (sys : System) : ZoneLimits :=
  zoneTables sys.star.size sys.star.star_type (roundSubType sys.star.subtype)

/-! ## UPP codec and roman numerals -/

/-- Function `decimalToHex` (lines 1470-1478); throws outside `[0, 15]`. -/
def decimalToHex (decimal : Int) : Except UppError Char :=
  if decimal < 0 ∨ decimal > 15 then .error (.notDigit decimal)
  else .ok (("0123456789ABCDEF".toList).getD decimal.toNat '0')

/-- Function `hexToDecimal` (lines 1480-1510): case-insensitive single hex
digit, otherwise an invalid-digit error.  (The source's other throw, on a
string whose length is not 1, cannot arise for a `Char`.) -/
def hexToDecimal (c : Char) : Except UppError Int :=
  match c.toLower with
  | '0' => .ok 0 | '1' => .ok 1 | '2' => .ok 2 | '3' => .ok 3 | '4' => .ok 4
  | '5' => .ok 5 | '6' => .ok 6 | '7' => .ok 7 | '8' => .ok 8 | '9' => .ok 9
  | 'a' => .ok 10 | 'b' => .ok 11 | 'c' => .ok 12 | 'd' => .ok 13
  | 'e' => .ok 14 | 'f' => .ok 15
  | _ => .error (.invalidDigit c.toLower)

/-- The single-character TS enum name `PortCode[p]` used by `to_upp`. -/
def portChar : PortCode → Char
  | .A => 'A' | .B => 'B' | .C => 'C' | .D => 'D' | .E => 'E'
  | .X => 'X' | .Y => 'Y' | .H => 'H' | .G => 'G' | .F => 'F'

/-- The `switch (upp[0])` of `from_upp` (lines 194-226): unrecognized
characters keep the initial `PortCode.Y`. -/
def portOfChar (c : Char) : PortCode :=
  if c = 'A' then .A else if c = 'B' then .B else if c = 'C' then .C
  else if c = 'D' then .D else if c = 'E' then .E else if c = 'X' then .X
  else if c = 'Y' then .Y else if c = 'H' then .H else if c = 'G' then .G
  else if c = 'F' then .F else .Y

/-- Contiguous-substring test on character lists (JS `String.includes`). -/
def listHasInfix (pat : List Char) : List Char → Bool
  | [] => pat.isEmpty
  | c :: rest => pat.isPrefixOf (c :: rest) || listHasInfix pat rest

/-- The `name.includes("Planetoid")` test of `to_upp`. -/
def nameHasPlanetoid (name : String) : Bool :=
  listHasInfix "Planetoid".toList name.toList

/-- Method `to_upp` (lines 165-186), producing the 9-character UPP string as a
character list. -/
def World.to_upp (w : World) : Except UppError (List Char) := do
  let size_digit ←
    if (w.is_satellite ∧ w.size = -1) ∨
        (w.size ≤ 0 ∧ ¬w.is_mainworld ∧ ¬w.is_satellite ∧ ¬nameHasPlanetoid w.name) then
      pure 'S'
    else if w.is_satellite ∧ w.size = 0 then
      pure 'R'
    else if w.size = 0 then
      pure '0'
    else
      decimalToHex w.size
  let a ← decimalToHex w.atmosphere
  let h ← decimalToHex w.hydro
  let p ← decimalToHex w.population
  let g ← decimalToHex w.government
  let l ← decimalToHex w.law_level
  let t ← decimalToHex w.tech_level
  .ok [portChar w.port, size_digit, a, h, p, g, l, '-', t]

/-- Static method `from_upp` (lines 188-252) on a 9-character string.  The
8th character (separator) is only logged when it is not `-` or a space, never
an error.  (Shorter or longer strings are outside every claim's scope; the
source would fault differently on them, so they map to a catch-all error.) -/
def World.from_upp (name : String) (upp : List Char)
    (is_satellite is_mainworld : Bool) : Except UppError World :=
  match upp with
  | [c0, c1, c2, c3, c4, c5, c6, _c7, c8] => do
    let port := portOfChar c0
    let size ← hexToDecimal c1
    let atmosphere ← hexToDecimal c2
    let hydro ← hexToDecimal c3
    let population ← hexToDecimal c4
    let government ← hexToDecimal c5
    let law_level ← hexToDecimal c6
    let tech_level ← hexToDecimal c8
    let world := mkWorld name 0 0 size atmosphere hydro population
      is_satellite is_mainworld
    .ok (world.set_subordinate_stats port government law_level tech_level [])
  | _ => .error (.invalidDigit '?')

/-- The `romanNumerals` table of `arabicToRoman` (lines 1437-1459). -/
def romanNumerals : List (Int × String) :=
  [(20, "XX"), (19, "XIX"), (18, "XVIII"), (17, "XVII"), (16, "XVI"),
   (15, "XV"), (14, "XIV"), (13, "XIII"), (12, "XII"), (11, "XI"), (10, "X"),
   (9, "IX"), (8, "VIII"), (7, "VII"), (6, "VI"), (5, "V"), (4, "IV"),
   (3, "III"), (2, "II"), (1, "I"), (0, "N")]

/-- Function `arabicToRoman` (lines 1432-1468): throws outside `[0, 20]`
(`Int` inputs are always integers, ruling out the `Number.isInteger` case),
then returns the first table symbol whose value the input reaches. -/
def arabicToRoman (num : Int) : Except GenError String :=
  if num < 0 ∨ num > 20 then .error .romanRange
  else
    match romanNumerals.find? (fun p => num ≥ p.1) with
    | some p => .ok p.2
    | none => .ok ""

/-- Function `genPlanetName` (lines 1318-1320). -/
def genPlanetName (sys : System) (orbit : Int) : Except GenError String := do
  let r ← arabicToRoman (orbit + 1)
  .ok (sys.name ++ " " ++ r)

def starSystemNames : List String := [
  "Aegis Prime",
  "Bellatrix Nebula",
  "Cygnus Reach",
  "Draco\x27s Claw",
  "Eridanus Expanse",
  "Fornax Frontier",
  "Gliese",
  "Hydra\x27s Heart",
  "Ixion Corridor",
  "Juno\x27s Veil",
  "Kepler\x27s Keep",
  "Lyra\x27s Light",
  "Mizar Maze",
  "Nova Nexus",
  "Orion\x27s Forge",
  "Polaris Point",
  "Quantum Quasar",
  "Rigel Rift",
  "Sirius Sector",
  "Taurus Tides",
  "Ursa Ultima",
  "Vega Void",
  "Wolf\x27s Wisp",
  "Xena Crossroads",
  "Yggdrasil Yard",
  "Zenith Zone",
  "Altair Abyss",
  "Betelgeuse Beacon",
  "Cassiopeia Cluster",
  "Deneb Depths",
  "Epsilon Enigma",
  "Fomalhaut Fringes",
  "Gemini Gates",
  "Hercules Haven",
  "Io Isthmus",
  "Jupiter\x27s Jewel",
  "Kochab Keystone",
  "Leo\x27s Lair",
  "Merak Mists",
  "Nemesis Nexus",
  "Oberon Oasis",
  "Procyon Passage",
  "Quintessa",
  "Regulus Reach",
  "Spica Spiral",
  "Theta Threshold",
  "Umbra Utopia",
  "Virgo Venture",
  "Wezen Warp",
  "Xanadu Xing",
  "Yakima Yards",
  "Zosma Zone",
  "Andromeda Anchorage",
  "Botes Borderlands",
  "Canis Corridor",
  "Dorado Dominion",
  "Eridanus Expanse",
  "Fornax Frontier",
  "Grus Gateway",
  "Hydrus Horizon",
  "Indus Inlet",
  "Lacerta Labyrinth",
  "Mensa Meridian",
  "Norma Nebula",
  "Octans Odyssey",
  "Pavo Paradise",
  "Reticulum Realm",
  "Sagitta Sanctuary",
  "Tucana Traverse",
  "Ursa Utopia",
  "Vela Voyage",
  "Volans Vista",
  "Vulpecula Valley",
  "Carina Crossroads",
  "Centaurus Citadel",
  "Cetus Confluence",
  "Chamaeleon Channel",
  "Columba Colony",
  "Corvus Crest",
  "Crater Cradle",
  "Crux Crucible",
  "Delphinus Delta",
  "Dorado Domain",
  "Draco Drifts",
  "Equuleus Equator",
  "Hercules Hinterlands",
  "Horologium Halo",
  "Hydra Highlands",
  "Indus Inlet",
  "Lepus Leap",
  "Lupus Labyrinth",
  "Lynx Ledge",
  "Microscopium Maze",
  "Monoceros Meadow",
  "Musca Mists",
  "Ophiuchus Orbit",
  "Pegasus Passage",
  "Phoenix Frontier",
  "Pictor Plateau",
  "Pisces Pools"]

def moonNames : List String := [
  "Aether",
  "Borealis",
  "Calypso",
  "Deimos",
  "Echo",
  "Frostbite",
  "Ganymede",
  "Hyperion",
  "Io",
  "Janus",
  "Kerberos",
  "Luna",
  "Mimas",
  "Nix",
  "Oberon",
  "Phobos",
  "Quaoar",
  "Rhea",
  "Styx",
  "Titan",
  "Umbriel",
  "Vesta",
  "Wyvern",
  "Xena",
  "Ymir",
  "Zephyr",
  "Aegaeon",
  "Belinda",
  "Charon",
  "Dione",
  "Europa",
  "Fenrir",
  "Galatea",
  "Hydra",
  "Iapetus",
  "Juliet",
  "Kale",
  "Larissa",
  "Miranda",
  "Naiad",
  "Ophelia",
  "Pandora",
  "Quincy",
  "Rosalind",
  "Sedna",
  "Tethys",
  "Uranus",
  "Vanth",
  "Weywot",
  "Xanthus",
  "Yalode",
  "Zelinda",
  "Adrastea",
  "Bianca",
  "Callisto",
  "Despina",
  "Elara",
  "Fenrir",
  "Galatea",
  "Halimede",
  "Isonoe",
  "Japet",
  "Kari",
  "Leda",
  "Metis",
  "Neso",
  "Orthosie",
  "Pasiphae",
  "Qilin",
  "Rhea",
  "Sinope",
  "Thebe",
  "Umbiel",
  "Valetudo",
  "Wanda",
  "Xerxes",
  "Ymir",
  "Zoe",
  "Ananke",
  "Bellatrix",
  "Carme",
  "Dysnomia",
  "Erinome",
  "Fjorgyn",
  "Gaspra",
  "Herse",
  "Iocaste",
  "Jarnsaxa",
  "Kallichore",
  "Lysithea",
  "Megaclite",
  "Nix",
  "Orius",
  "Praxidike",
  "Quetzal",
  "Rhadamanthys",
  "Sponde",
  "Taygete",
  "Ursula",
  "Valeska",
  "Wezen",
  "Xolotl",
  "Yvaga",
  "Zircon",
  "Aoede",
  "Beira",
  "Cyllene",
  "Daphnis",
  "Euanthe",
  "Fenrir",
  "Greip",
  "Hati",
  "Ijiraq",
  "Janus",
  "Kiviuq",
  "Loge",
  "Mundilfari",
  "Narvi",
  "Odin",
  "Pallene",
  "Quaoar",
  "Ravn",
  "Skoll",
  "Thrymr",
  "Ull",
  "Vidarr",
  "Waldron",
  "Xena",
  "Ymir",
  "Zephyr",
  "Albiorix",
  "Bestla",
  "Callirrhoe",
  "Daphnis",
  "Erriapus",
  "Farbauti",
  "Gerd",
  "Hyrrokkin",
  "Idunn",
  "Jarnsaxa",
  "Kari",
  "Loge",
  "Mimas",
  "Narvi",
  "Odin",
  "Paaliaq",
  "Quaoar",
  "Rhea",
  "Skadi",
  "Tarvos",
  "Ull",
  "Vali",
  "Wezen",
  "Xena",
  "Ymir",
  "Zephyr",
  "Aegir",
  "Bebhionn",
  "Carpo",
  "Dia",
  "Erinome",
  "Fornjot",
  "Geirrod",
  "Hati",
  "Ijiraq",
  "Janus",
  "Kale",
  "Leda",
  "Methone",
  "Neso",
  "Orthosie",
  "Pallene",
  "Quaoar",
  "Rhadamanthys",
  "Siarnaq",
  "Tethys",
  "Uranus",
  "Valeska",
  "Wanda",
  "Xolotl",
  "Yvaga",
  "Zircon",
  "Anthe",
  "Bergelmir",
  "Carme",
  "Dione",
  "Eukelade",
  "Fenrir",
  "Greip",
  "Helene",
  "Iocaste",
  "Jarnsaxa",
  "Kiviuq",
  "Lysithea",
  "Megaclite",
  "Nix",
  "Orius",
  "Praxidike",
  "Quetzal",
  "Rhea",
  "Sponde",
  "Taygete",
  "Ursula",
  "Valeska",
  "Wezen",
  "Xolotl",
  "Yvaga",
  "Zircon",
  "Aoede",
  "Beira",
  "Cyllene",
  "Daphnis",
  "Euanthe",
  "Fenrir",
  "Greip",
  "Hati",
  "Ijiraq",
  "Janus",
  "Kiviuq",
  "Loge",
  "Mundilfari",
  "Narvi",
  "Odin",
  "Pallene",
  "Quaoar",
  "Ravn",
  "Skoll",
  "Thrymr",
  "Ull",
  "Vidarr",
  "Waldron",
  "Xena",
  "Ymir",
  "Zephyr",
  "Albiorix",
  "Bestla",
  "Callirrhoe",
  "Daphnis",
  "Erriapus",
  "Farbauti",
  "Gerd",
  "Hyrrokkin",
  "Idunn",
  "Jarnsaxa",
  "Kari",
  "Loge",
  "Mimas",
  "Narvi",
  "Odin",
  "Paaliaq",
  "Quaoar",
  "Rhea",
  "Skadi",
  "Tarvos",
  "Ull",
  "Vali",
  "Wezen",
  "Xena",
  "Ymir",
  "Zephyr",
  "Aegir",
  "Bebhionn",
  "Carpo",
  "Dia",
  "Erinome",
  "Fornjot",
  "Geirrod",
  "Hati",
  "Ijiraq",
  "Janus",
  "Kale",
  "Leda",
  "Methone",
  "Neso",
  "Orthosie",
  "Pallene",
  "Quaoar",
  "Rhadamanthys",
  "Siarnaq",
  "Tethys",
  "Uranus",
  "Valeska",
  "Wanda",
  "Xolotl",
  "Yvaga",
  "Zircon",
  "Anthe",
  "Bergelmir",
  "Carme",
  "Dione",
  "Eukelade",
  "Fenrir",
  "Greip",
  "Helene",
  "Iocaste",
  "Jarnsaxa",
  "Kiviuq",
  "Lysithea",
  "Megaclite",
  "Nix",
  "Orius",
  "Praxidike",
  "Quetzal",
  "Rhea",
  "Sponde",
  "Taygete",
  "Ursula",
  "Valeska",
  "Wezen",
  "Xolotl",
  "Yvaga",
  "Zircon",
  "Aoede",
  "Beira",
  "Cyllene",
  "Daphnis",
  "Euanthe",
  "Fenrir",
  "Greip",
  "Hati",
  "Ijiraq",
  "Janus",
  "Kiviuq",
  "Loge",
  "Mundilfari",
  "Narvi",
  "Odin",
  "Pallene",
  "Quaoar",
  "Ravn",
  "Skoll",
  "Thrymr",
  "Ull",
  "Vidarr",
  "Waldron",
  "Xena",
  "Ymir",
  "Zephyr"]

def planetNames : List String := [
  "Zephyria",
  "Novacron",
  "Lumina",
  "Aethoria",
  "Celestis",
  "Thalassia",
  "Chronos",
  "Nebulos",
  "Helixia",
  "Quasar",
  "Vortexia",
  "Stellaris",
  "Novalux",
  "Astralis",
  "Galaxia",
  "Pulsara",
  "Cosmora",
  "Novastra",
  "Solara",
  "Lunara",
  "Auroris",
  "Nebulox",
  "Heliosia",
  "Quantara",
  "Novatron",
  "Stellara",
  "Pulsaris",
  "Galaxara",
  "Chronara",
  "Vortexis",
  "Aetheron",
  "Celestara",
  "Thalassos",
  "Novastria",
  "Luminara",
  "Nebulon",
  "Helixara",
  "Quasara",
  "Stellarix",
  "Pulsaron",
  "Galaxora",
  "Chronosia",
  "Vortexara",
  "Aethorix",
  "Celestron",
  "Thalassara",
  "Novastra",
  "Luminaris",
  "Nebulara",
  "Helixion",
  "Quasaris",
  "Stellaron",
  "Pulsaria",
  "Galaxion",
  "Chronara",
  "Vortexion",
  "Aethoron",
  "Celestara",
  "Thalassion",
  "Novastron",
  "Luminara",
  "Nebuloris",
  "Helixara",
  "Quasaron",
  "Stellaris",
  "Pulsarion",
  "Galaxara",
  "Chronorix",
  "Vortexara",
  "Aethoris",
  "Celestris",
  "Thalassara",
  "Novastris",
  "Luminaris",
  "Nebularis",
  "Helixoris",
  "Quasaris",
  "Stellaron",
  "Pulsara",
  "Galaxoris",
  "Chronara",
  "Vortexaris",
  "Aethoron",
  "Celestara",
  "Thalassion",
  "Novastron",
  "Luminara",
  "Nebuloris",
  "Helixara",
  "Quasaron",
  "Stellaris",
  "Pulsarion",
  "Galaxara",
  "Chronorix",
  "Vortexara",
  "Aethoris",
  "Celestris",
  "Thalassara",
  "Novastris",
  "Luminaris",
  "Zephyros",
  "Novacrys",
  "Luminos",
  "Aethoros",
  "Celestos",
  "Thalassos",
  "Chronos",
  "Nebulos",
  "Helixos",
  "Quasaros",
  "Vortexos",
  "Stellaros",
  "Novaluxos",
  "Astralos",
  "Galaxos",
  "Pulsaros",
  "Cosmoros",
  "Novastros",
  "Solaros",
  "Lunaros",
  "Auroros",
  "Nebuloxos",
  "Heliosios",
  "Quantaros",
  "Novatronos",
  "Stellaros",
  "Pulsaros",
  "Galaxaros",
  "Chronaros",
  "Vortexos",
  "Aetheronos",
  "Celestaros",
  "Thalassos",
  "Novastrios",
  "Luminaros",
  "Nebulonos",
  "Helixaros",
  "Quasaros",
  "Stellarixos",
  "Pulsaronos",
  "Galaxoros",
  "Chronosios",
  "Vortexaros",
  "Aethorixos",
  "Celestronos",
  "Thalassaros",
  "Novastros",
  "Luminaros",
  "Nebularos",
  "Helixionos",
  "Quasaris",
  "Stellaronos",
  "Pulsarios",
  "Galaxionos",
  "Chronaros",
  "Vortexionos",
  "Aethoronos",
  "Celestaros",
  "Thalassionos",
  "Novastronos",
  "Luminaros",
  "Nebuloris",
  "Helixaros",
  "Quasaronos",
  "Stellaris",
  "Pulsarionos",
  "Galaxaros",
  "Chronorixos",
  "Vortexaros",
  "Aethoris",
  "Celestris",
  "Thalassaros",
  "Novastris",
  "Luminaros",
  "Nebularis",
  "Helixoris",
  "Quasaris",
  "Stellaronos",
  "Pulsaros",
  "Galaxoris",
  "Chronaros",
  "Vortexaris",
  "Aethoronos",
  "Celestaros",
  "Thalassionos",
  "Novastronos",
  "Luminaros",
  "Nebuloris",
  "Helixaros",
  "Quasaronos",
  "Stellaris",
  "Pulsarionos",
  "Galaxaros",
  "Chronorixos",
  "Vortexaros",
  "Aethoris",
  "Celestris",
  "Thalassaros",
  "Novastris",
  "Luminaros",
  "Zephyria",
  "Novacronia",
  "Luminara",
  "Aethoria",
  "Celestia",
  "Thalassia",
  "Chronia",
  "Nebulia",
  "Helixia",
  "Quasaria",
  "Vortexia",
  "Stellaria",
  "Novaluxia",
  "Astralia",
  "Galaxia",
  "Pulsaria",
  "Cosmoria",
  "Novastria",
  "Solaria",
  "Lunaria",
  "Auroria",
  "Nebuloxia",
  "Heliosia",
  "Quantaria",
  "Novatronia",
  "Stellaria",
  "Pulsaria",
  "Galaxaria",
  "Chronia",
  "Vortexia",
  "Aetheronia",
  "Celestaria",
  "Thalassia",
  "Novastria",
  "Luminaria",
  "Nebulia",
  "Helixaria",
  "Quasaria",
  "Stellarixia",
  "Pulsaronia",
  "Galaxoria",
  "Chronosia",
  "Vortexaria",
  "Aethorixia",
  "Celestronia",
  "Thalassaria",
  "Novastria",
  "Luminaria",
  "Nebularia",
  "Helixionia",
  "Quasaria",
  "Stellaronia",
  "Pulsaria",
  "Galaxionia",
  "Chronaria",
  "Vortexionia",
  "Aethoronia",
  "Celestaria",
  "Thalassionia",
  "Novastronia",
  "Luminaria",
  "Nebuloris",
  "Helixaria",
  "Quasaronia",
  "Stellaria",
  "Pulsarionia",
  "Galaxaria",
  "Chronorixia",
  "Vortexaria",
  "Aethoria",
  "Celestria",
  "Thalassaria",
  "Novastria",
  "Luminaria",
  "Nebularia",
  "Helixoria",
  "Quasaria",
  "Stellaronia",
  "Pulsaria",
  "Galaxoria",
  "Chronaria",
  "Vortexaria",
  "Aethoronia",
  "Celestaria",
  "Thalassionia",
  "Novastronia",
  "Luminaria",
  "Nebuloris",
  "Helixaria",
  "Quasaronia",
  "Stellaria",
  "Pulsarionia",
  "Galaxaria",
  "Chronorixia",
  "Vortexaria",
  "Aethoria",
  "Celestria",
  "Thalassaria",
  "Novastria",
  "Luminaria",
  "Zephyron",
  "Novacron",
  "Luminon",
  "Aethoron",
  "Celeston",
  "Thalassion",
  "Chronon",
  "Nebulon",
  "Helixon",
  "Quasaron",
  "Vortexon",
  "Stellaron",
  "Novaluxon",
  "Astralon",
  "Galaxon",
  "Pulsaron",
  "Cosmoron",
  "Novastron",
  "Solaron",
  "Lunaron",
  "Auroron",
  "Nebuloxon",
  "Heliosion",
  "Quantaron",
  "Novatronon",
  "Stellaron",
  "Pulsaron",
  "Galaxaron",
  "Chronaron",
  "Vortexon",
  "Aetheron",
  "Celestaron",
  "Thalassion",
  "Novastrion",
  "Luminaron",
  "Nebulon",
  "Helixaron",
  "Quasaron",
  "Stellarixon",
  "Pulsaron",
  "Galaxoron",
  "Chronosion",
  "Vortexaron",
  "Aethorixon",
  "Celestronon",
  "Thalassaron",
  "Novastron",
  "Luminaron",
  "Nebularon",
  "Helixionon",
  "Quasaron",
  "Stellaron",
  "Pulsarion",
  "Galaxionon",
  "Chronaron",
  "Vortexionon",
  "Aethoron",
  "Celestaron",
  "Thalassionon",
  "Novastronon",
  "Luminaron",
  "Nebuloron",
  "Helixaron",
  "Quasaron",
  "Stellaron",
  "Pulsarionon",
  "Galaxaron",
  "Chronorixon",
  "Vortexaron",
  "Aethoron",
  "Celestron",
  "Thalassaron",
  "Novastron",
  "Luminaron",
  "Nebularon",
  "Helixoron",
  "Quasaron",
  "Stellaron",
  "Pulsaron",
  "Galaxoron",
  "Chronaron",
  "Vortexaron",
  "Aethoron",
  "Celestaron",
  "Thalassionon",
  "Novastronon",
  "Luminaron",
  "Nebuloron",
  "Helixaron",
  "Quasaron",
  "Stellaron",
  "Pulsarionon",
  "Galaxaron",
  "Chronorixon",
  "Vortexaron",
  "Aethoron",
  "Celestron",
  "Thalassaron",
  "Novastron",
  "Luminaron"]


/-! ## Star generation -/

/-- Constant `FAR_ORBIT` (line 3). -/
def FAR_ORBIT : Int := 20

/-- Constant `PRIMARY_ORBIT` (line 4). -/
def PRIMARY_ORBIT : Int := -1

/-- The integers `[s, s + 1, ..., e - 1]` (empty when `e ≤ s`), used to model
the source's counting `for` loops. -/
def intRangeList (s e : Int) : List Int :=
  (List.range (e - s).toNat).map (fun k => s + Int.ofNat k)

/-- The `System` constructor (lines 21-35): one draw picks the name. -/
def mkSystem (star_type : StarType) (subtype : Nat) (size : StarSize)
    (orbit : Int) (max_orbits : Nat) (d : Dice) : System × Dice :=
  let (i, d) := draw starSystemNames.length d
  (.mk (starSystemNames.getD i "") ⟨star_type, subtype, size⟩ none none orbit
    max_orbits none [], d)

/-- Method `setMaxOrbits` (lines 37-40): `new Array(n)` throws a `RangeError`
for `n < 0`, otherwise the slot array becomes `n` nulls. -/
def setMaxOrbits (sys : System) (mo : Int) : Except GenError System :=
  if mo < 0 then .error .arrayLength
  else .ok (sys.withMax mo.toNat (List.replicate mo.toNat .nul))

/-- Function `genNumStars` (lines 346-355). -/
def genNumStars (d : Dice) : Nat × Dice :=
  let (roll, d) := roll2D d
  (if roll ≤ 7 then 1 else if roll < 12 then 2 else 3, d)

/-- Function `genPrimaryStarType` (lines 357-371). -/
def genPrimaryStarType (roll : Int) : StarType :=
  if roll ≤ 1 then .B else if roll = 2 then .A else if roll ≤ 7 then .M
  else if roll = 8 then .K else if roll = 9 then .G else .F

/-- TS `roll as StarSize` for a roll `≤ 4` (rolls below 0 cannot occur). -/
def starSizeOfInt (roll : Int) : StarSize :=
  if roll = 0 then .Ia else if roll = 1 then .Ib else if roll = 2 then .II
  else if roll = 3 then .III else if roll = 4 then .IV else .Ia

/-- Function `genPrimaryStarSize` (lines 373-405). -/
def genPrimaryStarSize (roll : Int) (star_type : StarType) (subType : Nat) : StarSize :=
  let star_size := if roll ≤ 4 then starSizeOfInt roll
    else if roll ≤ 10 then .V else if roll = 11 then .VI else .D
  let in_k5_to_m9 := ((star_type = .K ∧ subType ≥ 5) ∨ star_type.toNat > StarType.K.toNat) ∧
    star_type.toNat ≤ StarType.M.toNat
  let in_b0_to_f4 := star_type.toNat < StarType.F.toNat ∨ (star_type = .F ∧ subType ≤ 4)
  let star_size := if star_size = .IV ∧ in_k5_to_m9 then .V else star_size
  let star_size := if star_size = .VI ∧ in_b0_to_f4 then .V else star_size
  star_size

/-- Function `genCompanionStarType` (lines 407-421). -/
def genCompanionStarType (roll : Int) : StarType :=
  if roll ≤ 1 then .B else if roll = 2 then .A else if roll ≤ 4 then .F
  else if roll ≤ 6 then .G else if roll ≤ 8 then .K else .M

/-- Function `genCompanionStarSize` (lines 423-435). -/
def genCompanionStarSize (roll : Int) : StarSize :=
  if roll ≤ 4 then starSizeOfInt roll else if roll ≤ 6 then .D
  else if roll ≤ 8 then .V else if roll = 9 then .VI else .D

/-- Function `genCompanionOrbit` (lines 437-447). -/
def genCompanionOrbit (roll : Int) (d : Dice) : Int × Dice :=
  if roll ≤ 3 then (-1, d)
  else if roll ≤ 6 then (roll - 3, d)
  else if roll ≤ 11 then
    let (r, d) := roll1D d
    (roll - 3 + r, d)
  else (FAR_ORBIT, d)

/-- Function `genMaxOrbits` (lines 449-469). -/
def genMaxOrbits (star : Star) (d : Dice) : Int × Dice :=
  let mod : Int := if star.size.toNat ≤ StarSize.II.toNat then 8
    else if star.size = .III then 4 else 0
  let mod := if star.star_type = .M then mod - 4
    else if star.star_type = .K then mod - 2 else mod
  let (r, d) := roll2D d
  let orbits : Int := (r : Int) + mod
  (if orbits < 0 then 0 else orbits, d)

/-- One level of function `genCompanionSystem` (lines 474-520).  `recur` is
the handler for the recursion into a sub-companion (`none` once the
recursion-depth fuel is exhausted); the recursive call is only reached for a
far companion, and a nested companion's orbit is never `FAR_ORBIT` (its
placement roll is at most `roll2D - 4 ≤ 8 < 12`), so any fuel ≥ 1
reproduces the source behaviour. -/
def genCompanionSystemGo (recur : Option (Int → Int → Int → Dice → Except GenError (System × Dice)))
    (primary_type_roll primary_size_roll orbit : Int) (d : Dice) :
    Except GenError (System × Dice) := do
  let (ct, d) := roll2D d
  let companion_type_roll : Int := (ct : Int) + primary_type_roll
  let (cs, d) := roll2D d
  let companion_size_roll : Int := (cs : Int) + primary_size_roll
  let (sub, d) := roll10 d
  let (companion, d) := mkSystem (genCompanionStarType companion_type_roll) sub
    (genCompanionStarSize companion_size_roll) orbit 0 d
  let (gmo, d) := genMaxOrbits companion.star d
  let companion ← setMaxOrbits companion (min (Int.fdiv orbit 2) gmo)
  if companion.orbit = FAR_ORBIT then
    let (num_stars, d) := genNumStars d
    if num_stars > 1 then
      match recur with
      | none => .ok (companion, d)
      | some f => do
        let (r2, d) := roll2D d
        let (orbit2, d) := genCompanionOrbit ((r2 : Int) - 4) d
        let (sec, d) ← f companion_type_roll companion_size_roll orbit2 d
        let companion := companion.withSecondary (some sec)
        let companion := companion.withOrbits
          (jsSet companion.orbits orbit2 (.sysRef .secondary))
        if orbit2 = FAR_ORBIT then
          let (gmo2, d) := genMaxOrbits sec.star d
          let sec ← setMaxOrbits sec gmo2
          .ok (companion.withSecondary (some sec), d)
        else
          let (gmo2, d) := genMaxOrbits sec.star d
          let sec ← setMaxOrbits sec (min (Int.fdiv orbit2 2) gmo2)
          .ok (companion.withSecondary (some sec), d)
    else .ok (companion, d)
  else .ok (companion, d)

/-- Function `genCompanionSystem` as iterated `genCompanionSystemGo`. -/
def genCompanionSystem (fuel : Nat) : Int → Int → Int → Dice → Except GenError (System × Dice) :=
  Nat.rec (genCompanionSystemGo none) (fun _ ih => genCompanionSystemGo (some ih)) fuel

/-- Function `emptyOrbitsNearCompanion` (lines 522-529). -/
def emptyOrbitsNearCompanion (sys : System) (orbit : Int) : System :=
  let a := (intRangeList (Int.fdiv orbit 2 + 1) orbit).foldl
    (fun acc i => jsSet acc i (.empty i)) sys.orbits
  let a := jsSet a (orbit + 1) (.empty (orbit + 1))
  let a := jsSet a (orbit + 2) (.empty (orbit + 2))
  sys.withOrbits a

/-- Function `genStars` (lines 567-629). -/
def genStars (world_mod : Int) (companions_possible : Bool) (d : Dice) :
    Except GenError (System × Dice) := do
  let (num_stars, d) := if companions_possible then genNumStars d else (1, d)
  let (pt, d) := roll2D d
  let primary_type_roll : Int := pt
  let (ps, d) := roll2D d
  let primary_size_roll : Int := ps
  let star_type := genPrimaryStarType (primary_type_roll + world_mod)
  let (star_subtype, d) := roll10 d
  let star_size := genPrimaryStarSize primary_size_roll star_type star_subtype
  let (sys, d) := mkSystem star_type star_subtype star_size PRIMARY_ORBIT 0 d
  let (gmo, d) := genMaxOrbits sys.star d
  let sys ← setMaxOrbits sys gmo
  if num_stars > 1 then do
    let (r, d) := roll2D d
    let (orbit0, d) := genCompanionOrbit r d
    let orbit := if orbit0 ≤ (getZone sys).inside then 0 else orbit0
    let (sec, d) ← genCompanionSystem 1 primary_type_roll primary_size_roll orbit d
    let sys := sys.withSecondary (some sec)
    let sys := if orbit ≥ 0 then
        sys.withOrbits (jsSet sys.orbits orbit (.sysRef .secondary))
      else sys
    let sys := emptyOrbitsNearCompanion sys orbit
    if num_stars = 3 then do
      let (r3, d) := roll2D d
      let (orbit3a, d) := genCompanionOrbit ((r3 : Int) + 4) d
      let orbit3 := if orbit3a ≤ (getZone sys).inside then 0 else orbit3a
      let (ter, d) ← genCompanionSystem 1 primary_type_roll primary_size_roll orbit3 d
      let sys := sys.withTertiary (some ter)
      let sys := if orbit3 ≥ 0 then
          sys.withOrbits (jsSet sys.orbits orbit3 (.sysRef .tertiary))
        else sys
      let sys := emptyOrbitsNearCompanion sys orbit3
      .ok (sys, d)
    else .ok (sys, d)
  else .ok (sys, d)

/-! ## Orbit population pipeline -/

/-- Function `countOpenOrbits` (lines 631-641): nulls among indices
`1 .. max_orbits` inclusive (index `max_orbits` reads past the array and sees
`undefined`, never `null`). -/
def countOpenOrbits (sys : System) : Nat :=
  ((intRangeList 1 ((sys.max_orbits : Int) + 1)).filter
    (fun i => jsGet sys.orbits i == Slot.nul)).length

/-- Indices of `null` slots from position `n` on: the source's `map`/`filter`
idiom written as a recursion (array holes are skipped by JS `map` and are not
`null` anyway). -/
def nullIndicesFrom (n : Int) : List Slot → List Int
  | [] => []
  | s :: rest =>
    if s = Slot.nul then n :: nullIndicesFrom (n + 1) rest
    else nullIndicesFrom (n + 1) rest

/-- Indices of `null` slots. -/
def nullIndices (a : List Slot) : List Int :=
  nullIndicesFrom 0 a

/-- The while loop of `genEmptyOrbits` (lines 557-563). -/
def emptyLoop : System → List Int → Nat → Dice → System × Dice
  | sys, _, 0, d => (sys, d)
  | sys, valid, n + 1, d =>
    if valid.isEmpty then (sys, d)
    else
      let (pos, d) := draw valid.length d
      let orbit := valid.getD pos 0
      let sys := sys.withOrbits (jsSet sys.orbits orbit (.empty orbit))
      emptyLoop sys (valid.eraseIdx pos) n d

/-- Function `genEmptyOrbits` (lines 531-564). -/
def genEmptyOrbits (sys : System) (d : Dice) : System × Dice :=
  let (r1, d) := roll1D d
  if r1 < 5 then (sys, d)
  else
    let (r2, d) := roll1D d
    let num_empty := if r2 ≤ 2 then 1 else if r2 = 3 then 2 else 3
    emptyLoop sys (nullIndices sys.orbits) num_empty d

/-- The gas-giant count table of `genGasGiants` (lines 649-661). -/
def gasGiantTable (roll : Int) : Nat :=
  if roll ≤ 3 then 1 else if roll ≤ 5 then 2 else if roll ≤ 7 then 3
  else if roll ≤ 10 then 4 else 5

/-- The placement loop of `genGasGiants` (lines 689-719); returns the number
of giants still unplaced when the viable orbits ran out. -/
def gasLoop : System → List Int → List Int → Nat → Dice → Except GenError (System × Nat × Dice)
  | sys, _, _, 0, d => .ok (sys, 0, d)
  | sys, outer, inner, n + 1, d =>
    if outer.length + inner.length = 0 then .ok (sys, n + 1, d)
    else do
      let (orbit, outer, inner, d) :=
        if outer.length > 0 then
          let (pos, d) := draw outer.length d
          (outer.getD pos 0, outer.eraseIdx pos, inner, d)
        else
          let (pos, d) := draw inner.length d
          (inner.getD pos 0, outer, inner.eraseIdx pos, d)
      let (r, d) := roll1D d
      let name ← genPlanetName sys orbit
      let g : GasGiant :=
        if r ≤ 3 then ⟨name, .Small, orbit⟩ else ⟨name, .Large, orbit⟩
      gasLoop (sys.withOrbits (jsSet sys.orbits orbit (.gasGiant g []))) outer inner n d

/-- Function `genGasGiants` (lines 643-733): returns the number of giants
actually placed together with the updated system. -/
def genGasGiants (sys : System) (d : Dice) : Except GenError (Nat × System × Dice) := do
  let (r0, d) := roll2D d
  if r0 ≥ 10 then .ok (0, sys, d)
  else
    let (r1, d) := roll2D d
    let num_giants := min (gasGiantTable r1) (countOpenOrbits sys)
    let habitable := (getZone sys).habitable
    let outer := (nullIndices sys.orbits).filter (fun i => habitable ≤ i)
    let inner := (nullIndices sys.orbits).filter (fun i => i < habitable)
    let (sys, remaining, d) ← gasLoop sys outer inner num_giants d
    .ok (num_giants - remaining, sys, d)

/-- Subordinate UWP statistics, function `genSubordinateStats`
(lines 1234-1316). -/
def genSubordinateStats (world : World) (mw : World) (d : Dice) : World × Dice :=
  let population := world.population
  let mod : Int := if mw.government = 6 then population
    else if mw.government ≥ 7 then 1 else 0
  let (g1, d) := roll1D d
  let sw : Int := (g1 : Int) + mod
  let government : Int := if sw = 1 then 0 else if sw = 2 then 1
    else if sw = 3 then 2 else if sw = 4 then 3 else 6
  let government := if population ≤ 0 then 0 else government
  let (l1, d) := roll1D d
  let law_level : Int := (l1 : Int) - 3 + mw.law_level
  let law_level := if law_level ≤ 0 ∨ population ≤ 0 then 0 else law_level
  let tech_level := mw.tech_level - 1
  let tech_level := if tech_level ≤ 0 ∨ population ≤ 0 then 0 else tech_level
  let tech_level := if population > 0 ∧
      ¬(world.atmosphere = 5 ∨ world.atmosphere = 6 ∨ world.atmosphere = 8) ∧
      tech_level < 7 then 7 else tech_level
  let mod2 : Int := if population = 0 then -3 else if population = 1 then -2
    else if population = 2 ∨ population = 3 ∨ population = 4 ∨ population = 5 then 0
    else 2
  let (p1, d) := roll1D d
  let roll : Int := (p1 : Int) + mod2
  let port : PortCode := if roll ≤ 2 then .Y else if roll = 3 then .H
    else if roll ≤ 5 then .G else .F
  (world.set_subordinate_stats port government law_level tech_level [], d)

/-- Function `genSubordinateFacilities` (lines 1173-1232).  `orbit` is the
orbit argument of the source (a satellite passes its own orbit here). -/
def genSubordinateFacilities (sys : System) (world : World) (orbit : Int)
    (mw : World) (d : Dice) : World × Dice :=
  let fs := world.facilities
  let fs := if mw.trade_classes.contains .Industrial ∧ world.population ≥ 2 then
      fs ++ [.Mining] else fs
  let fs := if orbit = (getZone sys).habitable ∧ orbit > (getZone sys).inner ∧
      world.atmosphere ≥ 4 ∧ world.atmosphere ≤ 9 ∧ world.hydro ≥ 4 ∧
      world.hydro ≤ 8 ∧ world.population ≥ 2 then fs ++ [.Farming] else fs
  let fs := if world.government = 6 ∧ world.population ≥ 5 then
      fs ++ [.Colony] else fs
  let (fs, world, d) :=
    if mw.population > 0 ∧ mw.tech_level > 8 then
      let (lr, d) := roll2D d
      if (lr : Int) + (if mw.tech_level ≥ 10 then 2 else 0) +
          (if world.population = 0 then -2 else 0) ≥ 12 then
        let world := if world.tech_level = mw.tech_level - 1 then
            { world with tech_level := mw.tech_level } else world
        (fs ++ [.Lab], world, d)
      else (fs, world, d)
    else (fs, world, d)
  let md : Int := (if mw.population ≥ 8 then 1 else 0) +
    (if mw.atmosphere = world.atmosphere then 2 else 0) +
    (if mw.facilities.contains .Naval ∨ mw.facilities.contains .Scout then 1 else 0)
  let (mr, d) := roll2D d
  let fs := if ¬ mw.trade_classes.contains .Poor ∧ world.population > 0 ∧
      (mr : Int) + md ≥ 12 then fs ++ [.Military] else fs
  ({ world with facilities := fs }, d)

/-- The planetoid placement loop of `genPlanetoids` (lines 771-815). -/
def planetoidLoop : System → World → List Int → List Int → Nat → Dice → System × Dice
  | sys, _, _, _, 0, d => (sys, d)
  | sys, mw, giants, other, n + 1, d =>
    if giants.length + other.length = 0 then (sys, d)
    else
      let (orbit, giants, other, d) :=
        if giants.length > 0 then
          let (pos, d) := draw giants.length d
          (giants.getD pos 0, giants.eraseIdx pos, other, d)
        else
          let (pos, d) := draw other.length d
          (other.getD pos 0, giants, other.eraseIdx pos, d)
      let (pr, d) := roll2D d
      let population : Int := (pr : Int) - 2 +
        (if orbit ≤ (getZone sys).inner then -5 else 0) +
        (if orbit > (getZone sys).habitable then -5 else 0)
      let population := if population < 0 then 0 else population
      let population := if population ≥ mw.population then mw.population - 1
        else population
      let planetoid := mkWorld "Planetoid Belt" orbit orbit 0 0 0 population false false
      let pd := genSubordinateStats planetoid mw d
      let fd := genSubordinateFacilities sys pd.1 orbit mw pd.2
      planetoidLoop (sys.withOrbits (jsSet sys.orbits orbit (.world fd.1 [])))
        mw giants other n fd.2

/-- Function `genPlanetoids` (lines 735-816). -/
def genPlanetoids (sys : System) (num_giants : Nat) (mw : World) (d : Dice) :
    System × Dice :=
  let (r0, d) := roll2D d
  if r0 ≥ 7 then (sys, d)
  else
    let (r1, d) := roll2D d
    let roll : Int := (r1 : Int) - num_giants
    let num_planetoids := if roll ≤ 0 then 3 else if roll ≤ 6 then 2 else 1
    let viable_giants := sys.orbits.enum.filterMap (fun p =>
      match p.2 with
      | .gasGiant _ _ =>
        if jsGet sys.orbits (((p.1 : Nat) : Int) - 1) = Slot.nul then
          some (((p.1 : Nat) : Int) - 1)
        else none
      | _ => none)
    let viable_other := sys.orbits.enum.filterMap (fun p =>
      if p.2 = Slot.nul ∧ ¬ viable_giants.contains ((p.1 : Nat) : Int) then
        some ((p.1 : Nat) : Int)
      else none)
    planetoidLoop sys mw viable_giants viable_other num_planetoids d


/-! ## Worlds and satellites -/

/-- Function `genWorld` (lines 888-987). -/
def genWorld (name : String) (sys : System) (orbit : Int) (mw : World) (d : Dice) :
    World × Dice :=
  let mod : Int := if orbit = 0 then -5 else if orbit = 1 then -4
    else if orbit = 2 then -2 else 0
  let mod := if sys.star.star_type = .M then mod - 2 else mod
  let (sr, d) := roll2D d
  let size : Int := (sr : Int) - 2 + mod
  let size := if size < 0 then 0 else size
  let (roll, d) := roll2D d
  let (ar, d) := roll2D d
  let atmosphere : Int := (ar : Int) - 7 + size +
    (if orbit ≤ (getZone sys).inner then -2 else 0) +
    (if orbit > (getZone sys).habitable then -2 else 0)
  let atmosphere := if atmosphere ≤ 0 then 0 else atmosphere
  let atmosphere := if (roll : Int) = 12 ∧ orbit > (getZone sys).habitable then 10
    else atmosphere
  let atmosphere := if atmosphere ≥ 10 then 10 else atmosphere
  let (hr, d) := roll2D d
  let hydro : Int := (hr : Int) - 7 + size +
    (if orbit > (getZone sys).habitable then -4 else 0) +
    (if atmosphere ≤ 1 ∨ atmosphere ≥ 10 then -4 else 0)
  let hydro := if size ≤ 0 ∨ orbit ≤ (getZone sys).inner then 0 else hydro
  let hydro := if hydro < 0 then 0 else hydro
  let hydro := if hydro ≥ 10 then 10 else hydro
  let (pr, d) := roll2D d
  let population : Int := (pr : Int) - 2 +
    (if orbit ≤ (getZone sys).inner then -5 else 0) +
    (if orbit > (getZone sys).habitable then -5 else 0) +
    (if ¬(atmosphere = 0 ∨ atmosphere = 5 ∨ atmosphere = 6 ∨ atmosphere = 8) then -2
      else 0)
  let population := if population < 0 then 0 else population
  let population := if population ≥ mw.population then mw.population - 1 else population
  let nd := if population > 0 then
      let (i, d) := draw planetNames.length d
      (planetNames.getD i "", d)
    else (name, d)
  let world := mkWorld nd.1 orbit orbit size atmosphere hydro population false false
  let wd := genSubordinateStats world mw nd.2
  genSubordinateFacilities sys wd.1 orbit mw wd.2

/-- The `World | GasGiant` union used by the satellite generator. -/
inductive PrimaryBody where
  | world (w : World)
  | gasGiant (g : GasGiant)
deriving Repr, DecidableEq

/-- Method `get_orbit` common to `World` and `GasGiant`. -/
def PrimaryBody.orbit : PrimaryBody → Int
  | .world w => w.orbit
  | .gasGiant g => g.orbit

/-- Function `numSatellites` (lines 989-1002); the satellite count is read
from the primary's satellite list, which the caller carries alongside it. -/
def numSatellites (primary : PrimaryBody) (d : Dice) : Nat × Dice :=
  match primary with
  | .world w =>
    if w.size ≤ 0 then (0, d)
    else
      let (r, d) := roll1D d
      ((max 0 ((r : Int) - 3)).toNat, d)
  | .gasGiant g =>
    if g.size = .Small then
      let (r, d) := roll2D d
      ((max 0 ((r : Int) - 4)).toNat, d)
    else
      let (r, d) := roll2D d
      (r, d)

def ringIndicesFrom (n : Nat) : List World → List Nat
  | [] => []
  | s :: rest =>
    if s.size = 0 then n :: ringIndicesFrom (n + 1) rest
    else ringIndicesFrom (n + 1) rest

/-- Function `clean_satellites` (lines 1004-1024), acting on a body's
satellite list.  The JS stable `sort` by orbit is `insertionSort` with `≤`;
`ringIndicesFrom 0` is the source's enumerate/map/filter over the sorted
list; the later splices use those precomputed indices, each erase acting on
the current (already shortened) list, exactly as `Array.splice` does; the
source's extra numeric sort of `ring_indices` is the identity on this
already-ascending list. -/
def clean_satellites (sats : List World) : List World :=
  let sorted := sats.insertionSort (fun a b => a.orbit ≤ b.orbit)
  match ringIndicesFrom 0 sorted with
  | [] => sorted
  | i0 :: rest =>
    let pruned := rest.foldl (fun acc i => acc.eraseIdx i) sorted
    pruned.modify (fun s => { s with name := "Ring System" }) i0

/-- The collision loop of `genSatelliteOrbit` (lines 1058-1063): bump the
orbit until no existing satellite holds it.  `fuel = sats.length + 1` steps
always reach a free orbit (at most `sats.length` of the `fuel` candidate
orbits are taken), so the fuel arm reproduces the source's `while`. -/
def probeOrbitAux : List World → Int → Nat → Int
  | _, orbit, 0 => orbit
  | sats, orbit, fuel + 1 =>
    if sats.any (fun s => s.orbit == orbit) then probeOrbitAux sats (orbit + 1) fuel
    else orbit

/-- Collision resolution entry point (see `probeOrbitAux`). -/
def probeOrbit (sats : List World) (orbit : Int) : Int :=
  probeOrbitAux sats orbit (sats.length + 1)

/-- Function `genSatelliteOrbit` (lines 1026-1065). -/
def genSatelliteOrbit (primary : PrimaryBody) (sats : List World) (is_ring : Bool)
    (d : Dice) : Int × Dice :=
  let (orbit, d) :=
    if is_ring then
      let (r, d) := roll1D d
      ((if r ≤ 3 then 1 else if r ≤ 5 then 2 else 3 : Int), d)
    else
      let (otr, d) := roll2D d
      let orbit_type_roll : Int := (otr : Int) - (sats.length : Int)
      if orbit_type_roll ≤ 7 then
        let (r, d) := roll12 d
        ((r : Int) + 3, d)
      else if orbit_type_roll = 12 ∧ (match primary with | .gasGiant _ => true | _ => false) = true then
        let (r, d) := roll12 d
        (((r : Int) + 3) * 25, d)
      else
        let (r, d) := roll12 d
        (((r : Int) + 3) * 5, d)
  (probeOrbit sats orbit, d)

/-- The part of function `genSatellite` (lines 1067-1162) after the size
roll, split out so that it can be reasoned about for an arbitrary size. -/
def genSatelliteBody (sys : System) (primary : PrimaryBody) (sats : List World)
    (mw : World) (size : Int) (d : Dice) : List World × Dice :=
  let (orbit, d) := genSatelliteOrbit primary sats (size == 0) d
  if size = 0 then
    let ring := { mkWorld "Ring System" orbit primary.orbit 0 0 0 0 true false with
      port := PortCode.Y }
    (sats ++ [ring], d)
  else
    let (roll, d) := roll2D d
    let (ar, d) := roll2D d
    let atmosphere : Int := (ar : Int) - 7 + size +
      (if primary.orbit ≤ (getZone sys).inner then -4 else 0) +
      (if primary.orbit > (getZone sys).habitable then -4 else 0)
    let atmosphere := if atmosphere ≤ 1 then 0 else atmosphere
    let atmosphere := if (roll : Int) = 12 ∧ primary.orbit > (getZone sys).habitable
      then 10 else atmosphere
    let (hr, d) := roll2D d
    let hydro : Int := (hr : Int) - 7 + size +
      (if primary.orbit > (getZone sys).habitable then -4 else 0) +
      (if atmosphere ≤ 1 ∨ atmosphere ≥ 10 then -4 else 0)
    let hydro := if hydro < 0 then 0 else hydro
    let hydro := if size ≤ 0 ∨ primary.orbit ≤ (getZone sys).inner then 0 else hydro
    let (pr, d) := roll2D d
    let population : Int := (pr : Int) - 2 +
      (if primary.orbit ≤ (getZone sys).inner then -5 else 0) +
      (if primary.orbit > (getZone sys).habitable then -4 else 0) +
      (if ¬(atmosphere = 5 ∨ atmosphere = 6 ∨ atmosphere = 8) then -2 else 0)
    let population := if population < 0 then 0 else population
    let (ni, d) := draw moonNames.length d
    let satellite := mkWorld (moonNames.getD ni "") orbit primary.orbit size
      atmosphere hydro population true false
    let sd := genSubordinateStats satellite mw d
    let fd := genSubordinateFacilities sys sd.1 orbit mw sd.2
    (sats ++ [fd.1], fd.2)

/-- Function `genSatellite` (lines 1067-1162): rolls the satellite size from
the primary's kind, then appends the generated satellite (or ring) to the
primary's satellite list via `genSatelliteBody`. -/
def genSatellite (sys : System) (primary : PrimaryBody) (sats : List World)
    (mw : World) (d : Dice) : List World × Dice :=
  let (size, d) := match primary with
    | .world w =>
      let (r, d) := roll1D d
      (w.size - (r : Int), d)
    | .gasGiant g =>
      if g.size = .Small then
        let (r, d) := roll2D d
        ((r : Int) - 6, d)
      else
        let (r, d) := roll2D d
        ((r : Int) - 4, d)
  let size := if size < 0 then -1 else size
  genSatelliteBody sys primary sats mw size d

/-- One level of function `placeMainWorld` (lines 818-886).  The source
mutates the single main-world object and stores references to it in
`system.main_world` and in the slot / satellite list it lands in; the
embedding returns the final value and stores it at each spot.  `recur` is
the handler for the recursion into a companion node (`none` once the
recursion-depth fuel of `placeMainWorld` is exhausted). -/
def placeMainWorldGo (recur : Option (System → World → Dice → System × World × Dice))
    (sys : System) (world : World) (d : Dice) : System × World × Dice :=
    let requires_habitable := world.atmosphere > 1 ∧ world.atmosphere < 10 ∧
      world.size > 0
    let habitable0 := (getZone sys).habitable
    let habitable := if (habitable0 = -1 ∨ habitable0 = (getZone sys).inner) ∧
        requires_habitable then max (getZone sys).inner 0 else habitable0
    if requires_habitable then
      match jsGet sys.orbits habitable with
      | .sysRef t =>
        let world := { world with star_orbit := habitable }
        match recur, sys.companionOf t with
        | some f, some c =>
          let (c, world, d) := f c world d
          ((sys.withCompanion t c).withMainWorld (some world), world, d)
        | _, _ => (sys.withMainWorld (some world), world, d)
      | .gasGiant g sats =>
        let (orb, d) := genSatelliteOrbit (.gasGiant g) sats (world.size == 0) d
        let world := { world with orbit := orb, star_orbit := habitable }
        let sys := sys.withOrbits (jsSet sys.orbits habitable
          (.gasGiant g (sats ++ [world])))
        (sys.withMainWorld (some world), world, d)
      | _ =>
        let world := { world with star_orbit := habitable, orbit := habitable }
        ((sys.withOrbits (jsSet sys.orbits habitable (.world world []))).withMainWorld
          (some world), world, d)
    else
      let empty_orbits := (nullIndices sys.orbits).filter (fun x => x > 0)
      if empty_orbits.length > 0 then
        let (pos, d) := draw empty_orbits.length d
        let orbit := empty_orbits.getD pos 0
        let world := { world with orbit := orbit }
        ((sys.withOrbits (jsSet sys.orbits orbit (.world world []))).withMainWorld
          (some world), world, d)
      else
        let (pos, d) := draw sys.max_orbits d
        let world := { world with orbit := (pos : Int) }
        ((sys.withOrbits (jsSet sys.orbits (pos : Int) (.world world []))).withMainWorld
          (some world), world, d)

/-- Function `placeMainWorld` (lines 818-886) as iterated `placeMainWorldGo`
(`fuel` bounds the recursion into companion nodes, which is at most the
depth of the companion tree; any fuel ≥ 3 reproduces the source). -/
def placeMainWorld (fuel : Nat) : System → World → Dice → System × World × Dice :=
  Nat.rec (placeMainWorldGo none) (fun _ ih => placeMainWorldGo (some ih)) fuel

/-- The filler-world loop of `fillSystem` (lines 1404-1411): every
still-`null` slot above the hot threshold receives a generated world. -/
def fillerLoop (mw : World) : System → List Int → Dice → Except GenError (System × Dice)
  | sys, [], d => .ok (sys, d)
  | sys, i :: rest, d =>
    if jsGet sys.orbits i = Slot.nul then do
      let name ← genPlanetName sys i
      let (w, d) := genWorld name sys i mw d
      fillerLoop mw (sys.withOrbits (jsSet sys.orbits i (.world w []))) rest d
    else fillerLoop mw sys rest d

/-- The per-body satellite loop of `fillSystem` (lines 1417-1419). -/
def satLoop (sys : System) (primary : PrimaryBody) (mw : World) :
    Nat → List World → Dice → List World × Dice
  | 0, sats, d => (sats, d)
  | n + 1, sats, d =>
    let (sats, d) := genSatellite sys primary sats mw d
    satLoop sys primary mw n sats d

/-- The satellites pass of `fillSystem` (lines 1413-1422). -/
def satellitePass (mw : World) : System → List Int → Dice → System × Dice
  | sys, [], d => (sys, d)
  | sys, i :: rest, d =>
    match jsGet sys.orbits i with
    | .world w sats =>
      let (n, d) := numSatellites (.world w) d
      let (sats, d) := satLoop sys (.world w) mw n sats d
      let sats := clean_satellites sats
      satellitePass mw (sys.withOrbits (jsSet sys.orbits i (.world w sats))) rest d
    | .gasGiant g sats =>
      let (n, d) := numSatellites (.gasGiant g) d
      let (sats, d) := satLoop sys (.gasGiant g) mw n sats d
      let sats := clean_satellites sats
      satellitePass mw (sys.withOrbits (jsSet sys.orbits i (.gasGiant g sats))) rest d
    | _ => satellitePass mw sys rest d

/-- One level of function `fillSystem` (lines 1393-1430): the phase sequence
of one star node, then recursion into its companions through `recur`
(`none` once the recursion-depth fuel is exhausted; companion nesting is at
most 3 deep, so any fuel ≥ 3 reproduces the source). -/
def fillLevel (recur : Option (System → World → Bool → Dice → Except GenError (System × Dice)))
    (sys : System) (mw : World) (is_primary : Bool) (d : Dice) :
    Except GenError (System × Dice) := do
  let (sys, d) := genEmptyOrbits sys d
  let (num_gas_giants, sys, d) ← genGasGiants sys d
  let (sys, d) := genPlanetoids sys num_gas_giants mw d
  let (sys, mw, d) := if is_primary then placeMainWorld 3 sys mw d else (sys, mw, d)
  let hot := (getZone sys).hot
  let sys := (intRangeList 0 (hot + 1)).foldl
    (fun s i => s.withOrbits (jsSet s.orbits i (.empty i))) sys
  let (sys, d) ← fillerLoop mw sys (intRangeList (hot + 1) ((sys.max_orbits : Int) + 1)) d
  let (sys, d) := satellitePass mw sys (intRangeList 1 ((sys.max_orbits : Int) + 1)) d
  match recur with
  | none => .ok (sys, d)
  | some f => do
    let (sys, d) ←
      match sys.secondary with
      | some sec =>
        if sec.orbit > 0 then do
          let (sec, d) ← f sec mw false d
          .ok (sys.withSecondary (some sec), d)
        else .ok (sys, d)
      | none => .ok (sys, d)
    match sys.tertiary with
    | some ter =>
      if ter.orbit > 0 then do
        let (ter, d) ← f ter mw false d
        .ok (sys.withTertiary (some ter), d)
      else .ok (sys, d)
    | none => .ok (sys, d)

/-- Function `fillSystem` as iterated `fillLevel` (a `Nat.rec` keeps kernel
reduction of the bounded recursion cheap). -/
def fillSystem (fuel : Nat) : System → World → Bool → Dice → Except GenError (System × Dice) :=
  Nat.rec (fillLevel none) (fun _ ih => fillLevel (some ih)) fuel

/-- Function `genTradeClasses` (lines 1322-1378); the `VacuumWorld` block is
commented out in the source. -/
def genTradeClasses (w : World) : World :=
  let tc := w.trade_classes
  let tc := if w.atmosphere ≥ 4 ∧ w.atmosphere ≤ 9 ∧ w.hydro ≥ 4 ∧ w.hydro ≤ 8 ∧
      w.population ≥ 5 ∧ w.population ≤ 7 then tc ++ [.Agricultural] else tc
  let tc := if w.atmosphere ≤ 3 ∧ w.hydro ≤ 3 ∧ w.population ≥ 6 then
      tc ++ [.NonAgricultural] else tc
  let tc := if (w.atmosphere = 0 ∨ w.atmosphere = 1 ∨ w.atmosphere = 2 ∨
      w.atmosphere = 4 ∨ w.atmosphere = 7 ∨ w.atmosphere = 9) ∧ w.population ≥ 9 then
      tc ++ [.Industrial] else tc
  let tc := if w.population > 0 ∧ w.population ≤ 6 then tc ++ [.NonIndustrial] else tc
  let tc := if (w.atmosphere = 6 ∨ w.atmosphere = 8) ∧
      (w.population = 6 ∨ w.population = 7 ∨ w.population = 8) ∧
      w.government ≥ 4 ∧ w.government ≤ 9 then tc ++ [.Rich] else tc
  let tc := if w.population ≥ 0 ∧ w.atmosphere ≥ 2 ∧ w.atmosphere ≤ 5 ∧
      w.hydro ≤ 3 then tc ++ [.Poor] else tc
  let tc := if w.hydro ≥ 10 then tc ++ [.WaterWorld] else tc
  let tc := if w.hydro ≤ 0 ∧ w.atmosphere > 1 then tc ++ [.DesertWorld] else tc
  let tc := if w.atmosphere ≤ 1 ∧ w.hydro ≥ 10 then tc ++ [.Icecapped] else tc
  { w with trade_classes := tc }

/-- Function `generateSystem` (lines 1379-1391), the full generation pass
(`compute_astro_data` touches only the omitted floating-point astro data). -/
def generateSystem (mw : World) (d : Dice) : Except GenError (System × Dice) := do
  let star_mod : Int := if (mw.atmosphere ≥ 4 ∧ mw.atmosphere ≤ 9) ∨
      mw.population ≥ 8 then 4 else 0
  let (sys, d) ← genStars star_mod true d
  let mw := genTradeClasses mw
  fillSystem 3 sys mw true d


/-! ## Concrete worlds and dice streams used by the theorems -/

/-- A caller-supplied main world: breathable atmosphere 8, so it requires the
habitable zone (used for the overwrite run). -/
def mwHab : World :=
  { name := "Habitatwelt", orbit := 0, star_orbit := 0, is_satellite := false
    is_mainworld := true, port := .A, size := 8, atmosphere := 8, hydro := 5
    population := 5, law_level := 0, government := 0, tech_level := 0
    facilities := [], trade_classes := [] }

/-- A caller-supplied main world with vacuum atmosphere and population 1
(used for the satellite and far-companion runs). -/
def mwVac : World :=
  { name := "Testwelt", orbit := 0, star_orbit := 0, is_satellite := false
    is_mainworld := true, port := .A, size := 8, atmosphere := 0, hydro := 0
    population := 1, law_level := 0, government := 0, tech_level := 0
    facilities := [], trade_classes := [] }

/-- Dice for a single-star G V run in which the empty-orbit seeding marks the
habitable orbit 3 Empty and the habitable-requiring main world then
overwrites it. -/
def diceOverwrite : Dice := [0, 0, 1, 2, 2, 3, 0, 0, 1, 1, 4, 0, 3, 4, 4, 3, 3]

/-- Dice for a single-star G V run in which the filler world at the habitable
orbit 3 receives one satellite of size 6 with atmosphere 11 and
population 8. -/
def diceSatellite : Dice :=
  [0, 0, 3, 4, 2, 3, 0, 0, 1, 1,
   0, 4, 4, 3, 3, 0,
   0, 0, 0, 0, 0, 0, 0, 0, 0, 0, 0, 0, 0, 0, 0,
   0, 0, 0, 0, 0, 0, 0, 0, 0, 0, 0, 0, 0, 0, 0,
   4, 3, 0, 0, 2, 3, 0, 0, 0, 0, 0, 0, 0, 0, 0,
   0, 3,
   0, 0, 0, 0, 0, 0, 5, 5, 0, 0, 5, 5, 0, 0, 0, 0, 0, 0]

/-- Dice for a two-star run whose secondary lands at `FAR_ORBIT` (orbit 20):
the primary's slot array grows to 23 entries while `max_orbits` is 4. -/
def diceFar : Dice :=
  [3, 3, 3, 4, 2, 3, 0, 0, 1, 1,
   5, 5,
   0, 0, 0, 0, 0, 0, 1, 1, 0, 0,
   0, 4, 4, 3, 3, 0,
   0, 0, 0, 0, 0, 0, 0, 0, 0, 0, 0, 0, 0, 0, 0,
   0, 0, 0, 0, 0, 0, 0, 0, 0, 0, 0, 0, 0, 0, 0,
   0, 0, 0, 0, 0, 0, 0, 0, 0, 0, 0, 0, 0, 0, 0,
   0,
   0, 4, 4, 3, 3]

/-- The primary node built by `genStars 0 true diceFar` (checked by `rfl`
below): a G0 V star with 4 orbit slots whose array was grown to 23 entries by
the far companion's slot write and `emptyOrbitsNearCompanion`. -/
def sysFar : System :=
  System.mk "Aegis Prime" ⟨.G, 0, .V⟩
    (some (System.mk "Aegis Prime" ⟨.M, 0, .VI⟩ none none (20 : Int) 0 none []))
    none (-1 : Int) 4 none
    [.nul, .nul, .nul, .nul, .undef, .undef, .undef, .undef, .undef, .undef,
     .undef, .empty (11 : Int), .empty (12 : Int), .empty (13 : Int),
     .empty (14 : Int), .empty (15 : Int), .empty (16 : Int), .empty (17 : Int),
     .empty (18 : Int), .empty (19 : Int), .sysRef .secondary,
     .empty (21 : Int), .empty (22 : Int)]

/-- The dice left after `genStars 0 true diceFar`. -/
def diceFarRest : Dice :=
  [0, 4, 4, 3, 3, 0, 0, 0, 0, 0, 0, 0, 0, 0, 0, 0, 0, 0, 0, 0, 0, 0, 0, 0, 0,
   0, 0, 0, 0, 0, 0, 0, 0, 0, 0, 0, 0, 0, 0, 0, 0, 0, 0, 0, 0, 0, 0, 0, 0, 0,
   0, 0, 0, 4, 4, 3, 3]

/-- `mwVac` after `genTradeClasses` (population 1 makes it non-industrial). -/
def mwVacT : World :=
  { mwVac with trade_classes := [.NonIndustrial] }

/-- Does a generation result have a primary slot array whose length differs
from its `max_orbits`? -/
def lenMismatch : Except GenError (System × Dice) → Bool
  | .ok (s, _) => s.orbits.length != s.max_orbits
  | .error _ => false

/-- Does the world at slot 3 of a generation result carry a satellite whose
population reaches `p`? -/
def satPopReaches (p : Int) : Except GenError (System × Dice) → Bool
  | .ok (s, _) =>
    match jsGet s.orbits 3 with
    | .world _ [sat] => sat.is_satellite && !sat.is_mainworld && decide (p ≤ sat.population)
    | _ => false
  | .error _ => false

/-- Does the world at slot 3 of a generation result carry a satellite whose
atmosphere digit exceeds 10? -/
def satAtmExceeds10 : Except GenError (System × Dice) → Bool
  | .ok (s, _) =>
    match jsGet s.orbits 3 with
    | .world _ [sat] => sat.is_satellite && decide (10 < sat.atmosphere)
    | _ => false
  | .error _ => false

/-- Is slot 3 occupied by the (habitable-requiring) main world? -/
def slot3IsMainWorld : Except GenError (System × Dice) → Bool
  | .ok (s, _) =>
    match jsGet s.orbits 3 with
    | .world w _ => w.is_mainworld
    | _ => false
  | .error _ => false

/-- A satellite of size −1 ("S" encoding), claim C2's counterexample. -/
def wSatS : World := mkWorld "Moon" 0 0 (-1) 0 0 0 true false

/-- A satellite of size 0: `to_upp` encodes its size digit as `R`. -/
def wSatR : World := mkWorld "Moon" 0 0 0 0 0 0 true false

/-- A zero-size ring satellite at the given orbit, as `genSatellite` builds
one. -/
def ringAt (o : Int) : World :=
  { mkWorld "Ring System" o 3 0 0 0 0 true false with port := PortCode.Y }

instance : IsTotal World (fun a b => a.orbit ≤ b.orbit) :=
  ⟨fun a b => Int.le_total a.orbit b.orbit⟩

instance : IsTrans World (fun a b => a.orbit ≤ b.orbit) :=
  ⟨fun _ _ _ => Int.le_trans⟩

/-- Does the overwrite run first mark orbit 3 Empty (after `genEmptyOrbits`)
and then end with the main world stored in that same slot? -/
def emptyThenMainWorld : Bool :=
  match genStars 4 true diceOverwrite with
  | .ok (sys, d) =>
    decide (jsGet ((genEmptyOrbits sys d).1).orbits 3 = Slot.empty 3) &&
      slot3IsMainWorld (generateSystem mwHab diceOverwrite)
  | .error _ => false

/-- Did a generation run abort with the `arabicToRoman` range error? -/
def isRomanError : Except GenError (System × Dice) → Bool
  | .error .romanRange => true
  | _ => false

/-- Slot invariants: a predicate `Q` on an array position and its slot
value, holding at every position of the array (out-of-range reads
included). -/
def SlotOK (Q : Int → Slot → Prop) (a : List Slot) : Prop :=
  ∀ i : Int, Q i (jsGet a i)

/-- The slot invariant of claim C1's belt half: any world stored in a slot
has population in `[0, mw.population)`. -/
def popBound (mw : World) : Int → Slot → Prop :=
  fun _ s => ∀ (w : World) (sats : List World), s = Slot.world w sats →
    0 ≤ w.population ∧ w.population < mw.population

/-- The slot invariant of claim C4: position `j` holds the Empty marker. -/
def emptyAt (j : Int) : Int → Slot → Prop :=
  fun i s => i = j → s = Slot.empty j

/-- The slot invariant behind C10: `null` appears only at positions at most
19, where `genPlanetName` (the Roman numeral of `orbit + 1`) succeeds. -/
def nulBound : Int → Slot → Prop :=
  fun i s => s = Slot.nul → i ≤ 19

/-- Does the slot's stored orbit match its array position (claim C3)?
`sysRef` slots store no orbit of their own, and holes, `null`s and Empty
markers record nothing misaligned except the Empty marker's own index. -/
def alignedSlotB (i : Int) : Slot → Bool
  | .world w _ => w.orbit == i
  | .gasGiant g _ => g.orbit == i
  | .empty e => e == i
  | _ => true

/-- The C3 slot invariant in `Prop` form. -/
def alignedQ : Int → Slot → Prop :=
  fun i s => alignedSlotB i s = true

/-- Bool check of `alignedSlotB` along an array starting at position `n`. -/
def alignedFromB (n : Int) : List Slot → Bool
  | [] => true
  | s :: rest => alignedSlotB n s && alignedFromB (n + 1) rest

/-- The companion-pointer half of claim C3 in `Prop` form: a `sysRef` slot at
position `i` points at a companion node whose own `orbit` field equals `i`. -/
def refAligned (sys : System) : Prop :=
  ∀ (i : Int) (t : CompTag) (c : System),
    jsGet sys.orbits i = Slot.sysRef t → sys.companionOf t = some c → c.orbit = i

/-- `refAligned` over a system node and its companions to a given depth. -/
def RATree : Nat → System → Prop
  | 0, sys => refAligned sys
  | n + 1, sys => refAligned sys ∧
      (∀ c, sys.secondary = some c → RATree n c) ∧
      (∀ c, sys.tertiary = some c → RATree n c)

/-- Slot invariant relative to a reference array `a0`: any `sysRef` tag in
the current slot already sits at the same position of `a0`.  The orbit
population phases never write `sysRef` values, so each phase maps the
invariant anchored at its own input array. -/
def refsFrom (a0 : List Slot) : Int → Slot → Prop :=
  fun i s => ∀ t : CompTag, s = Slot.sysRef t → jsGet a0 i = Slot.sysRef t

/-- Bool check of the companion-pointer alignment along an array starting at
position `n`, against the companions of `sys`. -/
def refAlignedFromB (sys : System) : Int → List Slot → Bool
  | _, [] => true
  | n, s :: rest =>
    (match s with
     | Slot.sysRef t =>
       match sys.companionOf t with
       | some c => c.orbit == n
       | none => true
     | _ => true) && refAlignedFromB sys (n + 1) rest

/-- Bool check of C3's alignment over a system node and its companions (the
companion tree is at most 3 levels deep): stored orbits match positions and
`sysRef` slots point at companions parked at that very position. -/
def treeAlignedB : Nat → System → Bool
  | 0, sys => alignedFromB 0 sys.orbits && refAlignedFromB sys 0 sys.orbits
  | n + 1, sys => alignedFromB 0 sys.orbits && refAlignedFromB sys 0 sys.orbits &&
      (match sys.secondary with | some c => treeAlignedB n c | none => true) &&
      (match sys.tertiary with | some c => treeAlignedB n c | none => true)

/-- Alignment of a whole generation result (an aborted run places
nothing). -/
def alignedResult : Except GenError (System × Dice) → Bool
  | .error _ => true
  | .ok (s, _) => treeAlignedB 3 s

/-- A slot invariant over a system node and its companions to a given
depth. -/
def QTree (Q : Int → Slot → Prop) : Nat → System → Prop
  | 0, sys => SlotOK Q sys.orbits
  | n + 1, sys => SlotOK Q sys.orbits ∧
      (∀ c, sys.secondary = some c → QTree Q n c) ∧
      (∀ c, sys.tertiary = some c → QTree Q n c)

/-- A bare G V system with three orbit slots, two of them open in the sense
of `countOpenOrbits` (index 0 is not counted). -/
def sysTwoOpen : System :=
  System.mk "Duo" ⟨.G, 0, .V⟩ none none (-1 : Int) 3 none [.nul, .nul, .nul]

/-- Dice for `genGasGiants` on `sysTwoOpen`: presence roll 2, count roll 11
(a request for five gas giants against two open orbits). -/
def diceFiveGiants : Dice := [0, 0, 5, 4]

/-! ## Theorems -/

/-- C9: for every star size, star type, and rounded subtype (0 or 5) in the
zone table, whenever the five thresholds inside, hot, inner, habitable and
outer are all ≥ 0, they satisfy
`inside ≤ hot ≤ inner ≤ habitable ≤ outer`. -/
theorem zone_thresholds_monotone (size : StarSize) (ty : StarType) (sub : Nat)
    (hsub : sub = 0 ∨ sub = 5)
    (h : 0 ≤ (zoneTables size ty sub).inside ∧ 0 ≤ (zoneTables size ty sub).hot ∧
      0 ≤ (zoneTables size ty sub).inner ∧ 0 ≤ (zoneTables size ty sub).habitable ∧
      0 ≤ (zoneTables size ty sub).outer) :
    (zoneTables size ty sub).inside ≤ (zoneTables size ty sub).hot ∧
    (zoneTables size ty sub).hot ≤ (zoneTables size ty sub).inner ∧
    (zoneTables size ty sub).inner ≤ (zoneTables size ty sub).habitable ∧
    (zoneTables size ty sub).habitable ≤ (zoneTables size ty sub).outer := by
  rcases hsub with rfl | rfl <;> cases size <;> cases ty <;> revert h <;> decide

/-- Witness for C9 at the B-type Ia row (all thresholds nonnegative). -/
theorem zone_thresholds_monotone_witness :
    (0 ≤ (zoneTables .Ia .B 0).inside ∧ 0 ≤ (zoneTables .Ia .B 0).hot ∧
      0 ≤ (zoneTables .Ia .B 0).inner ∧ 0 ≤ (zoneTables .Ia .B 0).habitable ∧
      0 ≤ (zoneTables .Ia .B 0).outer) ∧
    ((zoneTables .Ia .B 0).inside ≤ (zoneTables .Ia .B 0).hot ∧
      (zoneTables .Ia .B 0).hot ≤ (zoneTables .Ia .B 0).inner ∧
      (zoneTables .Ia .B 0).inner ≤ (zoneTables .Ia .B 0).habitable ∧
      (zoneTables .Ia .B 0).habitable ≤ (zoneTables .Ia .B 0).outer) :=
  ⟨by decide, zone_thresholds_monotone .Ia .B 0 (Or.inl rfl) (by decide)⟩


/-- C8: on a 9-character string, `from_upp` succeeds exactly when the six
digit positions (indices 1-6) and the tech position (index 8) are
case-insensitive hex digits; the first character, if outside the recognized
port set, yields port Y; and the separator position (index 7) never affects
the outcome. -/
theorem from_upp_error_behaviour (name : String) (sat main : Bool)
    (c0 c1 c2 c3 c4 c5 c6 c7 c8 : Char) :
    ((World.from_upp name [c0, c1, c2, c3, c4, c5, c6, c7, c8] sat main).isOk =
      ((hexToDecimal c1).isOk && (hexToDecimal c2).isOk && (hexToDecimal c3).isOk &&
        (hexToDecimal c4).isOk && (hexToDecimal c5).isOk && (hexToDecimal c6).isOk &&
        (hexToDecimal c8).isOk)) ∧
    (c0 ∉ ['A', 'B', 'C', 'D', 'E', 'X', 'Y', 'H', 'G', 'F'] →
      ∀ w, World.from_upp name [c0, c1, c2, c3, c4, c5, c6, c7, c8] sat main =
        .ok w → w.port = PortCode.Y) := by
  have hport : c0 ∉ ['A', 'B', 'C', 'D', 'E', 'X', 'Y', 'H', 'G', 'F'] →
      portOfChar c0 = PortCode.Y := by
    intro h
    simp only [List.mem_cons, List.mem_singleton] at h
    push_neg at h
    obtain ⟨h1, h2, h3, h4, h5, h6, h7, h8, h9, h10⟩ := h
    simp [portOfChar, h1, h2, h3, h4, h5, h6, h7, h8, h9, h10]
  have key1 : ∀ (e1 e2 e3 e4 e5 e6 e8 : Except UppError Int),
      (do
        let size ← e1
        let atmosphere ← e2
        let hydro ← e3
        let population ← e4
        let government ← e5
        let law_level ← e6
        let tech_level ← e8
        Except.ok ((mkWorld name 0 0 size atmosphere hydro population sat
          main).set_subordinate_stats (portOfChar c0) government law_level tech_level []) :
        Except UppError World).isOk =
      (e1.isOk && e2.isOk && e3.isOk && e4.isOk && e5.isOk && e6.isOk && e8.isOk) := by
    intro e1 e2 e3 e4 e5 e6 e8
    cases e1 <;> cases e2 <;> cases e3 <;> cases e4 <;> cases e5 <;> cases e6 <;>
      cases e8 <;> rfl
  have key2 : ∀ (e1 e2 e3 e4 e5 e6 e8 : Except UppError Int) (w : World),
      (do
        let size ← e1
        let atmosphere ← e2
        let hydro ← e3
        let population ← e4
        let government ← e5
        let law_level ← e6
        let tech_level ← e8
        Except.ok ((mkWorld name 0 0 size atmosphere hydro population sat
          main).set_subordinate_stats (portOfChar c0) government law_level tech_level []) :
        Except UppError World) = .ok w → w.port = portOfChar c0 := by
    intro e1 e2 e3 e4 e5 e6 e8 w hw
    cases e1 <;> cases e2 <;> cases e3 <;> cases e4 <;> cases e5 <;> cases e6 <;>
      cases e8 <;> simp only [bind, Except.bind, reduceCtorEq] at hw
    injection hw with hw
    subst hw
    rfl
  refine ⟨key1 (hexToDecimal c1) (hexToDecimal c2) (hexToDecimal c3) (hexToDecimal c4)
    (hexToDecimal c5) (hexToDecimal c6) (hexToDecimal c8), fun hc w hw => ?_⟩
  have := key2 (hexToDecimal c1) (hexToDecimal c2) (hexToDecimal c3) (hexToDecimal c4)
    (hexToDecimal c5) (hexToDecimal c6) (hexToDecimal c8) w hw
  rw [this, hport hc]

/-- Witness for C8: an unrecognized port character with hex digits parses to
port Y, and a non-hex digit position fails. -/
theorem from_upp_error_behaviour_witness :
    ((World.from_upp "w" ['Q', '1', '2', '3', '4', '5', '6', '-', '7'] false
        false).isOk =
      ((hexToDecimal '1').isOk && (hexToDecimal '2').isOk && (hexToDecimal '3').isOk &&
        (hexToDecimal '4').isOk && (hexToDecimal '5').isOk && (hexToDecimal '6').isOk &&
        (hexToDecimal '7').isOk)) ∧
    ('Q' ∉ ['A', 'B', 'C', 'D', 'E', 'X', 'Y', 'H', 'G', 'F'] →
      ∀ w, World.from_upp "w" ['Q', '1', '2', '3', '4', '5', '6', '-', '7'] false
        false = .ok w → w.port = PortCode.Y) :=
  from_upp_error_behaviour "w" false false 'Q' '1' '2' '3' '4' '5' '6' '-' '7'


/-- C2 counterexample: a satellite of size −1 encodes its size digit as `S`
and a satellite of size 0 encodes it as `R`; `from_upp` feeds that character
to `hexToDecimal`, so parsing either string back fails with an invalid-digit
error instead of returning an equal world. -/
theorem upp_roundtrip_counterexample :
    (wSatS.to_upp = .ok ['A', 'S', '0', '0', '0', '0', '0', '-', '0'] ∧
      World.from_upp wSatS.name ['A', 'S', '0', '0', '0', '0', '0', '-', '0']
        wSatS.is_satellite wSatS.is_mainworld = .error (.invalidDigit 's')) ∧
    (wSatR.to_upp = .ok ['A', 'R', '0', '0', '0', '0', '0', '-', '0'] ∧
      World.from_upp wSatR.name ['A', 'R', '0', '0', '0', '0', '0', '-', '0']
        wSatR.is_satellite wSatR.is_mainworld = .error (.invalidDigit 'r')) :=
  ⟨⟨rfl, rfl⟩, ⟨rfl, rfl⟩⟩

/-- On `[0, 15]`, `hexToDecimal` inverts `decimalToHex`. -/
theorem hexToDecimal_decimalToHex (d : Int) (h0 : 0 ≤ d) (h15 : d ≤ 15) :
    ∃ c, decimalToHex d = .ok c ∧ hexToDecimal c = .ok d := by
  interval_cases d <;> exact ⟨_, rfl, rfl⟩

/-- The port switch of `from_upp` inverts the port character of `to_upp`. -/
theorem portOfChar_portChar (p : PortCode) : portOfChar (portChar p) = p := by
  cases p <;> rfl

/-- C2 amended: the UPP round-trip `from_upp (to_upp w)` restores port, size,
atmosphere, hydrographics, population, government, law level and tech level,
for worlds whose digits are in `[0, 15]` and whose size digit encodes as an
actual hex digit: size in `[1, 15]`, or size 0 on a non-satellite that is a
main world or carries a belt name (the `"0"` encoding).  The `"S"` and `"R"`
encodings do not round-trip (see the counterexample). -/
theorem upp_roundtrip_amended (w : World)
    (ha : 0 ≤ w.atmosphere ∧ w.atmosphere ≤ 15)
    (hh : 0 ≤ w.hydro ∧ w.hydro ≤ 15)
    (hp : 0 ≤ w.population ∧ w.population ≤ 15)
    (hg : 0 ≤ w.government ∧ w.government ≤ 15)
    (hl : 0 ≤ w.law_level ∧ w.law_level ≤ 15)
    (ht : 0 ≤ w.tech_level ∧ w.tech_level ≤ 15)
    (hs : (1 ≤ w.size ∧ w.size ≤ 15) ∨
      (w.size = 0 ∧ w.is_satellite = false ∧
        (w.is_mainworld = true ∨ nameHasPlanetoid w.name = true))) :
    ∃ upp w', w.to_upp = .ok upp ∧
      World.from_upp w.name upp w.is_satellite w.is_mainworld = .ok w' ∧
      w'.port = w.port ∧ w'.size = w.size ∧ w'.atmosphere = w.atmosphere ∧
      w'.hydro = w.hydro ∧ w'.population = w.population ∧
      w'.government = w.government ∧ w'.law_level = w.law_level ∧
      w'.tech_level = w.tech_level := by
  obtain ⟨ca, hca, hca'⟩ := hexToDecimal_decimalToHex w.atmosphere ha.1 ha.2
  obtain ⟨ch, hch, hch'⟩ := hexToDecimal_decimalToHex w.hydro hh.1 hh.2
  obtain ⟨cp, hcp, hcp'⟩ := hexToDecimal_decimalToHex w.population hp.1 hp.2
  obtain ⟨cg, hcg, hcg'⟩ := hexToDecimal_decimalToHex w.government hg.1 hg.2
  obtain ⟨cl, hcl, hcl'⟩ := hexToDecimal_decimalToHex w.law_level hl.1 hl.2
  obtain ⟨ct, hct, hct'⟩ := hexToDecimal_decimalToHex w.tech_level ht.1 ht.2
  have hsize : ∃ cs,
      (if (w.is_satellite ∧ w.size = -1) ∨
          (w.size ≤ 0 ∧ ¬w.is_mainworld ∧ ¬w.is_satellite ∧
            ¬nameHasPlanetoid w.name) then
        pure 'S'
      else if w.is_satellite ∧ w.size = 0 then pure 'R'
      else if w.size = 0 then pure '0'
      else decimalToHex w.size : Except UppError Char) = .ok cs ∧
      hexToDecimal cs = .ok w.size := by
    rcases hs with ⟨h1, h15⟩ | ⟨h0, hns, hmp⟩
    · obtain ⟨cs, hcs, hcs'⟩ := hexToDecimal_decimalToHex w.size (by omega) h15
      have hC1 : ¬((w.is_satellite = true ∧ w.size = -1) ∨
          (w.size ≤ 0 ∧ ¬w.is_mainworld = true ∧ ¬w.is_satellite = true ∧
            ¬nameHasPlanetoid w.name = true)) := by
        rintro (⟨-, hx⟩ | ⟨hx, -⟩) <;> omega
      have hC2 : ¬(w.is_satellite = true ∧ w.size = 0) := by
        rintro ⟨-, hx⟩; omega
      have hC3 : ¬(w.size = 0) := by omega
      exact ⟨cs, by rw [if_neg hC1, if_neg hC2, if_neg hC3, hcs], hcs'⟩
    · have hC1 : ¬((w.is_satellite = true ∧ w.size = -1) ∨
          (w.size ≤ 0 ∧ ¬w.is_mainworld = true ∧ ¬w.is_satellite = true ∧
            ¬nameHasPlanetoid w.name = true)) := by
        rintro (⟨hx, -⟩ | ⟨-, hnm, -, hnpl⟩)
        · rw [hns] at hx; exact Bool.false_ne_true hx
        · rcases hmp with hm | hpl
          · exact hnm hm
          · exact hnpl hpl
      have hC2 : ¬(w.is_satellite = true ∧ w.size = 0) := by
        rintro ⟨hx, -⟩; rw [hns] at hx; exact Bool.false_ne_true hx
      refine ⟨'0', by rw [if_neg hC1, if_neg hC2, if_pos h0]; rfl, by rw [h0]; rfl⟩
  obtain ⟨cs, hcs, hcs'⟩ := hsize
  have hupp : w.to_upp = .ok [portChar w.port, cs, ca, ch, cp, cg, cl, '-', ct] := by
    unfold World.to_upp
    split at hcs
    · rename_i hcnd
      obtain rfl := Except.ok.inj hcs
      rw [if_pos hcnd]
      simp only [bind, Except.bind, hca, hch, hcp, hcg, hcl, hct]
      rfl
    · rename_i hcnd1
      split at hcs
      · rename_i hcnd3
        obtain rfl := Except.ok.inj hcs
        rw [if_neg hcnd1, if_pos hcnd3]
        simp only [bind, Except.bind, hca, hch, hcp, hcg, hcl, hct]
        rfl
      · rename_i hcnd3
        split at hcs
        · rename_i hcnd4
          obtain rfl := Except.ok.inj hcs
          rw [if_neg hcnd1, if_neg hcnd3, if_pos hcnd4]
          simp only [bind, Except.bind, hca, hch, hcp, hcg, hcl, hct]
          rfl
        · rename_i hcnd4
          rw [if_neg hcnd1, if_neg hcnd3, if_neg hcnd4]
          simp only [bind, Except.bind, hcs, hca, hch, hcp, hcg, hcl, hct]
  have hback : World.from_upp w.name [portChar w.port, cs, ca, ch, cp, cg, cl, '-', ct]
      w.is_satellite w.is_mainworld =
      .ok ((mkWorld w.name 0 0 w.size w.atmosphere w.hydro w.population
        w.is_satellite w.is_mainworld).set_subordinate_stats
        (portOfChar (portChar w.port)) w.government w.law_level w.tech_level []) := by
    simp only [World.from_upp, hcs', hca', hch', hcp', hcg', hcl', hct', bind,
      Except.bind]
  refine ⟨_, _, hupp, hback, ?_⟩
  rw [portOfChar_portChar]
  exact ⟨rfl, rfl, rfl, rfl, rfl, rfl, rfl, rfl⟩

/-- Witness for C2 amended at a concrete main world. -/
theorem upp_roundtrip_amended_witness :
    (0 ≤ mwHab.atmosphere ∧ mwHab.atmosphere ≤ 15) ∧
    ∃ upp w', mwHab.to_upp = .ok upp ∧
      World.from_upp mwHab.name upp mwHab.is_satellite mwHab.is_mainworld = .ok w' ∧
      w'.port = mwHab.port ∧ w'.size = mwHab.size ∧ w'.atmosphere = mwHab.atmosphere ∧
      w'.hydro = mwHab.hydro ∧ w'.population = mwHab.population ∧
      w'.government = mwHab.government ∧ w'.law_level = mwHab.law_level ∧
      w'.tech_level = mwHab.tech_level :=
  ⟨by decide, upp_roundtrip_amended mwHab (by decide) (by decide) (by decide)
    (by decide) (by decide) (by decide) (Or.inl (by decide))⟩


/-- C5 counterexample: with three zero-size satellites (orbits 1, 2, 3), the
splice loop of `clean_satellites` erases the wrong positions and two
zero-size satellites survive instead of one. -/
theorem clean_satellites_counterexample :
    ((clean_satellites [ringAt 1, ringAt 2, ringAt 3]).filter
      (fun s => s.size == 0)).length = 2 := by decide

/-- Ring-free lists contribute no ring indices. -/
theorem ringIndicesFrom_ringfree (n : Nat) (l : List World)
    (h : ∀ s ∈ l, s.size ≠ 0) : ringIndicesFrom n l = [] := by
  induction l generalizing n with
  | nil => rfl
  | cons a l ih =>
    rw [ringIndicesFrom, if_neg (h a (List.mem_cons_self a l))]
    exact ih _ (fun s hs => h s (List.mem_cons_of_mem a hs))

/-- The first ring index after a ring-free prefix. -/
theorem ringIndicesFrom_append (n : Nat) (A : List World) (r : World)
    (B : List World) (hA : ∀ s ∈ A, s.size ≠ 0) (hr : r.size = 0) :
    ringIndicesFrom n (A ++ r :: B) =
      (n + A.length) :: ringIndicesFrom (n + A.length + 1) B := by
  induction A generalizing n with
  | nil => simp [ringIndicesFrom, hr]
  | cons a A ih =>
    rw [List.cons_append, ringIndicesFrom,
      if_neg (hA a (List.mem_cons_self a A)),
      ih (n + 1) (fun s hs => hA s (List.mem_cons_of_mem a hs))]
    have h1 : n + 1 + A.length = n + (a :: A).length := by
      simp [List.length_cons]; omega
    rw [h1]

/-- Erasing at the junction of an append removes the junction element. -/
theorem eraseIdx_at_append (X : List World) (y : World) (Z : List World) :
    (X ++ y :: Z).eraseIdx X.length = X ++ Z := by
  induction X with
  | nil => rfl
  | cons x X ih => simp [List.eraseIdx, ih]

/-- Modifying at the junction of an append rewrites the junction element. -/
theorem modify_at_append (f : World → World) (X : List World) (y : World)
    (Z : List World) : (X ++ y :: Z).modify f X.length = X ++ f y :: Z := by
  induction X with
  | nil => rfl
  | cons x X ih =>
    show (x :: (X ++ y :: Z)).modify f (X.length + 1) = x :: (X ++ f y :: Z)
    rw [show (x :: (X ++ y :: Z)).modify f (X.length + 1) =
      x :: (X ++ y :: Z).modify f X.length from rfl, ih]

/-- A list with exactly one zero-size element splits around it. -/
theorem zero_split_one (l : List World)
    (h : (l.filter (fun s => s.size == 0)).length = 1) :
    ∃ B r C, l = B ++ r :: C ∧ r.size = 0 ∧
      (∀ s ∈ B, s.size ≠ 0) ∧ (∀ s ∈ C, s.size ≠ 0) := by
  induction l with
  | nil => simp at h
  | cons a l ih =>
    by_cases ha : a.size = 0
    · rw [List.filter_cons_of_pos (by simpa using ha)] at h
      simp only [List.length_cons] at h
      have h0 : (l.filter (fun s => s.size == 0)).length = 0 := by omega
      refine ⟨[], a, l, by simp, ha, by simp, ?_⟩
      intro s hs hs0
      have hmem : s ∈ l.filter (fun s => s.size == 0) :=
        List.mem_filter.mpr ⟨hs, by simpa using hs0⟩
      rw [List.length_eq_zero.mp h0] at hmem
      exact absurd hmem (List.not_mem_nil s)
    · rw [List.filter_cons_of_neg (by simpa using ha)] at h
      obtain ⟨B, r, C, hl, hr, hB, hC⟩ := ih h
      exact ⟨a :: B, r, C, by rw [hl]; rfl, hr,
        fun s hs => by
          rcases List.mem_cons.mp hs with rfl | hs'
          · exact ha
          · exact hB s hs', hC⟩

/-- A list with exactly two zero-size elements splits around both. -/
theorem zero_split_two (l : List World)
    (h : (l.filter (fun s => s.size == 0)).length = 2) :
    ∃ A r1 B r2 C, l = A ++ r1 :: (B ++ r2 :: C) ∧ r1.size = 0 ∧ r2.size = 0 ∧
      (∀ s ∈ A, s.size ≠ 0) ∧ (∀ s ∈ B, s.size ≠ 0) ∧ (∀ s ∈ C, s.size ≠ 0) := by
  induction l with
  | nil => simp at h
  | cons a l ih =>
    by_cases ha : a.size = 0
    · rw [List.filter_cons_of_pos (by simpa using ha)] at h
      simp only [List.length_cons] at h
      have h1 : (l.filter (fun s => s.size == 0)).length = 1 := by omega
      obtain ⟨B, r, C, hl, hr, hB, hC⟩ := zero_split_one l h1
      exact ⟨[], a, B, r, C, by rw [hl]; rfl, ha, hr, by simp, hB, hC⟩
    · rw [List.filter_cons_of_neg (by simpa using ha)] at h
      obtain ⟨A, r1, B, r2, C, hl, h1, h2, hA, hB, hC⟩ := ih h
      exact ⟨a :: A, r1, B, r2, C, by rw [hl]; rfl, h1, h2,
        fun s hs => by
          rcases List.mem_cons.mp hs with rfl | hs'
          · exact ha
          · exact hA s hs', hB, hC⟩

/-- Renaming the junction element preserves orbit-distinctness. -/
theorem pairwise_orbit_rename (A Z : List World) (r1 rn : World)
    (horb : rn.orbit = r1.orbit)
    (hp : (A ++ r1 :: Z).Pairwise (fun a b => a.orbit ≠ b.orbit)) :
    (A ++ rn :: Z).Pairwise (fun a b => a.orbit ≠ b.orbit) := by
  rw [List.pairwise_append] at hp ⊢
  obtain ⟨hA, hrz, hcross⟩ := hp
  rw [List.pairwise_cons] at hrz ⊢
  refine ⟨hA, ⟨fun y hy => by rw [horb]; exact hrz.1 y hy, hrz.2⟩, ?_⟩
  intro x hx y hy
  rcases List.mem_cons.mp hy with rfl | hy'
  · rw [horb]; exact hcross x hx r1 (List.mem_cons_self r1 Z)
  · exact hcross x hx y (List.mem_cons_of_mem _ hy')


/-- C5 amended: with exactly two zero-size satellites and pairwise distinct
orbits, `clean_satellites` leaves exactly one zero-size satellite — the
lowest-orbit one, renamed "Ring System" — keeps all non-zero-size satellites,
and the surviving orbits stay pairwise distinct.  (With three or more
zero-size satellites the stale splice indices leave extra ones; see the
counterexample.) -/
theorem clean_satellites_two_rings (sats : List World)
    (hdist : sats.Pairwise (fun a b => a.orbit ≠ b.orbit))
    (hcount : (sats.filter (fun s => s.size == 0)).length = 2) :
    ((clean_satellites sats).filter (fun s => s.size == 0)).length = 1 ∧
    (∃ s, s ∈ clean_satellites sats ∧ s.size = 0 ∧ s.name = "Ring System" ∧
      ∀ t ∈ sats, t.size = 0 → s.orbit ≤ t.orbit) ∧
    ((clean_satellites sats).filter (fun s => !(s.size == 0))).Perm
      (sats.filter (fun s => !(s.size == 0))) ∧
    (clean_satellites sats).Pairwise (fun a b => a.orbit ≠ b.orbit) := by
  have hperm : (sats.insertionSort (fun a b => a.orbit ≤ b.orbit)).Perm sats :=
    List.perm_insertionSort _ sats
  have hsorted : List.Sorted (fun a b : World => a.orbit ≤ b.orbit)
      (sats.insertionSort (fun a b => a.orbit ≤ b.orbit)) :=
    List.sorted_insertionSort _ sats
  have hlcount : ((sats.insertionSort (fun a b => a.orbit ≤ b.orbit)).filter
      (fun s => s.size == 0)).length = 2 := by
    rw [(hperm.filter _).length_eq]; exact hcount
  obtain ⟨A, r1, B, r2, C, hl, h1, h2, hA, hB, hC⟩ := zero_split_two _ hlcount
  have hrnsize : (({ r1 with name := "Ring System" } : World)).size = 0 := h1
  have hres : clean_satellites sats =
      A ++ ({ r1 with name := "Ring System" } : World) :: (B ++ C) := by
    have hstep : clean_satellites sats =
        match ringIndicesFrom 0 (sats.insertionSort (fun a b => a.orbit ≤ b.orbit)) with
        | [] => sats.insertionSort (fun a b => a.orbit ≤ b.orbit)
        | i0 :: rest =>
          (rest.foldl (fun acc i => acc.eraseIdx i)
            (sats.insertionSort (fun a b => a.orbit ≤ b.orbit))).modify
            (fun s => { s with name := "Ring System" }) i0 := rfl
    rw [hstep, hl, ringIndicesFrom_append 0 A r1 _ hA h1,
      ringIndicesFrom_append _ B r2 C hB h2, ringIndicesFrom_ringfree _ C hC]
    show ((A ++ r1 :: (B ++ r2 :: C)).eraseIdx (0 + A.length + 1 + B.length)).modify
      (fun s => { s with name := "Ring System" }) (0 + A.length) = _
    have hassoc : A ++ r1 :: (B ++ r2 :: C) = (A ++ r1 :: B) ++ r2 :: C := by simp
    have hlen : 0 + A.length + 1 + B.length = (A ++ r1 :: B).length := by
      simp [List.length_append, List.length_cons]; omega
    rw [hassoc, hlen, eraseIdx_at_append]
    have hassoc2 : (A ++ r1 :: B) ++ C = A ++ r1 :: (B ++ C) := by simp
    have h0A : 0 + A.length = A.length := by omega
    rw [hassoc2, h0A, modify_at_append]
  have hfA : A.filter (fun s => s.size == 0) = [] :=
    List.filter_eq_nil_iff.mpr (fun a ha => by simpa using hA a ha)
  have hfB : B.filter (fun s => s.size == 0) = [] :=
    List.filter_eq_nil_iff.mpr (fun a ha => by simpa using hB a ha)
  have hfC : C.filter (fun s => s.size == 0) = [] :=
    List.filter_eq_nil_iff.mpr (fun a ha => by simpa using hC a ha)
  refine ⟨?_, ?_, ?_, ?_⟩
  · rw [hres]
    simp [List.filter_append, hfA, hfB, hfC, List.filter_cons, hrnsize, h1]
  · refine ⟨{ r1 with name := "Ring System" }, by simp [hres], hrnsize, rfl, ?_⟩
    intro t ht ht0
    have htl : t ∈ A ++ r1 :: (B ++ r2 :: C) := by
      rw [← hl]; exact hperm.mem_iff.mpr ht
    show r1.orbit ≤ t.orbit
    rcases List.mem_append.mp htl with htA | htr
    · exact absurd ht0 (hA t htA)
    rcases List.mem_cons.mp htr with rfl | htr2
    · exact le_refl _
    rcases List.mem_append.mp htr2 with htB | htr3
    · exact absurd ht0 (hB t htB)
    rcases List.mem_cons.mp htr3 with rfl | htC
    · rw [hl] at hsorted
      have := (List.pairwise_append.mp hsorted).2.1
      exact (List.pairwise_cons.mp this).1 t (by simp)
    · exact absurd ht0 (hC t htC)
  · have hgA : A.filter (fun s => !(s.size == 0)) = A :=
      List.filter_eq_self.mpr (fun a ha => by simpa using hA a ha)
    have hgB : B.filter (fun s => !(s.size == 0)) = B :=
      List.filter_eq_self.mpr (fun a ha => by simpa using hB a ha)
    have hgC : C.filter (fun s => !(s.size == 0)) = C :=
      List.filter_eq_self.mpr (fun a ha => by simpa using hC a ha)
    have hres2 : (clean_satellites sats).filter (fun s => !(s.size == 0)) =
        A ++ (B ++ C) := by
      rw [hres]
      simp [List.filter_append, hgA, hgB, hgC, List.filter_cons, hrnsize, h1]
    have hl2 : (sats.insertionSort (fun a b => a.orbit ≤ b.orbit)).filter
        (fun s => !(s.size == 0)) = A ++ (B ++ C) := by
      rw [hl]
      simp [List.filter_append, hgA, hgB, hgC, List.filter_cons, h1, h2]
    rw [hres2, ← hl2]
    exact hperm.filter _
  · rw [hres]
    have hldist : (A ++ r1 :: (B ++ r2 :: C)).Pairwise
        (fun a b => a.orbit ≠ b.orbit) := by
      rw [← hl]
      exact ((hperm.pairwise_iff (fun h12 heq => h12 heq.symm)).mpr hdist)
    have hsub : (A ++ r1 :: (B ++ C)).Sublist (A ++ r1 :: (B ++ r2 :: C)) := by
      refine List.Sublist.append_left ?_ A
      refine List.Sublist.cons₂ r1 ?_
      exact List.Sublist.append_left (List.sublist_cons_self r2 C) B
    exact pairwise_orbit_rename A (B ++ C) r1 _ rfl (hldist.sublist hsub)

/-- Witness for C5 amended: two rings at orbits 2 and 1 plus a normal
satellite. -/
theorem clean_satellites_two_rings_witness :
    ([ringAt 2, ringAt 1].Pairwise (fun a b => a.orbit ≠ b.orbit) ∧
      (([ringAt 2, ringAt 1] : List World).filter
        (fun s => s.size == 0)).length = 2) ∧
    ((clean_satellites [ringAt 2, ringAt 1]).filter
      (fun s => s.size == 0)).length = 1 ∧
    (∃ s, s ∈ clean_satellites [ringAt 2, ringAt 1] ∧ s.size = 0 ∧
      s.name = "Ring System" ∧
      ∀ t ∈ [ringAt 2, ringAt 1], t.size = 0 → s.orbit ≤ t.orbit) ∧
    ((clean_satellites [ringAt 2, ringAt 1]).filter
      (fun s => !(s.size == 0))).Perm
      (([ringAt 2, ringAt 1] : List World).filter (fun s => !(s.size == 0))) ∧
    (clean_satellites [ringAt 2, ringAt 1]).Pairwise
      (fun a b => a.orbit ≠ b.orbit) :=
  ⟨⟨by decide, by decide⟩,
    clean_satellites_two_rings [ringAt 2, ringAt 1] (by decide) (by decide)⟩


/-- `genSubordinateStats` only rewrites port, government, law and tech. -/
theorem genSubordinateStats_preserves (w mw : World) (d : Dice) :
    ((genSubordinateStats w mw d).1).population = w.population ∧
    ((genSubordinateStats w mw d).1).atmosphere = w.atmosphere ∧
    ((genSubordinateStats w mw d).1).hydro = w.hydro ∧
    ((genSubordinateStats w mw d).1).size = w.size ∧
    ((genSubordinateStats w mw d).1).is_satellite = w.is_satellite ∧
    ((genSubordinateStats w mw d).1).is_mainworld = w.is_mainworld := by
  unfold genSubordinateStats
  rcases h1 : roll1D d with ⟨g1, d1⟩
  rcases h2 : roll1D d1 with ⟨l1, d2⟩
  rcases h3 : roll1D d2 with ⟨p1, d3⟩
  simp [h1, h2, h3, World.set_subordinate_stats]

/-- `genSubordinateFacilities` only rewrites facilities and possibly tech. -/
theorem genSubordinateFacilities_preserves (sys : System) (w : World) (orbit : Int)
    (mw : World) (d : Dice) :
    ((genSubordinateFacilities sys w orbit mw d).1).population = w.population ∧
    ((genSubordinateFacilities sys w orbit mw d).1).atmosphere = w.atmosphere ∧
    ((genSubordinateFacilities sys w orbit mw d).1).hydro = w.hydro ∧
    ((genSubordinateFacilities sys w orbit mw d).1).size = w.size ∧
    ((genSubordinateFacilities sys w orbit mw d).1).is_satellite = w.is_satellite ∧
    ((genSubordinateFacilities sys w orbit mw d).1).is_mainworld = w.is_mainworld := by
  unfold genSubordinateFacilities
  rcases hlr : roll2D d with ⟨lr, d1⟩
  rcases hmr : roll2D d1 with ⟨mr, d2⟩
  simp only [hlr, hmr]
  split_ifs <;> simp

/-- Population raw value clamped to be nonnegative and then below `q` is
below `q`. -/
theorem clamp_lt (P q : Int) :
    (if (if P < 0 then (0:Int) else P) ≥ q then q - 1 else if P < 0 then (0:Int) else P) < q := by
  split_ifs <;> omega

/-- Population raw value clamped to be nonnegative and then below `q` stays
nonnegative when `1 ≤ q`. -/
theorem clamp_nonneg (P q : Int) (h : 1 ≤ q) :
    0 ≤ (if (if P < 0 then (0:Int) else P) ≥ q then q - 1 else if P < 0 then (0:Int) else P) := by
  split_ifs <;> omega

/-- The `genWorld` atmosphere clamp chain lands in `[0, 10]`. -/
theorem clamp_atm (A0 : Int) (c : Prop) [Decidable c] :
    0 ≤ (if (if c then (10:Int) else if A0 ≤ 0 then 0 else A0) ≥ 10 then 10
      else if c then (10:Int) else if A0 ≤ 0 then 0 else A0) ∧
    (if (if c then (10:Int) else if A0 ≤ 0 then 0 else A0) ≥ 10 then 10
      else if c then (10:Int) else if A0 ≤ 0 then 0 else A0) ≤ 10 := by
  constructor <;> split_ifs <;> omega

/-- The `genWorld` hydrographics clamp chain lands in `[0, 10]`. -/
theorem clamp_hyd (H0 : Int) (c : Prop) [Decidable c] :
    0 ≤ (if (if (if c then (0:Int) else H0) < 0 then 0 else if c then (0:Int) else H0) ≥ 10
        then 10 else if (if c then (0:Int) else H0) < 0 then 0 else if c then (0:Int) else H0) ∧
    (if (if (if c then (0:Int) else H0) < 0 then 0 else if c then (0:Int) else H0) ≥ 10
        then 10 else if (if c then (0:Int) else H0) < 0 then 0 else if c then (0:Int) else H0) ≤ 10 := by
  constructor <;> split_ifs <;> omega

set_option maxRecDepth 4000 in
/-- Bounds established by `genWorld` for every filler world: population is
nonnegative (when the main world has any population) and strictly below the
main world population, and atmosphere and hydrographics lie in `[0, 10]`. -/
theorem genWorld_bounds (name : String) (sys : System) (orbit : Int) (mw : World) (d : Dice) :
    ((genWorld name sys orbit mw d).1).population < mw.population ∧
    (1 ≤ mw.population → 0 ≤ ((genWorld name sys orbit mw d).1).population) ∧
    (0 ≤ ((genWorld name sys orbit mw d).1).atmosphere ∧
      ((genWorld name sys orbit mw d).1).atmosphere ≤ 10) ∧
    (0 ≤ ((genWorld name sys orbit mw d).1).hydro ∧
      ((genWorld name sys orbit mw d).1).hydro ≤ 10) := by
  unfold genWorld
  rcases h1 : roll2D d with ⟨sr, d1⟩
  rcases h2 : roll2D d1 with ⟨roll, d2⟩
  rcases h3 : roll2D d2 with ⟨ar, d3⟩
  rcases h4 : roll2D d3 with ⟨hr, d4⟩
  rcases h5 : roll2D d4 with ⟨pr, d5⟩
  simp only [h1, h2, h3, h4, h5]
  refine ⟨?_, ?_, ?_, ?_⟩
  · rw [(genSubordinateFacilities_preserves _ _ _ _ _).1, (genSubordinateStats_preserves _ _ _).1]
    simp only [mkWorld]
    exact clamp_lt _ _
  · intro h
    rw [(genSubordinateFacilities_preserves _ _ _ _ _).1, (genSubordinateStats_preserves _ _ _).1]
    simp only [mkWorld]
    exact clamp_nonneg _ _ h
  · rw [(genSubordinateFacilities_preserves _ _ _ _ _).2.1, (genSubordinateStats_preserves _ _ _).2.1]
    simp only [mkWorld]
    exact clamp_atm _ _
  · rw [(genSubordinateFacilities_preserves _ _ _ _ _).2.2.1, (genSubordinateStats_preserves _ _ _).2.2.1]
    simp only [mkWorld]
    exact clamp_hyd _ _

/-- Nonnegative clamp. -/
theorem clamp_nonneg0 (P : Int) : 0 ≤ if P < 0 then (0:Int) else P := by
  split_ifs <;> omega

/-- The `genSatellite` atmosphere chain is nonnegative (there is no upper
clamp in the satellite generator). -/
theorem sat_atm_nonneg (A0 : Int) (c : Prop) [Decidable c] :
    0 ≤ if c then (10:Int) else if A0 ≤ 1 then 0 else A0 := by
  split_ifs <;> omega

/-- The `genSatellite` hydrographics chain is nonnegative. -/
theorem sat_hyd_nonneg (H0 : Int) (c : Prop) [Decidable c] :
    0 ≤ if c then (0:Int) else if H0 < 0 then 0 else H0 := by
  split_ifs <;> omega

set_option maxRecDepth 4000 in
/-- `genSatelliteBody` appends exactly one satellite (or ring) to the
primary satellite list; its population, atmosphere and hydrographics are
nonnegative, and its satellite/main-world flags are set/clear. -/
theorem genSatelliteBody_spec (sys : System) (primary : PrimaryBody) (sats : List World)
    (mw : World) (size : Int) (d : Dice) :
    ∃ s, (genSatelliteBody sys primary sats mw size d).1 = sats ++ [s] ∧
      0 ≤ s.population ∧ 0 ≤ s.atmosphere ∧ 0 ≤ s.hydro ∧
      s.is_satellite = true ∧ s.is_mainworld = false := by
  unfold genSatelliteBody
  rcases ho : genSatelliteOrbit primary sats (size == 0) d with ⟨orbit, d1⟩
  simp only [ho]
  by_cases hsz : size = 0
  · rw [if_pos hsz]
    refine ⟨_, rfl, ?_, ?_, ?_, ?_, ?_⟩ <;> simp [mkWorld]
  · rw [if_neg hsz]
    rcases h1 : roll2D d1 with ⟨roll, d2⟩
    rcases h2 : roll2D d2 with ⟨ar, d3⟩
    rcases h3 : roll2D d3 with ⟨hr, d4⟩
    rcases h4 : roll2D d4 with ⟨pr, d5⟩
    rcases h5 : draw moonNames.length d5 with ⟨ni, d6⟩
    simp only [h1, h2, h3, h4, h5]
    refine ⟨_, rfl, ?_, ?_, ?_, ?_, ?_⟩
    · rw [(genSubordinateFacilities_preserves _ _ _ _ _).1, (genSubordinateStats_preserves _ _ _).1]
      simp only [mkWorld]
      exact clamp_nonneg0 _
    · rw [(genSubordinateFacilities_preserves _ _ _ _ _).2.1, (genSubordinateStats_preserves _ _ _).2.1]
      simp only [mkWorld]
      exact sat_atm_nonneg _ _
    · rw [(genSubordinateFacilities_preserves _ _ _ _ _).2.2.1, (genSubordinateStats_preserves _ _ _).2.2.1]
      simp only [mkWorld]
      exact sat_hyd_nonneg _ _
    · rw [(genSubordinateFacilities_preserves _ _ _ _ _).2.2.2.2.1, (genSubordinateStats_preserves _ _ _).2.2.2.2.1]
      simp [mkWorld]
    · rw [(genSubordinateFacilities_preserves _ _ _ _ _).2.2.2.2.2, (genSubordinateStats_preserves _ _ _).2.2.2.2.2]
      simp [mkWorld]

/-- `genSatellite` appends exactly one satellite (or ring) to the primary
satellite list with nonnegative population, atmosphere and hydrographics. -/
theorem genSatellite_spec (sys : System) (primary : PrimaryBody) (sats : List World)
    (mw : World) (d : Dice) :
    ∃ s, (genSatellite sys primary sats mw d).1 = sats ++ [s] ∧
      0 ≤ s.population ∧ 0 ≤ s.atmosphere ∧ 0 ≤ s.hydro ∧
      s.is_satellite = true ∧ s.is_mainworld = false := by
  unfold genSatellite
  cases primary with
  | world w =>
    rcases hs : roll1D d with ⟨r, d1⟩
    simp only [hs]
    exact genSatelliteBody_spec _ _ _ _ _ _
  | gasGiant g =>
    rcases hr : roll2D d with ⟨r, d1⟩
    by_cases hg : g.size = GasGiantSize.Small
    · simp only [hr, if_pos hg]
      exact genSatelliteBody_spec _ _ _ _ _ _
    · simp only [hr, if_neg hg]
      exact genSatelliteBody_spec _ _ _ _ _ _

set_option maxRecDepth 40000 in
/-- C1, counterexample: in the full generation run driven by
`diceSatellite`, the filler world at the habitable orbit 3 receives a
satellite whose population (8) reaches the main world population (1), so a
generated non-main-world body need not stay strictly below the main world
population. -/
theorem subordinate_population_counterexample :
    satPopReaches mwVac.population (generateSystem mwVac diceSatellite) = true := by
  decide

set_option maxRecDepth 40000 in
/-- C6, counterexample: in the full generation run driven by
`diceSatellite`, the satellite of the world at orbit 3 ends with atmosphere
digit 11, so satellite atmosphere is not clamped into `[0, 10]`. -/
theorem digit_clamp_counterexample :
    satAtmExceeds10 (generateSystem mwVac diceSatellite) = true := by
  decide

/-- C6 (amended): `genWorld` clamps atmosphere and hydrographics into
`[0, 10]`, but `genSatellite` only guarantees nonnegative atmosphere and
hydrographics for the satellite it appends (no upper clamp). -/
theorem digit_clamp_amended (name : String) (sys : System) (orbit : Int)
    (mw : World) (d : Dice) (primary : PrimaryBody) (sats : List World) (d2 : Dice) :
    (0 ≤ ((genWorld name sys orbit mw d).1).atmosphere ∧
      ((genWorld name sys orbit mw d).1).atmosphere ≤ 10 ∧
      0 ≤ ((genWorld name sys orbit mw d).1).hydro ∧
      ((genWorld name sys orbit mw d).1).hydro ≤ 10) ∧
    ∃ s, (genSatellite sys primary sats mw d2).1 = sats ++ [s] ∧
      0 ≤ s.atmosphere ∧ 0 ≤ s.hydro := by
  obtain ⟨_, _, ⟨a1, a2⟩, hy1, hy2⟩ := genWorld_bounds name sys orbit mw d
  obtain ⟨s, hs, _, ha, hh, _, _⟩ := genSatellite_spec sys primary sats mw d2
  exact ⟨⟨a1, a2, hy1, hy2⟩, s, hs, ha, hh⟩

theorem withOrbits_orbits (sys : System) (a : List Slot) : (sys.withOrbits a).orbits = a := by
  cases sys; rfl

theorem withOrbits_secondary (sys : System) (a : List Slot) :
    (sys.withOrbits a).secondary = sys.secondary := by
  cases sys; rfl

theorem withOrbits_tertiary (sys : System) (a : List Slot) :
    (sys.withOrbits a).tertiary = sys.tertiary := by
  cases sys; rfl

theorem withOrbits_max (sys : System) (a : List Slot) :
    (sys.withOrbits a).max_orbits = sys.max_orbits := by
  cases sys; rfl

theorem withOrbits_orbit (sys : System) (a : List Slot) :
    (sys.withOrbits a).orbit = sys.orbit := by
  cases sys; rfl

theorem withOrbits_star (sys : System) (a : List Slot) :
    (sys.withOrbits a).star = sys.star := by
  cases sys; rfl

theorem withOrbits_name (sys : System) (a : List Slot) :
    (sys.withOrbits a).name = sys.name := by
  cases sys; rfl

theorem withOrbits_withOrbits (sys : System) (a b : List Slot) :
    (sys.withOrbits a).withOrbits b = sys.withOrbits b := by
  cases sys; rfl

theorem withOrbits_self (sys : System) : sys.withOrbits sys.orbits = sys := by
  cases sys; rfl

theorem withMainWorld_orbits (sys : System) (w : Option World) :
    (sys.withMainWorld w).orbits = sys.orbits := by
  cases sys; rfl

theorem withMainWorld_secondary (sys : System) (w : Option World) :
    (sys.withMainWorld w).secondary = sys.secondary := by
  cases sys; rfl

theorem withMainWorld_tertiary (sys : System) (w : Option World) :
    (sys.withMainWorld w).tertiary = sys.tertiary := by
  cases sys; rfl

theorem withSecondary_orbits (sys : System) (c : Option System) :
    (sys.withSecondary c).orbits = sys.orbits := by
  cases sys; rfl

theorem withSecondary_secondary (sys : System) (c : Option System) :
    (sys.withSecondary c).secondary = c := by
  cases sys; rfl

theorem withSecondary_tertiary (sys : System) (c : Option System) :
    (sys.withSecondary c).tertiary = sys.tertiary := by
  cases sys; rfl

theorem withTertiary_orbits (sys : System) (c : Option System) :
    (sys.withTertiary c).orbits = sys.orbits := by
  cases sys; rfl

theorem withTertiary_secondary (sys : System) (c : Option System) :
    (sys.withTertiary c).secondary = sys.secondary := by
  cases sys; rfl

theorem withTertiary_tertiary (sys : System) (c : Option System) :
    (sys.withTertiary c).tertiary = c := by
  cases sys; rfl

theorem withCompanion_orbits (sys : System) (t : CompTag) (c : System) :
    (sys.withCompanion t c).orbits = sys.orbits := by
  cases t <;> cases sys <;> rfl

theorem withMainWorld_orbit (sys : System) (w : Option World) :
    (sys.withMainWorld w).orbit = sys.orbit := by
  cases sys; rfl

theorem withSecondary_orbit (sys : System) (c : Option System) :
    (sys.withSecondary c).orbit = sys.orbit := by
  cases sys; rfl

theorem withTertiary_orbit (sys : System) (c : Option System) :
    (sys.withTertiary c).orbit = sys.orbit := by
  cases sys; rfl

theorem withCompanion_orbit (sys : System) (t : CompTag) (c : System) :
    (sys.withCompanion t c).orbit = sys.orbit := by
  cases t <;> cases sys <;> rfl

theorem withMax_orbit (sys : System) (m : Nat) (a : List Slot) :
    (sys.withMax m a).orbit = sys.orbit := by
  cases sys; rfl

theorem jsSet_neg (a : List Slot) (k : Int) (v : Slot) (h : k < 0) :
    jsSet a k v = a := by
  unfold jsSet
  rw [if_pos h]

theorem jsSetGo_getD_ne (v : Slot) :
    ∀ (n : Nat) (a : List Slot) (m : Nat), n ≠ m →
      (jsSetGo v a n).getD m Slot.undef = a.getD m Slot.undef := by
  intro n
  induction n with
  | zero =>
    intro a m h
    match a, m with
    | [], 0 => omega
    | [], m + 1 => rfl
    | hd :: tl, 0 => omega
    | hd :: tl, m + 1 => rfl
  | succ k ih =>
    intro a m h
    match a, m with
    | [], 0 => rfl
    | [], m + 1 =>
      simpa [jsSetGo, List.getD] using ih [] m (by omega)
    | hd :: tl, 0 => rfl
    | hd :: tl, m + 1 =>
      simpa [jsSetGo, List.getD] using ih tl m (by omega)

theorem jsSetGo_getD_eq (v : Slot) :
    ∀ (n : Nat) (a : List Slot), (jsSetGo v a n).getD n Slot.undef = v := by
  intro n
  induction n with
  | zero =>
    intro a
    match a with
    | [] => rfl
    | hd :: tl => rfl
  | succ k ih =>
    intro a
    match a with
    | [] => simpa [jsSetGo, List.getD] using ih []
    | hd :: tl => simpa [jsSetGo, List.getD] using ih tl

theorem jsGet_jsSet_ne (a : List Slot) (i j : Int) (v : Slot) (h : i ≠ j) :
    jsGet (jsSet a i v) j = jsGet a j := by
  unfold jsGet jsSet
  by_cases hi : i < 0
  · rw [if_pos hi]
  · rw [if_neg hi]
    by_cases hj : j < 0
    · rw [if_pos hj, if_pos hj]
    · rw [if_neg hj, if_neg hj]
      exact jsSetGo_getD_ne v i.toNat a j.toNat (by omega)

theorem jsGet_jsSet_eq (a : List Slot) (i : Int) (v : Slot) (h : 0 ≤ i) :
    jsGet (jsSet a i v) i = v := by
  unfold jsGet jsSet
  rw [if_neg (by omega), if_neg (by omega)]
  exact jsSetGo_getD_eq v i.toNat a

theorem jsGet_neg (a : List Slot) (i : Int) (h : i < 0) : jsGet a i = Slot.undef := by
  unfold jsGet
  rw [if_pos h]

theorem SlotOK_jsSet (Q : Int → Slot → Prop) (a : List Slot) (k : Int) (v : Slot)
    (h : SlotOK Q a) (hv : Q k v) : SlotOK Q (jsSet a k v) := by
  intro i
  by_cases hik : k = i
  · subst hik
    by_cases hk : k < 0
    · unfold jsSet
      rw [if_pos hk]
      exact h k
    · rw [jsGet_jsSet_eq a k v (by omega)]
      exact hv
  · rw [jsGet_jsSet_ne a k i v hik]
    exact h i

theorem foldl_empty_SlotOK (Q : Int → Slot → Prop) (hE : ∀ i : Int, Q i (Slot.empty i)) :
    ∀ (l : List Int) (a : List Slot), SlotOK Q a →
      SlotOK Q (l.foldl (fun acc i => jsSet acc i (Slot.empty i)) a) := by
  intro l
  induction l with
  | nil => intro a h; exact h
  | cons x xs ih =>
    intro a h
    exact ih _ (SlotOK_jsSet Q a x _ h (hE x))

theorem sysFoldl_empty_eq :
    ∀ (l : List Int) (sys : System),
      l.foldl (fun s i => s.withOrbits (jsSet s.orbits i (Slot.empty i))) sys =
        sys.withOrbits (l.foldl (fun acc i => jsSet acc i (Slot.empty i)) sys.orbits) := by
  intro l
  induction l with
  | nil => intro sys; exact (withOrbits_self sys).symm
  | cons x xs ih =>
    intro sys
    simp only [List.foldl_cons]
    rw [ih, withOrbits_orbits, withOrbits_withOrbits]

theorem emptyLoop_SlotOK (Q : Int → Slot → Prop) (hE : ∀ i : Int, Q i (Slot.empty i)) :
    ∀ (n : Nat) (sys : System) (valid : List Int) (d : Dice), SlotOK Q sys.orbits →
      SlotOK Q ((emptyLoop sys valid n d).1).orbits := by
  intro n
  induction n with
  | zero => intro sys valid d h; exact h
  | succ k ih =>
    intro sys valid d h
    unfold emptyLoop
    by_cases hv : valid.isEmpty
    · rw [if_pos hv]; exact h
    · rw [if_neg hv]
      rcases hd : draw valid.length d with ⟨pos, d1⟩
      simp only [hd]
      apply ih
      rw [withOrbits_orbits]
      exact SlotOK_jsSet Q _ _ _ h (hE _)

theorem genEmptyOrbits_SlotOK (Q : Int → Slot → Prop) (hE : ∀ i : Int, Q i (Slot.empty i))
    (sys : System) (d : Dice) (h : SlotOK Q sys.orbits) :
    SlotOK Q ((genEmptyOrbits sys d).1).orbits := by
  unfold genEmptyOrbits
  rcases h1 : roll1D d with ⟨r1, d1⟩
  simp only [h1]
  by_cases hr : r1 < 5
  · rw [if_pos hr]; exact h
  · rw [if_neg hr]
    rcases h2 : roll1D d1 with ⟨r2, d2⟩
    simp only [h2]
    exact emptyLoop_SlotOK Q hE _ sys _ _ h

theorem nullIndicesFrom_sound :
    ∀ (a : List Slot) (n i : Int), i ∈ nullIndicesFrom n a →
      n ≤ i ∧ a.getD (i - n).toNat Slot.undef = Slot.nul := by
  intro a
  induction a with
  | nil => intro n i h; simp [nullIndicesFrom] at h
  | cons s rest ih =>
    intro n i h
    unfold nullIndicesFrom at h
    by_cases hs : s = Slot.nul
    · rw [if_pos hs] at h
      rcases List.mem_cons.mp h with he | ht
      · subst he
        constructor
        · omega
        · simpa using hs
      · obtain ⟨h1, h2⟩ := ih (n + 1) i ht
        refine ⟨by omega, ?_⟩
        have : (i - n).toNat = (i - (n + 1)).toNat + 1 := by omega
        rw [this]
        simpa using h2
    · rw [if_neg hs] at h
      obtain ⟨h1, h2⟩ := ih (n + 1) i h
      refine ⟨by omega, ?_⟩
      have : (i - n).toNat = (i - (n + 1)).toNat + 1 := by omega
      rw [this]
      simpa using h2

theorem nullIndices_jsGet (a : List Slot) (i : Int) (h : i ∈ nullIndices a) :
    jsGet a i = Slot.nul := by
  obtain ⟨h1, h2⟩ := nullIndicesFrom_sound a 0 i h
  unfold jsGet
  rw [if_neg (by omega)]
  simpa using h2

theorem draw_lt (n : Nat) (d : Dice) (h : 0 < n) : (draw n d).1 < n := by
  unfold draw
  simp only [if_neg (by omega : ¬ n = 0)]
  exact Nat.mod_lt _ h

theorem getD_mem_of_lt (l : List Int) (n : Nat) (h : n < l.length) : l.getD n 0 ∈ l := by
  rw [List.getD_eq_getElem l 0 h]
  exact List.getElem_mem h

theorem genSubordinateStats_orbit (w mw : World) (d : Dice) :
    ((genSubordinateStats w mw d).1).orbit = w.orbit ∧
    ((genSubordinateStats w mw d).1).star_orbit = w.star_orbit := by
  unfold genSubordinateStats
  rcases h1 : roll1D d with ⟨g1, d1⟩
  rcases h2 : roll1D d1 with ⟨l1, d2⟩
  rcases h3 : roll1D d2 with ⟨p1, d3⟩
  simp [h1, h2, h3, World.set_subordinate_stats]

theorem genSubordinateFacilities_orbit (sys : System) (w : World) (orbit : Int)
    (mw : World) (d : Dice) :
    ((genSubordinateFacilities sys w orbit mw d).1).orbit = w.orbit ∧
    ((genSubordinateFacilities sys w orbit mw d).1).star_orbit = w.star_orbit := by
  unfold genSubordinateFacilities
  rcases hlr : roll2D d with ⟨lr, d1⟩
  rcases hmr : roll2D d1 with ⟨mr, d2⟩
  simp only [hlr, hmr]
  split_ifs <;> simp

set_option maxRecDepth 4000 in
theorem genWorld_orbit (name : String) (sys : System) (orbit : Int) (mw : World) (d : Dice) :
    ((genWorld name sys orbit mw d).1).orbit = orbit := by
  unfold genWorld
  rcases h1 : roll2D d with ⟨sr, d1⟩
  rcases h2 : roll2D d1 with ⟨roll, d2⟩
  rcases h3 : roll2D d2 with ⟨ar, d3⟩
  rcases h4 : roll2D d3 with ⟨hr, d4⟩
  rcases h5 : roll2D d4 with ⟨pr, d5⟩
  simp only [h1, h2, h3, h4, h5]
  rw [(genSubordinateFacilities_orbit _ _ _ _ _).1, (genSubordinateStats_orbit _ _ _).1]
  simp [mkWorld]

theorem gasLoop_SlotOK (Q : Int → Slot → Prop) :
    ∀ (n : Nat) (outer inner : List Int) (sys : System) (d : Dice)
      (r : System × Nat × Dice),
      (∀ i ∈ outer ++ inner, ∀ (g : GasGiant) (sats : List World), g.orbit = i →
        Q i (Slot.gasGiant g sats)) →
      SlotOK Q sys.orbits → gasLoop sys outer inner n d = Except.ok r →
      SlotOK Q r.1.orbits := by
  intro n
  induction n with
  | zero =>
    intro outer inner sys d r _ h hok
    unfold gasLoop at hok
    obtain rfl := (Except.ok.inj hok)
    exact h
  | succ k ih =>
    intro outer inner sys d r hG h hok
    unfold gasLoop at hok
    by_cases hz : outer.length + inner.length = 0
    · rw [if_pos hz] at hok
      obtain rfl := (Except.ok.inj hok)
      exact h
    · rw [if_neg hz] at hok
      by_cases ho : outer.length > 0
      · rw [if_pos ho] at hok
        rcases hd : draw outer.length d with ⟨pos, d1⟩
        simp only [hd] at hok
        rcases hr : roll1D d1 with ⟨rl, d2⟩
        simp only [hr] at hok
        have hmem : outer.getD pos 0 ∈ outer ++ inner := by
          refine List.mem_append.mpr (Or.inl ?_)
          refine getD_mem_of_lt outer pos ?_
          have := draw_lt outer.length d ho
          rw [hd] at this
          exact this
        cases hpn : genPlanetName sys (outer.getD pos 0) with
        | error e => simp only [hpn] at hok; simp [bind, Except.bind] at hok
        | ok nm =>
          simp only [hpn] at hok
          simp only [bind, Except.bind] at hok
          refine ih _ _ _ _ _ ?_ ?_ hok
          · intro i hi g sats hg
            refine hG i ?_ g sats hg
            rcases List.mem_append.mp hi with h1 | h2
            · exact List.mem_append.mpr (Or.inl ((List.eraseIdx_sublist outer pos).subset h1))
            · exact List.mem_append.mpr (Or.inr h2)
          · rw [withOrbits_orbits]
            refine SlotOK_jsSet Q _ _ _ h ?_
            split_ifs <;> exact hG _ hmem _ _ rfl
      · rw [if_neg ho] at hok
        rcases hd : draw inner.length d with ⟨pos, d1⟩
        simp only [hd] at hok
        rcases hr : roll1D d1 with ⟨rl, d2⟩
        simp only [hr] at hok
        have hil : 0 < inner.length := by omega
        have hmem : inner.getD pos 0 ∈ outer ++ inner := by
          refine List.mem_append.mpr (Or.inr ?_)
          refine getD_mem_of_lt inner pos ?_
          have := draw_lt inner.length d hil
          rw [hd] at this
          exact this
        cases hpn : genPlanetName sys (inner.getD pos 0) with
        | error e => simp only [hpn] at hok; simp [bind, Except.bind] at hok
        | ok nm =>
          simp only [hpn] at hok
          simp only [bind, Except.bind] at hok
          refine ih _ _ _ _ _ ?_ ?_ hok
          · intro i hi g sats hg
            refine hG i ?_ g sats hg
            rcases List.mem_append.mp hi with h1 | h2
            · exact List.mem_append.mpr (Or.inl h1)
            · exact List.mem_append.mpr (Or.inr ((List.eraseIdx_sublist inner pos).subset h2))
          · rw [withOrbits_orbits]
            refine SlotOK_jsSet Q _ _ _ h ?_
            split_ifs <;> exact hG _ hmem _ _ rfl

theorem fillerLoop_SlotOK (Q : Int → Slot → Prop) (mw : World)
    (hW : ∀ (i : Int) (w : World) (sats : List World), Q i Slot.nul → w.orbit = i →
      Q i (Slot.world w sats)) :
    ∀ (l : List Int) (sys : System) (d : Dice) (r : System × Dice),
      SlotOK Q sys.orbits → fillerLoop mw sys l d = Except.ok r →
      SlotOK Q r.1.orbits := by
  intro l
  induction l with
  | nil =>
    intro sys d r h hok
    unfold fillerLoop at hok
    obtain rfl := (Except.ok.inj hok)
    exact h
  | cons i rest ih =>
    intro sys d r h hok
    unfold fillerLoop at hok
    by_cases hnul : jsGet sys.orbits i = Slot.nul
    · rw [if_pos hnul] at hok
      cases hpn : genPlanetName sys i with
      | error e => simp only [hpn] at hok; simp [bind, Except.bind] at hok
      | ok nm =>
        simp only [hpn] at hok
        simp only [bind, Except.bind] at hok
        rcases hw : genWorld nm sys i mw d with ⟨w, d1⟩
        simp only [hw] at hok
        refine ih _ _ _ ?_ hok
        rw [withOrbits_orbits]
        refine SlotOK_jsSet Q _ _ _ h ?_
        have hq : Q i Slot.nul := hnul ▸ h i
        have hwo : w.orbit = i := by
          have := genWorld_orbit nm sys i mw d
          rw [hw] at this
          exact this
        exact hW i w [] hq hwo
    · rw [if_neg hnul] at hok
      exact ih _ _ _ h hok

theorem jsGet_of_getElem (a : List Slot) (k : Nat) (s : Slot) (h : a[k]? = some s) :
    jsGet a (k : Int) = s := by
  unfold jsGet
  rw [if_neg (by omega), Int.toNat_natCast, List.getD_eq_getElem?_getD, h]
  rfl

theorem satellitePass_SlotOK (Q : Int → Slot → Prop) (mw : World)
    (hRW : ∀ (i : Int) (w : World) (sats sats' : List World),
      Q i (Slot.world w sats) → Q i (Slot.world w sats'))
    (hRG : ∀ (i : Int) (g : GasGiant) (sats sats' : List World),
      Q i (Slot.gasGiant g sats) → Q i (Slot.gasGiant g sats')) :
    ∀ (l : List Int) (sys : System) (d : Dice), SlotOK Q sys.orbits →
      SlotOK Q ((satellitePass mw sys l d).1).orbits := by
  intro l
  induction l with
  | nil => intro sys d h; exact h
  | cons i rest ih =>
    intro sys d h
    unfold satellitePass
    cases hsl : jsGet sys.orbits i with
    | world w sats =>
      simp only [hsl]
      rcases hn : numSatellites (.world w) d with ⟨n, d1⟩
      simp only [hn]
      rcases hsat : satLoop sys (.world w) mw n sats d1 with ⟨sats2, d2⟩
      simp only [hsat]
      apply ih
      rw [withOrbits_orbits]
      exact SlotOK_jsSet Q _ _ _ h (hRW i w sats _ (hsl ▸ h i))
    | gasGiant g sats =>
      simp only [hsl]
      rcases hn : numSatellites (.gasGiant g) d with ⟨n, d1⟩
      simp only [hn]
      rcases hsat : satLoop sys (.gasGiant g) mw n sats d1 with ⟨sats2, d2⟩
      simp only [hsat]
      apply ih
      rw [withOrbits_orbits]
      exact SlotOK_jsSet Q _ _ _ h (hRG i g sats _ (hsl ▸ h i))
    | sysRef t => simp only [hsl]; exact ih sys d h
    | empty e => simp only [hsl]; exact ih sys d h
    | nul => simp only [hsl]; exact ih sys d h
    | undef => simp only [hsl]; exact ih sys d h

theorem planetoidLoop_SlotOK (Q : Int → Slot → Prop) :
    ∀ (n : Nat) (sys : System) (mw : World) (giants other : List Int) (d : Dice),
      (∀ i ∈ giants ++ other, ∀ (w : World) (sats : List World), w.orbit = i →
        Q i (Slot.world w sats)) →
      SlotOK Q sys.orbits → SlotOK Q ((planetoidLoop sys mw giants other n d).1).orbits := by
  intro n
  induction n with
  | zero => intro sys mw giants other d _ h; exact h
  | succ k ih =>
    intro sys mw giants other d hW h
    unfold planetoidLoop
    by_cases hz : giants.length + other.length = 0
    · rw [if_pos hz]; exact h
    · rw [if_neg hz]
      by_cases hg : giants.length > 0
      · rw [if_pos hg]
        rcases hd : draw giants.length d with ⟨pos, d1⟩
        simp only [hd]
        rcases hp : roll2D d1 with ⟨pr, d2⟩
        simp only [hp]
        have hmem : giants.getD pos 0 ∈ giants ++ other := by
          refine List.mem_append.mpr (Or.inl (getD_mem_of_lt giants pos ?_))
          have := draw_lt giants.length d hg
          rw [hd] at this
          exact this
        refine ih _ _ _ _ _ ?_ ?_
        · intro i hi w sats hw
          refine hW i ?_ w sats hw
          rcases List.mem_append.mp hi with h1 | h2
          · exact List.mem_append.mpr (Or.inl ((List.eraseIdx_sublist giants pos).subset h1))
          · exact List.mem_append.mpr (Or.inr h2)
        · rw [withOrbits_orbits]
          refine SlotOK_jsSet Q _ _ _ h ?_
          refine hW _ hmem _ _ ?_
          rw [(genSubordinateFacilities_orbit _ _ _ _ _).1, (genSubordinateStats_orbit _ _ _).1]
          simp [mkWorld]
      · rw [if_neg hg]
        rcases hd : draw other.length d with ⟨pos, d1⟩
        simp only [hd]
        rcases hp : roll2D d1 with ⟨pr, d2⟩
        simp only [hp]
        have hol : 0 < other.length := by omega
        have hmem : other.getD pos 0 ∈ giants ++ other := by
          refine List.mem_append.mpr (Or.inr (getD_mem_of_lt other pos ?_))
          have := draw_lt other.length d hol
          rw [hd] at this
          exact this
        refine ih _ _ _ _ _ ?_ ?_
        · intro i hi w sats hw
          refine hW i ?_ w sats hw
          rcases List.mem_append.mp hi with h1 | h2
          · exact List.mem_append.mpr (Or.inl h1)
          · exact List.mem_append.mpr (Or.inr ((List.eraseIdx_sublist other pos).subset h2))
        · rw [withOrbits_orbits]
          refine SlotOK_jsSet Q _ _ _ h ?_
          refine hW _ hmem _ _ ?_
          rw [(genSubordinateFacilities_orbit _ _ _ _ _).1, (genSubordinateStats_orbit _ _ _).1]
          simp [mkWorld]

theorem genPlanetoids_SlotOK (Q : Int → Slot → Prop) (sys : System) (num : Nat)
    (mw : World) (d : Dice)
    (hW : ∀ (i : Int), Q i Slot.nul → ∀ (w : World) (sats : List World), w.orbit = i →
      Q i (Slot.world w sats))
    (h : SlotOK Q sys.orbits) : SlotOK Q ((genPlanetoids sys num mw d).1).orbits := by
  unfold genPlanetoids
  rcases h0 : roll2D d with ⟨r0, d1⟩
  simp only [h0]
  by_cases hr : r0 ≥ 7
  · rw [if_pos hr]; exact h
  · rw [if_neg hr]
    rcases h1 : roll2D d1 with ⟨r1, d2⟩
    simp only [h1]
    refine planetoidLoop_SlotOK Q _ sys mw _ _ _ ?_ h
    intro i hi w sats hw
    refine hW i ?_ w sats hw
    have hnul : jsGet sys.orbits i = Slot.nul := by
      rcases List.mem_append.mp hi with h2 | h3
      · obtain ⟨p, hp, hf⟩ := List.mem_filterMap.mp h2
        split at hf
        · split at hf
          · obtain rfl := (Option.some.inj hf)
            assumption
          · cases hf
        · cases hf
      · obtain ⟨p, hp, hf⟩ := List.mem_filterMap.mp h3
        split at hf
        · obtain rfl := (Option.some.inj hf)
          have hj := jsGet_of_getElem _ _ _ (List.mem_enum_iff_getElem?.mp hp)
          rename_i hc
          exact hj.trans hc.1
        · cases hf
    exact hnul ▸ h i

/-- Every world written into a slot by the planetoid-belt loop — always a
belt built by `mkWorld "Planetoid Belt"` with the clamped population — has
population in `[0, mw.population)`, so the loop preserves the `popBound`
slot invariant. -/
theorem planetoidLoop_popBound (mw : World) (hmw : 1 ≤ mw.population) :
    ∀ (n : Nat) (sys : System) (giants other : List Int) (d : Dice),
      SlotOK (popBound mw) sys.orbits →
      SlotOK (popBound mw) ((planetoidLoop sys mw giants other n d).1).orbits := by
  intro n
  induction n with
  | zero => intro sys giants other d h; exact h
  | succ k ih =>
    intro sys giants other d h
    unfold planetoidLoop
    by_cases hz : giants.length + other.length = 0
    · rw [if_pos hz]; exact h
    · rw [if_neg hz]
      by_cases hg : giants.length > 0
      · rw [if_pos hg]
        rcases hd : draw giants.length d with ⟨pos, d1⟩
        simp only [hd]
        rcases hp : roll2D d1 with ⟨pr, d2⟩
        simp only [hp]
        refine ih _ _ _ _ ?_
        rw [withOrbits_orbits]
        refine SlotOK_jsSet _ _ _ _ h ?_
        intro w sats hw
        injection hw with h1 h2
        subst h1
        rw [(genSubordinateFacilities_preserves _ _ _ _ _).1,
          (genSubordinateStats_preserves _ _ _).1]
        simp only [mkWorld]
        exact ⟨clamp_nonneg _ _ hmw, clamp_lt _ _⟩
      · rw [if_neg hg]
        rcases hd : draw other.length d with ⟨pos, d1⟩
        simp only [hd]
        rcases hp : roll2D d1 with ⟨pr, d2⟩
        simp only [hp]
        refine ih _ _ _ _ ?_
        rw [withOrbits_orbits]
        refine SlotOK_jsSet _ _ _ _ h ?_
        intro w sats hw
        injection hw with h1 h2
        subst h1
        rw [(genSubordinateFacilities_preserves _ _ _ _ _).1,
          (genSubordinateStats_preserves _ _ _).1]
        simp only [mkWorld]
        exact ⟨clamp_nonneg _ _ hmw, clamp_lt _ _⟩

/-- The planetoid-belt phase `genPlanetoids` preserves the population slot
invariant: every world it stores has population in `[0, mw.population)`. -/
theorem genPlanetoids_popBound (mw : World) (hmw : 1 ≤ mw.population)
    (sys : System) (num : Nat) (d : Dice)
    (h : SlotOK (popBound mw) sys.orbits) :
    SlotOK (popBound mw) ((genPlanetoids sys num mw d).1).orbits := by
  unfold genPlanetoids
  rcases h0 : roll2D d with ⟨r0, d1⟩
  simp only [h0]
  by_cases hr : r0 ≥ 7
  · rw [if_pos hr]; exact h
  · rw [if_neg hr]
    rcases h1 : roll2D d1 with ⟨r1, d2⟩
    simp only [h1]
    exact planetoidLoop_popBound mw hmw _ sys _ _ _ h

/-- C1 (amended): a filler world generated by `genWorld` has
`0 ≤ population < mw.population` whenever the main world population is at
least 1; the planetoid belts stored by `genPlanetoids` obey the same bound
(if every world already in the slot array does, every world in the array
after the belt pass still does, the new belts included); and a satellite
generated by `genSatellite` is appended to the primary satellite list with
a population that is only guaranteed to be nonnegative (`genSatellite` has
no main-world population cap). -/
theorem subordinate_population_amended (name : String) (sys : System) (orbit : Int)
    (mw : World) (d : Dice) (primary : PrimaryBody) (sats : List World) (d2 : Dice)
    (h : 1 ≤ mw.population) :
    (0 ≤ ((genWorld name sys orbit mw d).1).population ∧
      ((genWorld name sys orbit mw d).1).population < mw.population) ∧
    (∀ (sys2 : System) (num : Nat) (d3 : Dice),
      SlotOK (popBound mw) sys2.orbits →
      SlotOK (popBound mw) ((genPlanetoids sys2 num mw d3).1).orbits) ∧
    ∃ s, (genSatellite sys primary sats mw d2).1 = sats ++ [s] ∧ 0 ≤ s.population := by
  obtain ⟨hlt, himp, _, _⟩ := genWorld_bounds name sys orbit mw d
  obtain ⟨s, hs, hp, _⟩ := genSatellite_spec sys primary sats mw d2
  exact ⟨⟨himp h, hlt⟩, fun sys2 num d3 hok => genPlanetoids_popBound mw h sys2 num d3 hok,
    s, hs, hp⟩

/-- C1 witness: the amended bound instantiated on a concrete run. -/
theorem subordinate_population_amended_witness :
    1 ≤ mwVac.population ∧
    ((0 ≤ ((genWorld "Foo" sysFar 3 mwVac []).1).population ∧
      ((genWorld "Foo" sysFar 3 mwVac []).1).population < mwVac.population) ∧
    (∀ (sys2 : System) (num : Nat) (d3 : Dice),
      SlotOK (popBound mwVac) sys2.orbits →
      SlotOK (popBound mwVac) ((genPlanetoids sys2 num mwVac d3).1).orbits) ∧
    ∃ s, (genSatellite sysFar (.world mwHab) [] mwVac []).1 = [] ++ [s] ∧
      0 ≤ s.population) :=
  ⟨by decide,
    subordinate_population_amended "Foo" sysFar 3 mwVac [] (.world mwHab) [] [] (by decide)⟩

theorem genGasGiants_SlotOK (Q : Int → Slot → Prop) (sys : System) (d : Dice)
    (r : Nat × System × Dice)
    (hG : ∀ (i : Int), Q i Slot.nul → ∀ (g : GasGiant) (sats : List World), g.orbit = i →
      Q i (Slot.gasGiant g sats))
    (h : SlotOK Q sys.orbits) (hok : genGasGiants sys d = Except.ok r) :
    SlotOK Q r.2.1.orbits := by
  unfold genGasGiants at hok
  rcases h0 : roll2D d with ⟨r0, d1⟩
  simp only [h0] at hok
  by_cases hr : r0 ≥ 10
  · rw [if_pos hr] at hok
    obtain rfl := (Except.ok.inj hok)
    exact h
  · rw [if_neg hr] at hok
    rcases h1 : roll2D d1 with ⟨r1, d2⟩
    simp only [h1] at hok
    cases hgl : gasLoop sys ((nullIndices sys.orbits).filter (fun i => (getZone sys).habitable ≤ i))
        ((nullIndices sys.orbits).filter (fun i => i < (getZone sys).habitable))
        (min (gasGiantTable (r1 : Int)) (countOpenOrbits sys)) d2 with
    | error e => rw [hgl] at hok; simp [bind, Except.bind] at hok
    | ok trip =>
      rw [hgl] at hok
      simp only [bind, Except.bind] at hok
      obtain rfl := (Except.ok.inj hok)
      have := gasLoop_SlotOK Q _ _ _ sys d2 trip ?_ h hgl
      · exact this
      · intro i hi g sats hg
        have hnul : jsGet sys.orbits i = Slot.nul := by
          rcases List.mem_append.mp hi with h2 | h3
          · exact nullIndices_jsGet _ _ (List.mem_filter.mp h2).1
          · exact nullIndices_jsGet _ _ (List.mem_filter.mp h3).1
        exact hG i (hnul ▸ h i) g sats hg

theorem SlotOK_of_QTree (Q : Int → Slot → Prop) (n : Nat) (sys : System)
    (h : QTree Q n sys) : SlotOK Q sys.orbits := by
  cases n with
  | zero => exact h
  | succ k => exact h.1

theorem QTree_update (Q : Int → Slot → Prop) (n : Nat) (sys : System) (a : List Slot)
    (h : QTree Q n sys) (ha : SlotOK Q a) : QTree Q n (sys.withOrbits a) := by
  cases n with
  | zero =>
    show SlotOK Q (sys.withOrbits a).orbits
    rw [withOrbits_orbits]
    exact ha
  | succ k =>
    refine ⟨?_, ?_, ?_⟩
    · rw [withOrbits_orbits]
      exact ha
    · intro c hc
      rw [withOrbits_secondary] at hc
      exact h.2.1 c hc
    · intro c hc
      rw [withOrbits_tertiary] at hc
      exact h.2.2 c hc

theorem QTree_withMainWorld (Q : Int → Slot → Prop) (n : Nat) (sys : System)
    (w : Option World) (h : QTree Q n sys) : QTree Q n (sys.withMainWorld w) := by
  cases n with
  | zero =>
    show SlotOK Q (sys.withMainWorld w).orbits
    rw [withMainWorld_orbits]
    exact h
  | succ k =>
    refine ⟨?_, ?_, ?_⟩
    · rw [withMainWorld_orbits]
      exact h.1
    · intro c hc
      rw [withMainWorld_secondary] at hc
      exact h.2.1 c hc
    · intro c hc
      rw [withMainWorld_tertiary] at hc
      exact h.2.2 c hc

theorem placeMainWorldGo_QTree (Q : Int → Slot → Prop)
    (hW : ∀ (i : Int) (w : World) (sats : List World), w.orbit = i → Q i (Slot.world w sats))
    (hRG : ∀ (i : Int) (g : GasGiant) (sats sats' : List World),
      Q i (Slot.gasGiant g sats) → Q i (Slot.gasGiant g sats'))
    (recur : Option (System → World → Dice → System × World × Dice))
    (hrec : ∀ f, recur = some f → ∀ (m : Nat) (c : System) (w : World) (d : Dice),
      QTree Q m c → QTree Q m (f c w d).1) :
    ∀ (n : Nat) (sys : System) (w : World) (d : Dice),
      QTree Q n sys → QTree Q n ((placeMainWorldGo recur sys w d).1) := by
  intro n sys w d h
  unfold placeMainWorldGo
  simp only []
  by_cases hreq : w.atmosphere > 1 ∧ w.atmosphere < 10 ∧ w.size > 0
  · rw [if_pos hreq]
    generalize (if ((getZone sys).habitable = -1 ∨ (getZone sys).habitable = (getZone sys).inner) ∧
        w.atmosphere > 1 ∧ w.atmosphere < 10 ∧ w.size > 0 then
        max (getZone sys).inner 0 else (getZone sys).habitable) = hb
    cases hsl : jsGet sys.orbits hb with
    | sysRef t =>
      simp only [hsl]
      cases hre : recur with
      | none =>
        simp only []
        cases hco : sys.companionOf t <;>
          exact QTree_withMainWorld Q n _ _ h
      | some f =>
        cases hco : sys.companionOf t with
        | none =>
          simp only []
          exact QTree_withMainWorld Q n _ _ h
        | some c =>
          simp only []
          rcases hpm : f c _ _ with ⟨c2, w2, d2⟩
          simp only [hpm]
          apply QTree_withMainWorld
          cases t with
          | secondary =>
            show QTree Q n (sys.withSecondary (some c2))
            cases n with
            | zero =>
              show SlotOK Q (sys.withSecondary (some c2)).orbits
              rw [withSecondary_orbits]
              exact h
            | succ k =>
              refine ⟨?_, ?_, ?_⟩
              · rw [withSecondary_orbits]
                exact h.1
              · intro c' hc'
                rw [withSecondary_secondary] at hc'
                obtain rfl := (Option.some.inj hc')
                have hqc : QTree Q k c := h.2.1 c hco
                have := hrec f hre k c ({ w with star_orbit := hb }) d hqc
                rw [hpm] at this
                exact this
              · intro c' hc'
                rw [withSecondary_tertiary] at hc'
                exact h.2.2 c' hc'
          | tertiary =>
            show QTree Q n (sys.withTertiary (some c2))
            cases n with
            | zero =>
              show SlotOK Q (sys.withTertiary (some c2)).orbits
              rw [withTertiary_orbits]
              exact h
            | succ k =>
              refine ⟨?_, ?_, ?_⟩
              · rw [withTertiary_orbits]
                exact h.1
              · intro c' hc'
                rw [withTertiary_secondary] at hc'
                exact h.2.1 c' hc'
              · intro c' hc'
                rw [withTertiary_tertiary] at hc'
                obtain rfl := (Option.some.inj hc')
                have hqc : QTree Q k c := h.2.2 c hco
                have := hrec f hre k c ({ w with star_orbit := hb }) d hqc
                rw [hpm] at this
                exact this
    | gasGiant g sats =>
      simp only [hsl]
      rcases ho : genSatelliteOrbit (PrimaryBody.gasGiant g) sats (w.size == 0) d
        with ⟨orb, d1⟩
      simp only [ho]
      apply QTree_withMainWorld
      apply QTree_update Q n sys _ h
      refine SlotOK_jsSet Q _ _ _ (SlotOK_of_QTree Q n sys h) ?_
      refine hRG _ g sats _ ?_
      have := (SlotOK_of_QTree Q n sys h) hb
      rw [hsl] at this
      exact this
    | world w2 sats =>
      simp only [hsl]
      apply QTree_withMainWorld
      apply QTree_update Q n sys _ h
      refine SlotOK_jsSet Q _ _ _ (SlotOK_of_QTree Q n sys h) ?_
      exact hW _ _ [] rfl
    | empty e =>
      simp only [hsl]
      apply QTree_withMainWorld
      apply QTree_update Q n sys _ h
      refine SlotOK_jsSet Q _ _ _ (SlotOK_of_QTree Q n sys h) ?_
      exact hW _ _ [] rfl
    | nul =>
      simp only [hsl]
      apply QTree_withMainWorld
      apply QTree_update Q n sys _ h
      refine SlotOK_jsSet Q _ _ _ (SlotOK_of_QTree Q n sys h) ?_
      exact hW _ _ [] rfl
    | undef =>
      simp only [hsl]
      apply QTree_withMainWorld
      apply QTree_update Q n sys _ h
      refine SlotOK_jsSet Q _ _ _ (SlotOK_of_QTree Q n sys h) ?_
      exact hW _ _ [] rfl
  · rw [if_neg hreq]
    by_cases hlen : ((nullIndices sys.orbits).filter (fun x => x > 0)).length > 0
    · rw [if_pos hlen]
      rcases hd : draw ((nullIndices sys.orbits).filter (fun x => x > 0)).length d
        with ⟨pos, d1⟩
      simp only [hd]
      apply QTree_withMainWorld
      apply QTree_update Q n sys _ h
      refine SlotOK_jsSet Q _ _ _ (SlotOK_of_QTree Q n sys h) ?_
      exact hW _ _ [] rfl
    · rw [if_neg hlen]
      rcases hd : draw sys.max_orbits d with ⟨pos, d1⟩
      simp only [hd]
      apply QTree_withMainWorld
      apply QTree_update Q n sys _ h
      refine SlotOK_jsSet Q _ _ _ (SlotOK_of_QTree Q n sys h) ?_
      exact hW _ _ [] rfl

theorem placeMainWorld_QTree (Q : Int → Slot → Prop)
    (hW : ∀ (i : Int) (w : World) (sats : List World), w.orbit = i → Q i (Slot.world w sats))
    (hRG : ∀ (i : Int) (g : GasGiant) (sats sats' : List World),
      Q i (Slot.gasGiant g sats) → Q i (Slot.gasGiant g sats')) :
    ∀ (fuel n : Nat) (sys : System) (w : World) (d : Dice),
      QTree Q n sys → QTree Q n ((placeMainWorld fuel sys w d).1) := by
  intro fuel
  induction fuel with
  | zero =>
    intro n sys w d h
    exact placeMainWorldGo_QTree Q hW hRG none (fun f hf => by cases hf) n sys w d h
  | succ k ih =>
    intro n sys w d h
    refine placeMainWorldGo_QTree Q hW hRG (some (placeMainWorld k))
      (fun f hf => by
        obtain rfl := (Option.some.inj hf)
        intro m c w2 d2 hq
        exact ih m c w2 d2 hq) n sys w d h

theorem QTree_of_parts (Q : Int → Slot → Prop) (n : Nat) (sys sys' : System)
    (horb : SlotOK Q sys'.orbits) (hsec : sys'.secondary = sys.secondary)
    (hter : sys'.tertiary = sys.tertiary) (h : QTree Q n sys) : QTree Q n sys' := by
  cases n with
  | zero => exact horb
  | succ k =>
    refine ⟨horb, ?_, ?_⟩
    · intro c hc
      rw [hsec] at hc
      exact h.2.1 c hc
    · intro c hc
      rw [hter] at hc
      exact h.2.2 c hc

theorem emptyLoop_comps :
    ∀ (n : Nat) (sys : System) (valid : List Int) (d : Dice),
      ((emptyLoop sys valid n d).1).secondary = sys.secondary ∧
      ((emptyLoop sys valid n d).1).tertiary = sys.tertiary := by
  intro n
  induction n with
  | zero => intro sys valid d; exact ⟨rfl, rfl⟩
  | succ k ih =>
    intro sys valid d
    unfold emptyLoop
    by_cases hv : valid.isEmpty
    · rw [if_pos hv]; exact ⟨rfl, rfl⟩
    · rw [if_neg hv]
      rcases hd : draw valid.length d with ⟨pos, d1⟩
      simp only [hd]
      obtain ⟨h1, h2⟩ := ih (sys.withOrbits (jsSet sys.orbits (valid.getD pos 0)
        (Slot.empty (valid.getD pos 0)))) (valid.eraseIdx pos) d1
      rw [h1, h2, withOrbits_secondary, withOrbits_tertiary]
      exact ⟨rfl, rfl⟩

theorem genEmptyOrbits_comps (sys : System) (d : Dice) :
    ((genEmptyOrbits sys d).1).secondary = sys.secondary ∧
    ((genEmptyOrbits sys d).1).tertiary = sys.tertiary := by
  unfold genEmptyOrbits
  rcases h1 : roll1D d with ⟨r1, d1⟩
  simp only [h1]
  by_cases hr : r1 < 5
  · rw [if_pos hr]; exact ⟨rfl, rfl⟩
  · rw [if_neg hr]
    rcases h2 : roll1D d1 with ⟨r2, d2⟩
    simp only [h2]
    exact emptyLoop_comps _ sys _ _

theorem gasLoop_comps :
    ∀ (n : Nat) (outer inner : List Int) (sys : System) (d : Dice)
      (r : System × Nat × Dice), gasLoop sys outer inner n d = Except.ok r →
      r.1.secondary = sys.secondary ∧ r.1.tertiary = sys.tertiary := by
  intro n
  induction n with
  | zero =>
    intro outer inner sys d r hok
    unfold gasLoop at hok
    obtain rfl := (Except.ok.inj hok)
    exact ⟨rfl, rfl⟩
  | succ k ih =>
    intro outer inner sys d r hok
    unfold gasLoop at hok
    by_cases hz : outer.length + inner.length = 0
    · rw [if_pos hz] at hok
      obtain rfl := (Except.ok.inj hok)
      exact ⟨rfl, rfl⟩
    · rw [if_neg hz] at hok
      by_cases ho : outer.length > 0
      · rw [if_pos ho] at hok
        rcases hd : draw outer.length d with ⟨pos, d1⟩
        simp only [hd] at hok
        rcases hr : roll1D d1 with ⟨rl, d2⟩
        simp only [hr] at hok
        cases hpn : genPlanetName sys (outer.getD pos 0) with
        | error e => simp only [hpn] at hok; simp [bind, Except.bind] at hok
        | ok nm =>
          simp only [hpn] at hok
          simp only [bind, Except.bind] at hok
          obtain ⟨h1, h2⟩ := ih _ _ _ _ _ hok
          rw [h1, h2, withOrbits_secondary, withOrbits_tertiary]
          exact ⟨rfl, rfl⟩
      · rw [if_neg ho] at hok
        rcases hd : draw inner.length d with ⟨pos, d1⟩
        simp only [hd] at hok
        rcases hr : roll1D d1 with ⟨rl, d2⟩
        simp only [hr] at hok
        cases hpn : genPlanetName sys (inner.getD pos 0) with
        | error e => simp only [hpn] at hok; simp [bind, Except.bind] at hok
        | ok nm =>
          simp only [hpn] at hok
          simp only [bind, Except.bind] at hok
          obtain ⟨h1, h2⟩ := ih _ _ _ _ _ hok
          rw [h1, h2, withOrbits_secondary, withOrbits_tertiary]
          exact ⟨rfl, rfl⟩

theorem genGasGiants_comps (sys : System) (d : Dice) (r : Nat × System × Dice)
    (hok : genGasGiants sys d = Except.ok r) :
    r.2.1.secondary = sys.secondary ∧ r.2.1.tertiary = sys.tertiary := by
  unfold genGasGiants at hok
  rcases h0 : roll2D d with ⟨r0, d1⟩
  simp only [h0] at hok
  by_cases hr : r0 ≥ 10
  · rw [if_pos hr] at hok
    obtain rfl := (Except.ok.inj hok)
    exact ⟨rfl, rfl⟩
  · rw [if_neg hr] at hok
    rcases h1 : roll2D d1 with ⟨r1, d2⟩
    simp only [h1] at hok
    cases hgl : gasLoop sys ((nullIndices sys.orbits).filter (fun i => (getZone sys).habitable ≤ i))
        ((nullIndices sys.orbits).filter (fun i => i < (getZone sys).habitable))
        (min (gasGiantTable (r1 : Int)) (countOpenOrbits sys)) d2 with
    | error e => rw [hgl] at hok; simp [bind, Except.bind] at hok
    | ok trip =>
      rw [hgl] at hok
      simp only [bind, Except.bind] at hok
      obtain rfl := (Except.ok.inj hok)
      exact gasLoop_comps _ _ _ _ _ _ hgl

theorem planetoidLoop_comps :
    ∀ (n : Nat) (sys : System) (mw : World) (giants other : List Int) (d : Dice),
      ((planetoidLoop sys mw giants other n d).1).secondary = sys.secondary ∧
      ((planetoidLoop sys mw giants other n d).1).tertiary = sys.tertiary := by
  intro n
  induction n with
  | zero => intro sys mw giants other d; exact ⟨rfl, rfl⟩
  | succ k ih =>
    intro sys mw giants other d
    unfold planetoidLoop
    by_cases hz : giants.length + other.length = 0
    · rw [if_pos hz]; exact ⟨rfl, rfl⟩
    · rw [if_neg hz]
      by_cases hg : giants.length > 0
      · rw [if_pos hg]
        rcases hd : draw giants.length d with ⟨pos, d1⟩
        simp only [hd]
        rcases hp : roll2D d1 with ⟨pr, d2⟩
        simp only [hp]
        obtain ⟨h1, h2⟩ := ih _ mw _ _ _
        rw [h1, h2, withOrbits_secondary, withOrbits_tertiary]
        exact ⟨rfl, rfl⟩
      · rw [if_neg hg]
        rcases hd : draw other.length d with ⟨pos, d1⟩
        simp only [hd]
        rcases hp : roll2D d1 with ⟨pr, d2⟩
        simp only [hp]
        obtain ⟨h1, h2⟩ := ih _ mw _ _ _
        rw [h1, h2, withOrbits_secondary, withOrbits_tertiary]
        exact ⟨rfl, rfl⟩

theorem genPlanetoids_comps (sys : System) (num : Nat) (mw : World) (d : Dice) :
    ((genPlanetoids sys num mw d).1).secondary = sys.secondary ∧
    ((genPlanetoids sys num mw d).1).tertiary = sys.tertiary := by
  unfold genPlanetoids
  rcases h0 : roll2D d with ⟨r0, d1⟩
  simp only [h0]
  by_cases hr : r0 ≥ 7
  · rw [if_pos hr]; exact ⟨rfl, rfl⟩
  · rw [if_neg hr]
    rcases h1 : roll2D d1 with ⟨r1, d2⟩
    simp only [h1]
    exact planetoidLoop_comps _ sys mw _ _ _

theorem fillerLoop_comps (mw : World) :
    ∀ (l : List Int) (sys : System) (d : Dice) (r : System × Dice),
      fillerLoop mw sys l d = Except.ok r →
      r.1.secondary = sys.secondary ∧ r.1.tertiary = sys.tertiary := by
  intro l
  induction l with
  | nil =>
    intro sys d r hok
    unfold fillerLoop at hok
    obtain rfl := (Except.ok.inj hok)
    exact ⟨rfl, rfl⟩
  | cons i rest ih =>
    intro sys d r hok
    unfold fillerLoop at hok
    by_cases hnul : jsGet sys.orbits i = Slot.nul
    · rw [if_pos hnul] at hok
      cases hpn : genPlanetName sys i with
      | error e => simp only [hpn] at hok; simp [bind, Except.bind] at hok
      | ok nm =>
        simp only [hpn] at hok
        simp only [bind, Except.bind] at hok
        rcases hw : genWorld nm sys i mw d with ⟨w, d1⟩
        simp only [hw] at hok
        obtain ⟨h1, h2⟩ := ih _ _ _ hok
        rw [h1, h2, withOrbits_secondary, withOrbits_tertiary]
        exact ⟨rfl, rfl⟩
    · rw [if_neg hnul] at hok
      exact ih _ _ _ hok

theorem satellitePass_comps (mw : World) :
    ∀ (l : List Int) (sys : System) (d : Dice),
      ((satellitePass mw sys l d).1).secondary = sys.secondary ∧
      ((satellitePass mw sys l d).1).tertiary = sys.tertiary := by
  intro l
  induction l with
  | nil => intro sys d; exact ⟨rfl, rfl⟩
  | cons i rest ih =>
    intro sys d
    unfold satellitePass
    cases hsl : jsGet sys.orbits i with
    | world w sats =>
      simp only [hsl]
      rcases hn : numSatellites (.world w) d with ⟨n, d1⟩
      simp only [hn]
      rcases hsat : satLoop sys (.world w) mw n sats d1 with ⟨sats2, d2⟩
      simp only [hsat]
      obtain ⟨h1, h2⟩ := ih _ _
      rw [h1, h2, withOrbits_secondary, withOrbits_tertiary]
      exact ⟨rfl, rfl⟩
    | gasGiant g sats =>
      simp only [hsl]
      rcases hn : numSatellites (.gasGiant g) d with ⟨n, d1⟩
      simp only [hn]
      rcases hsat : satLoop sys (.gasGiant g) mw n sats d1 with ⟨sats2, d2⟩
      simp only [hsat]
      obtain ⟨h1, h2⟩ := ih _ _
      rw [h1, h2, withOrbits_secondary, withOrbits_tertiary]
      exact ⟨rfl, rfl⟩
    | sysRef t => simp only [hsl]; exact ih sys d
    | empty e => simp only [hsl]; exact ih sys d
    | nul => simp only [hsl]; exact ih sys d
    | undef => simp only [hsl]; exact ih sys d

theorem emptyLoop_orbit :
    ∀ (n : Nat) (sys : System) (valid : List Int) (d : Dice),
      ((emptyLoop sys valid n d).1).orbit = sys.orbit := by
  intro n
  induction n with
  | zero => intro sys valid d; rfl
  | succ k ih =>
    intro sys valid d
    unfold emptyLoop
    by_cases hv : valid.isEmpty
    · rw [if_pos hv]
    · rw [if_neg hv]
      rcases hd : draw valid.length d with ⟨pos, d1⟩
      simp only [hd]
      rw [ih (sys.withOrbits (jsSet sys.orbits (valid.getD pos 0)
        (Slot.empty (valid.getD pos 0)))) (valid.eraseIdx pos) d1, withOrbits_orbit]

theorem genEmptyOrbits_orbit (sys : System) (d : Dice) :
    ((genEmptyOrbits sys d).1).orbit = sys.orbit := by
  unfold genEmptyOrbits
  rcases h1 : roll1D d with ⟨r1, d1⟩
  simp only [h1]
  by_cases hr : r1 < 5
  · rw [if_pos hr]
  · rw [if_neg hr]
    rcases h2 : roll1D d1 with ⟨r2, d2⟩
    simp only [h2]
    exact emptyLoop_orbit _ sys _ _

theorem gasLoop_orbit :
    ∀ (n : Nat) (outer inner : List Int) (sys : System) (d : Dice)
      (r : System × Nat × Dice), gasLoop sys outer inner n d = Except.ok r →
      r.1.orbit = sys.orbit := by
  intro n
  induction n with
  | zero =>
    intro outer inner sys d r hok
    unfold gasLoop at hok
    obtain rfl := (Except.ok.inj hok)
    rfl
  | succ k ih =>
    intro outer inner sys d r hok
    unfold gasLoop at hok
    by_cases hz : outer.length + inner.length = 0
    · rw [if_pos hz] at hok
      obtain rfl := (Except.ok.inj hok)
      rfl
    · rw [if_neg hz] at hok
      by_cases ho : outer.length > 0
      · rw [if_pos ho] at hok
        rcases hd : draw outer.length d with ⟨pos, d1⟩
        simp only [hd] at hok
        rcases hr : roll1D d1 with ⟨rl, d2⟩
        simp only [hr] at hok
        cases hpn : genPlanetName sys (outer.getD pos 0) with
        | error e => simp only [hpn] at hok; simp [bind, Except.bind] at hok
        | ok nm =>
          simp only [hpn] at hok
          simp only [bind, Except.bind] at hok
          rw [ih _ _ _ _ _ hok, withOrbits_orbit]
      · rw [if_neg ho] at hok
        rcases hd : draw inner.length d with ⟨pos, d1⟩
        simp only [hd] at hok
        rcases hr : roll1D d1 with ⟨rl, d2⟩
        simp only [hr] at hok
        cases hpn : genPlanetName sys (inner.getD pos 0) with
        | error e => simp only [hpn] at hok; simp [bind, Except.bind] at hok
        | ok nm =>
          simp only [hpn] at hok
          simp only [bind, Except.bind] at hok
          rw [ih _ _ _ _ _ hok, withOrbits_orbit]

theorem genGasGiants_orbit (sys : System) (d : Dice) (r : Nat × System × Dice)
    (hok : genGasGiants sys d = Except.ok r) : r.2.1.orbit = sys.orbit := by
  unfold genGasGiants at hok
  rcases h0 : roll2D d with ⟨r0, d1⟩
  simp only [h0] at hok
  by_cases hr : r0 ≥ 10
  · rw [if_pos hr] at hok
    obtain rfl := (Except.ok.inj hok)
    rfl
  · rw [if_neg hr] at hok
    rcases h1 : roll2D d1 with ⟨r1, d2⟩
    simp only [h1] at hok
    cases hgl : gasLoop sys ((nullIndices sys.orbits).filter (fun i => (getZone sys).habitable ≤ i))
        ((nullIndices sys.orbits).filter (fun i => i < (getZone sys).habitable))
        (min (gasGiantTable (r1 : Int)) (countOpenOrbits sys)) d2 with
    | error e => rw [hgl] at hok; simp [bind, Except.bind] at hok
    | ok trip =>
      rw [hgl] at hok
      simp only [bind, Except.bind] at hok
      obtain rfl := (Except.ok.inj hok)
      exact gasLoop_orbit _ _ _ _ _ _ hgl

theorem planetoidLoop_orbit :
    ∀ (n : Nat) (sys : System) (mw : World) (giants other : List Int) (d : Dice),
      ((planetoidLoop sys mw giants other n d).1).orbit = sys.orbit := by
  intro n
  induction n with
  | zero => intro sys mw giants other d; rfl
  | succ k ih =>
    intro sys mw giants other d
    unfold planetoidLoop
    by_cases hz : giants.length + other.length = 0
    · rw [if_pos hz]
    · rw [if_neg hz]
      by_cases hg : giants.length > 0
      · rw [if_pos hg]
        rcases hd : draw giants.length d with ⟨pos, d1⟩
        simp only [hd]
        rcases hp : roll2D d1 with ⟨pr, d2⟩
        simp only [hp]
        rw [ih _ mw _ _ _, withOrbits_orbit]
      · rw [if_neg hg]
        rcases hd : draw other.length d with ⟨pos, d1⟩
        simp only [hd]
        rcases hp : roll2D d1 with ⟨pr, d2⟩
        simp only [hp]
        rw [ih _ mw _ _ _, withOrbits_orbit]

theorem genPlanetoids_orbit (sys : System) (num : Nat) (mw : World) (d : Dice) :
    ((genPlanetoids sys num mw d).1).orbit = sys.orbit := by
  unfold genPlanetoids
  rcases h0 : roll2D d with ⟨r0, d1⟩
  simp only [h0]
  by_cases hr : r0 ≥ 7
  · rw [if_pos hr]
  · rw [if_neg hr]
    rcases h1 : roll2D d1 with ⟨r1, d2⟩
    simp only [h1]
    exact planetoidLoop_orbit _ sys mw _ _ _

theorem fillerLoop_orbit (mw : World) :
    ∀ (l : List Int) (sys : System) (d : Dice) (r : System × Dice),
      fillerLoop mw sys l d = Except.ok r → r.1.orbit = sys.orbit := by
  intro l
  induction l with
  | nil =>
    intro sys d r hok
    unfold fillerLoop at hok
    obtain rfl := (Except.ok.inj hok)
    rfl
  | cons i rest ih =>
    intro sys d r hok
    unfold fillerLoop at hok
    by_cases hnul : jsGet sys.orbits i = Slot.nul
    · rw [if_pos hnul] at hok
      cases hpn : genPlanetName sys i with
      | error e => simp only [hpn] at hok; simp [bind, Except.bind] at hok
      | ok nm =>
        simp only [hpn] at hok
        simp only [bind, Except.bind] at hok
        rcases hw : genWorld nm sys i mw d with ⟨w, d1⟩
        simp only [hw] at hok
        rw [ih _ _ _ hok, withOrbits_orbit]
    · rw [if_neg hnul] at hok
      exact ih _ _ _ hok

theorem satellitePass_orbit (mw : World) :
    ∀ (l : List Int) (sys : System) (d : Dice),
      ((satellitePass mw sys l d).1).orbit = sys.orbit := by
  intro l
  induction l with
  | nil => intro sys d; rfl
  | cons i rest ih =>
    intro sys d
    unfold satellitePass
    cases hsl : jsGet sys.orbits i with
    | world w sats =>
      simp only [hsl]
      rcases hn : numSatellites (.world w) d with ⟨n, d1⟩
      simp only [hn]
      rcases hsat : satLoop sys (.world w) mw n sats d1 with ⟨sats2, d2⟩
      simp only [hsat]
      rw [ih _ _, withOrbits_orbit]
    | gasGiant g sats =>
      simp only [hsl]
      rcases hn : numSatellites (.gasGiant g) d with ⟨n, d1⟩
      simp only [hn]
      rcases hsat : satLoop sys (.gasGiant g) mw n sats d1 with ⟨sats2, d2⟩
      simp only [hsat]
      rw [ih _ _, withOrbits_orbit]
    | sysRef t => simp only [hsl]; exact ih sys d
    | empty e => simp only [hsl]; exact ih sys d
    | nul => simp only [hsl]; exact ih sys d
    | undef => simp only [hsl]; exact ih sys d

theorem placeMainWorldGo_orbit
    (recur : Option (System → World → Dice → System × World × Dice)) :
    ∀ (sys : System) (w : World) (d : Dice),
      ((placeMainWorldGo recur sys w d).1).orbit = sys.orbit := by
  intro sys w d
  unfold placeMainWorldGo
  simp only []
  by_cases hreq : w.atmosphere > 1 ∧ w.atmosphere < 10 ∧ w.size > 0
  · rw [if_pos hreq]
    generalize (if ((getZone sys).habitable = -1 ∨ (getZone sys).habitable = (getZone sys).inner) ∧
        w.atmosphere > 1 ∧ w.atmosphere < 10 ∧ w.size > 0 then
        max (getZone sys).inner 0 else (getZone sys).habitable) = hb
    cases hsl : jsGet sys.orbits hb with
    | sysRef t =>
      simp only [hsl]
      cases hre : recur with
      | none =>
        simp only []
        cases hco : sys.companionOf t <;> rw [withMainWorld_orbit]
      | some f =>
        cases hco : sys.companionOf t with
        | none =>
          simp only []
          rw [withMainWorld_orbit]
        | some c =>
          simp only []
          rcases hpm : f c _ _ with ⟨c2, w2, d2⟩
          simp only [hpm]
          rw [withMainWorld_orbit, withCompanion_orbit]
    | gasGiant g sats =>
      simp only [hsl]
      rcases ho : genSatelliteOrbit (PrimaryBody.gasGiant g) sats (w.size == 0) d
        with ⟨orb, d1⟩
      simp only [ho]
      rw [withMainWorld_orbit, withOrbits_orbit]
    | world w2 sats =>
      simp only [hsl]
      rw [withMainWorld_orbit, withOrbits_orbit]
    | empty e =>
      simp only [hsl]
      rw [withMainWorld_orbit, withOrbits_orbit]
    | nul =>
      simp only [hsl]
      rw [withMainWorld_orbit, withOrbits_orbit]
    | undef =>
      simp only [hsl]
      rw [withMainWorld_orbit, withOrbits_orbit]
  · rw [if_neg hreq]
    by_cases hlen : ((nullIndices sys.orbits).filter (fun x => x > 0)).length > 0
    · rw [if_pos hlen]
      rcases hd : draw ((nullIndices sys.orbits).filter (fun x => x > 0)).length d
        with ⟨pos, d1⟩
      simp only [hd]
      rw [withMainWorld_orbit, withOrbits_orbit]
    · rw [if_neg hlen]
      rcases hd : draw sys.max_orbits d with ⟨pos, d1⟩
      simp only [hd]
      rw [withMainWorld_orbit, withOrbits_orbit]

theorem placeMainWorld_orbit (fuel : Nat) (sys : System) (w : World) (d : Dice) :
    ((placeMainWorld fuel sys w d).1).orbit = sys.orbit := by
  cases fuel with
  | zero => exact placeMainWorldGo_orbit none sys w d
  | succ k => exact placeMainWorldGo_orbit (some (placeMainWorld k)) sys w d

theorem SlotOK_emptyAt_iff (j : Int) (a : List Slot) :
    SlotOK (emptyAt j) a ↔ jsGet a j = Slot.empty j := by
  constructor
  · intro h
    exact h j rfl
  · intro h i hij
    subst hij
    exact h

theorem emptyAt_empty (j : Int) : ∀ i : Int, emptyAt j i (Slot.empty i) := by
  intro i hij
  rw [hij]

theorem emptyAt_of_nul (j i : Int) (h : emptyAt j i Slot.nul) (s : Slot) : emptyAt j i s := by
  intro hij
  exact absurd (h hij) (by simp)

theorem emptyAt_of_world (j i : Int) (w : World) (sats : List World)
    (h : emptyAt j i (Slot.world w sats)) (s : Slot) : emptyAt j i s := by
  intro hij
  exact absurd (h hij) (by simp)

theorem emptyAt_of_giant (j i : Int) (g : GasGiant) (sats : List World)
    (h : emptyAt j i (Slot.gasGiant g sats)) (s : Slot) : emptyAt j i s := by
  intro hij
  exact absurd (h hij) (by simp)

set_option maxRecDepth 40000 in
/-- C4, counterexample: in the generation run driven by `diceOverwrite`, the
empty-orbit phase marks orbit 3 Empty, and `placeMainWorld` then overwrites
that same slot with the (habitable-requiring) main world. -/
theorem slot_overwrite_counterexample : emptyThenMainWorld = true := by decide

/-- C4 (amended): every generation phase other than `placeMainWorld` —
empty-orbit seeding, gas giants, planetoids, the forced hot-zone pass,
filler worlds and the satellite pass — preserves a slot that holds the
Empty marker; `placeMainWorld` alone can overwrite it. -/
theorem empty_slot_preservation (j : Int) :
    (∀ (sys : System) (d : Dice), jsGet sys.orbits j = Slot.empty j →
      jsGet ((genEmptyOrbits sys d).1).orbits j = Slot.empty j) ∧
    (∀ (sys : System) (d : Dice) (r : Nat × System × Dice),
      jsGet sys.orbits j = Slot.empty j → genGasGiants sys d = Except.ok r →
      jsGet r.2.1.orbits j = Slot.empty j) ∧
    (∀ (sys : System) (num : Nat) (mw : World) (d : Dice),
      jsGet sys.orbits j = Slot.empty j →
      jsGet ((genPlanetoids sys num mw d).1).orbits j = Slot.empty j) ∧
    (∀ (l : List Int) (a : List Slot), jsGet a j = Slot.empty j →
      jsGet (l.foldl (fun acc i => jsSet acc i (Slot.empty i)) a) j = Slot.empty j) ∧
    (∀ (mw : World) (l : List Int) (sys : System) (d : Dice) (r : System × Dice),
      jsGet sys.orbits j = Slot.empty j → fillerLoop mw sys l d = Except.ok r →
      jsGet r.1.orbits j = Slot.empty j) ∧
    (∀ (mw : World) (l : List Int) (sys : System) (d : Dice),
      jsGet sys.orbits j = Slot.empty j →
      jsGet ((satellitePass mw sys l d).1).orbits j = Slot.empty j) := by
  refine ⟨?_, ?_, ?_, ?_, ?_, ?_⟩
  · intro sys d h
    exact (SlotOK_emptyAt_iff j _).mp
      (genEmptyOrbits_SlotOK _ (emptyAt_empty j) sys d ((SlotOK_emptyAt_iff j _).mpr h))
  · intro sys d r h hok
    exact (SlotOK_emptyAt_iff j _).mp
      (genGasGiants_SlotOK _ sys d r
        (fun i hn g sats _ => emptyAt_of_nul j i hn _)
        ((SlotOK_emptyAt_iff j _).mpr h) hok)
  · intro sys num mw d h
    exact (SlotOK_emptyAt_iff j _).mp
      (genPlanetoids_SlotOK _ sys num mw d
        (fun i hn w sats _ => emptyAt_of_nul j i hn _)
        ((SlotOK_emptyAt_iff j _).mpr h))
  · intro l a h
    exact (SlotOK_emptyAt_iff j _).mp
      (foldl_empty_SlotOK _ (emptyAt_empty j) l a ((SlotOK_emptyAt_iff j _).mpr h))
  · intro mw l sys d r h hok
    exact (SlotOK_emptyAt_iff j _).mp
      (fillerLoop_SlotOK _ mw
        (fun i w sats hn _ => emptyAt_of_nul j i hn _)
        l sys d r ((SlotOK_emptyAt_iff j _).mpr h) hok)
  · intro mw l sys d h
    exact (SlotOK_emptyAt_iff j _).mp
      (satellitePass_SlotOK _ mw
        (fun i w sats sats' hw => emptyAt_of_world j i w sats hw _)
        (fun i g sats sats' hg => emptyAt_of_giant j i g sats hg _)
        l sys d ((SlotOK_emptyAt_iff j _).mpr h))

/-- C4 witness: the satellite pass on the concrete far-companion system
leaves its Empty slot 11 untouched. -/
theorem empty_slot_preservation_witness :
    jsGet ((satellitePass mwVacT sysFar [1, 2] []).1).orbits 11 = Slot.empty 11 :=
  (empty_slot_preservation 11).2.2.2.2.2 mwVacT [1, 2] sysFar [] (by decide)

theorem arabicToRoman_ok (i : Int) (h0 : 0 ≤ i) (h20 : i ≤ 20) :
    ∃ s, arabicToRoman i = Except.ok s := by
  unfold arabicToRoman
  rw [if_neg (by omega)]
  cases h : romanNumerals.find? (fun p => i ≥ p.1) with
  | some p => exact ⟨p.2, rfl⟩
  | none => exact ⟨"", rfl⟩

theorem genPlanetName_ok (sys : System) (i : Int) (h0 : -1 ≤ i) (h19 : i ≤ 19) :
    ∃ s, genPlanetName sys i = Except.ok s := by
  unfold genPlanetName
  obtain ⟨s, hs⟩ := arabicToRoman_ok (i + 1) (by omega) (by omega)
  simp only [hs, bind, Except.bind]
  exact ⟨_, rfl⟩

theorem genPlanetName_error (sys : System) (i : Int) (h : 20 ≤ i) :
    genPlanetName sys i = Except.error GenError.romanRange := by
  unfold genPlanetName arabicToRoman
  rw [if_pos (by omega : i + 1 < 0 ∨ i + 1 > 20)]
  simp [bind, Except.bind]

theorem gasLoop_ok :
    ∀ (n : Nat) (outer inner : List Int) (sys : System) (d : Dice),
      (∀ i ∈ outer ++ inner, 0 ≤ i ∧ i ≤ 19) →
      ∃ sys2 rem d2, gasLoop sys outer inner n d = Except.ok (sys2, rem, d2) ∧
        (n ≤ outer.length + inner.length → rem = 0) := by
  intro n
  induction n with
  | zero =>
    intro outer inner sys d _
    exact ⟨sys, 0, d, rfl, fun _ => rfl⟩
  | succ k ih =>
    intro outer inner sys d hB
    unfold gasLoop
    by_cases hz : outer.length + inner.length = 0
    · rw [if_pos hz]
      exact ⟨sys, k + 1, d, rfl, fun hle => absurd hle (by omega)⟩
    · rw [if_neg hz]
      by_cases ho : outer.length > 0
      · rw [if_pos ho]
        rcases hd : draw outer.length d with ⟨pos, d1⟩
        simp only [hd]
        rcases hr : roll1D d1 with ⟨rl, d2⟩
        simp only [hr]
        have hpos : pos < outer.length := by
          have := draw_lt outer.length d ho
          rw [hd] at this
          exact this
        have hmem : outer.getD pos 0 ∈ outer ++ inner :=
          List.mem_append.mpr (Or.inl (getD_mem_of_lt outer pos hpos))
        obtain ⟨hb0, hb19⟩ := hB _ hmem
        obtain ⟨nm, hpn⟩ := genPlanetName_ok sys (outer.getD pos 0) (by omega) hb19
        simp only [hpn, bind, Except.bind]
        obtain ⟨sys2, rem, d3, hgl, hrem⟩ := ih (outer.eraseIdx pos) inner
          (sys.withOrbits (jsSet sys.orbits (outer.getD pos 0)
            (Slot.gasGiant (if rl ≤ 3 then ⟨nm, .Small, outer.getD pos 0⟩
              else ⟨nm, .Large, outer.getD pos 0⟩) []))) d2
          (by
            intro i hi
            refine hB i ?_
            rcases List.mem_append.mp hi with h1 | h2
            · exact List.mem_append.mpr (Or.inl ((List.eraseIdx_sublist outer pos).subset h1))
            · exact List.mem_append.mpr (Or.inr h2))
        refine ⟨sys2, rem, d3, hgl, fun hle => hrem ?_⟩
        rw [List.length_eraseIdx_of_lt hpos]
        omega
      · rw [if_neg ho]
        rcases hd : draw inner.length d with ⟨pos, d1⟩
        simp only [hd]
        rcases hr : roll1D d1 with ⟨rl, d2⟩
        simp only [hr]
        have hil : 0 < inner.length := by omega
        have hpos : pos < inner.length := by
          have := draw_lt inner.length d hil
          rw [hd] at this
          exact this
        have hmem : inner.getD pos 0 ∈ outer ++ inner :=
          List.mem_append.mpr (Or.inr (getD_mem_of_lt inner pos hpos))
        obtain ⟨hb0, hb19⟩ := hB _ hmem
        obtain ⟨nm, hpn⟩ := genPlanetName_ok sys (inner.getD pos 0) (by omega) hb19
        simp only [hpn, bind, Except.bind]
        obtain ⟨sys2, rem, d3, hgl, hrem⟩ := ih outer (inner.eraseIdx pos)
          (sys.withOrbits (jsSet sys.orbits (inner.getD pos 0)
            (Slot.gasGiant (if rl ≤ 3 then ⟨nm, .Small, inner.getD pos 0⟩
              else ⟨nm, .Large, inner.getD pos 0⟩) []))) d2
          (by
            intro i hi
            refine hB i ?_
            rcases List.mem_append.mp hi with h1 | h2
            · exact List.mem_append.mpr (Or.inl h1)
            · exact List.mem_append.mpr (Or.inr ((List.eraseIdx_sublist inner pos).subset h2)))
        refine ⟨sys2, rem, d3, hgl, fun hle => hrem ?_⟩
        rw [List.length_eraseIdx_of_lt hpos]
        omega

theorem nullIndicesFrom_complete :
    ∀ (a : List Slot) (n x : Int), 0 ≤ x - n → a.getD (x - n).toNat Slot.undef = Slot.nul →
      x ∈ nullIndicesFrom n a := by
  intro a
  induction a with
  | nil =>
    intro n x h1 h2
    simp [List.getD] at h2
  | cons s rest ih =>
    intro n x h1 h2
    unfold nullIndicesFrom
    by_cases hxn : x = n
    · subst hxn
      simp at h2
      rw [if_pos h2]
      exact List.mem_cons_self _ _
    · have hm : (x - n).toNat = (x - (n + 1)).toNat + 1 := by omega
      rw [hm] at h2
      simp only [List.getD_cons_succ] at h2
      have := ih (n + 1) x (by omega) h2
      by_cases hs : s = Slot.nul
      · rw [if_pos hs]
        exact List.mem_cons_of_mem _ this
      · rw [if_neg hs]
        exact this

theorem jsGet_mem_nullIndices (a : List Slot) (x : Int) (h : jsGet a x = Slot.nul) :
    x ∈ nullIndices a := by
  unfold jsGet at h
  by_cases hx : x < 0
  · rw [if_pos hx] at h
    cases h
  · rw [if_neg hx] at h
    refine nullIndicesFrom_complete a 0 x (by omega) ?_
    simpa using h

theorem intRangeList_nodup (s e : Int) : (intRangeList s e).Nodup := by
  unfold intRangeList
  refine (List.nodup_range _).map ?_
  intro x y h
  simp only [Int.ofNat_eq_natCast] at h
  omega

theorem countOpenOrbits_le (sys : System) :
    countOpenOrbits sys ≤ (nullIndices sys.orbits).length := by
  unfold countOpenOrbits
  refine (List.subperm_of_subset ?_ ?_).length_le
  · exact (intRangeList_nodup _ _).filter _
  · intro x hx
    have hmem := List.mem_filter.mp hx
    have : jsGet sys.orbits x = Slot.nul := by
      have := hmem.2
      simpa using this
    exact jsGet_mem_nullIndices _ _ this

theorem filter_le_lt_length (l : List Int) (c : Int) :
    (l.filter (fun i => c ≤ i)).length + (l.filter (fun i => i < c)).length = l.length := by
  induction l with
  | nil => rfl
  | cons x xs ih =>
    by_cases hc : c ≤ x
    · have hc2 : ¬ (x < c) := by omega
      rw [List.filter_cons, List.filter_cons, if_pos (by simpa using hc),
        if_neg (by simpa using hc2)]
      simp only [List.length_cons]
      omega
    · have hc2 : x < c := by omega
      rw [List.filter_cons, List.filter_cons, if_neg (by simpa using hc),
        if_pos (by simpa using hc2)]
      simp only [List.length_cons]
      omega

/-- C7: `genGasGiants` never raises; the count it returns is the minimum of
the rolled table count and the number of open orbits — in particular, when
the rolled count exceeds the open orbits, exactly the open-orbit count is
placed and returned (the hypothesis says every `null` index is a legal
orbit, which generation guarantees). -/
theorem gas_giants_soft_degradation (sys : System) (d : Dice)
    (hB : ∀ i ∈ nullIndices sys.orbits, 0 ≤ i ∧ i ≤ 19) :
    ∃ n sys2 d2, genGasGiants sys d = Except.ok (n, sys2, d2) ∧
      n ≤ countOpenOrbits sys ∧
      ((roll2D d).1 < 10 →
        n = min (gasGiantTable ((roll2D ((roll2D d).2)).1 : Int)) (countOpenOrbits sys)) := by
  unfold genGasGiants
  rcases h0 : roll2D d with ⟨r0, d1⟩
  simp only [h0]
  by_cases hr : r0 ≥ 10
  · rw [if_pos hr]
    exact ⟨0, sys, d1, rfl, Nat.zero_le _, fun hlt => absurd hlt (by omega)⟩
  · rw [if_neg hr]
    rcases h1 : roll2D d1 with ⟨r1, d2⟩
    simp only [h1]
    obtain ⟨sys2, rem, d3, hgl, hrem⟩ := gasLoop_ok
      (min (gasGiantTable (r1 : Int)) (countOpenOrbits sys))
      ((nullIndices sys.orbits).filter (fun i => (getZone sys).habitable ≤ i))
      ((nullIndices sys.orbits).filter (fun i => i < (getZone sys).habitable))
      sys d2
      (by
        intro i hi
        refine hB i ?_
        rcases List.mem_append.mp hi with h2 | h3
        · exact (List.mem_filter.mp h2).1
        · exact (List.mem_filter.mp h3).1)
    have hsum : ((nullIndices sys.orbits).filter (fun i => (getZone sys).habitable ≤ i)).length +
        ((nullIndices sys.orbits).filter (fun i => i < (getZone sys).habitable)).length =
        (nullIndices sys.orbits).length := filter_le_lt_length _ _
    have hmin : min (gasGiantTable (r1 : Int)) (countOpenOrbits sys) ≤
        (nullIndices sys.orbits).length :=
      le_trans (min_le_right _ _) (countOpenOrbits_le sys)
    have hrem0 : rem = 0 := hrem (by omega)
    subst hrem0
    rw [hgl]
    simp only [bind, Except.bind]
    refine ⟨_, sys2, d3, rfl, ?_, ?_⟩
    · simpa using min_le_right _ _
    · intro _
      simp

/-- C7 witness: five gas giants requested with two open orbits places and
reports exactly two. -/
theorem gas_giants_soft_degradation_witness :
    (∀ i ∈ nullIndices sysTwoOpen.orbits, 0 ≤ i ∧ i ≤ 19) ∧
    ∃ n sys2 d2, genGasGiants sysTwoOpen diceFiveGiants = Except.ok (n, sys2, d2) ∧
      n ≤ countOpenOrbits sysTwoOpen ∧
      ((roll2D diceFiveGiants).1 < 10 →
        n = min (gasGiantTable ((roll2D ((roll2D diceFiveGiants).2)).1 : Int))
          (countOpenOrbits sysTwoOpen)) :=
  ⟨by decide, gas_giants_soft_degradation sysTwoOpen diceFiveGiants (by decide)⟩

theorem nulBound_not_nul (i : Int) (v : Slot) (hv : v ≠ Slot.nul) : nulBound i v :=
  fun h => absurd h hv

theorem nulBound_nullIndices (a : List Slot) (h : SlotOK nulBound a) :
    ∀ i ∈ nullIndices a, 0 ≤ i ∧ i ≤ 19 := by
  intro i hi
  obtain ⟨h0, hn⟩ := nullIndicesFrom_sound a 0 i hi
  refine ⟨by omega, ?_⟩
  refine h i ?_
  unfold jsGet
  rw [if_neg (by omega)]
  simpa using hn

theorem fillerLoop_ok (mw : World) :
    ∀ (l : List Int) (sys : System) (d : Dice), SlotOK nulBound sys.orbits →
      ∃ r, fillerLoop mw sys l d = Except.ok r ∧ SlotOK nulBound r.1.orbits := by
  intro l
  induction l with
  | nil =>
    intro sys d h
    exact ⟨(sys, d), rfl, h⟩
  | cons i rest ih =>
    intro sys d h
    unfold fillerLoop
    by_cases hnul : jsGet sys.orbits i = Slot.nul
    · rw [if_pos hnul]
      have h0 : ¬ i < 0 := by
        intro hlt
        rw [jsGet_neg sys.orbits i hlt] at hnul
        cases hnul
      have h19 : i ≤ 19 := h i hnul
      obtain ⟨nm, hpn⟩ := genPlanetName_ok sys i (by omega) h19
      simp only [hpn, bind, Except.bind]
      rcases hw : genWorld nm sys i mw d with ⟨w, d1⟩
      obtain ⟨r, hfl, hr⟩ := ih (sys.withOrbits (jsSet sys.orbits i (Slot.world w []))) d1
        (by
          rw [withOrbits_orbits]
          exact SlotOK_jsSet _ _ _ _ h (nulBound_not_nul _ _ (by simp)))
      exact ⟨r, hfl, hr⟩
    · rw [if_neg hnul]
      exact ih sys d h

theorem fillLevel_ok (n : Nat)
    (recur : Option (System → World → Bool → Dice → Except GenError (System × Dice)))
    (hrec : ∀ f, recur = some f → ∀ (m : Nat), n = m + 1 →
      ∀ (sys : System) (mw : World) (b : Bool) (d : Dice),
        QTree nulBound m sys → ∃ r, f sys mw b d = Except.ok r)
    (hpos : ∀ f, recur = some f → 0 < n) :
    ∀ (sys : System) (mw : World) (b : Bool) (d : Dice),
      QTree nulBound n sys → ∃ r, fillLevel recur sys mw b d = Except.ok r := by
  intro sys mw b d h
  unfold fillLevel
  rcases hge : genEmptyOrbits sys d with ⟨sys1, d1⟩
  simp only [hge]
  have hq1 : QTree nulBound n sys1 := by
    refine QTree_of_parts _ n sys sys1 ?_ ?_ ?_ h
    · have := genEmptyOrbits_SlotOK nulBound (fun i => nulBound_not_nul i _ (by simp))
        sys d (SlotOK_of_QTree _ n sys h)
      rw [hge] at this
      exact this
    · have := (genEmptyOrbits_comps sys d).1
      rw [hge] at this
      exact this
    · have := (genEmptyOrbits_comps sys d).2
      rw [hge] at this
      exact this
  obtain ⟨ngg, sys2, d2, hgg, hle2, hmin2⟩ := gas_giants_soft_degradation sys1 d1
    (nulBound_nullIndices _ (SlotOK_of_QTree _ n sys1 hq1))
  simp only [hgg, bind, Except.bind]
  have hq2 : QTree nulBound n sys2 := by
    refine QTree_of_parts _ n sys1 sys2 ?_ ?_ ?_ hq1
    · exact genGasGiants_SlotOK nulBound sys1 d1 (ngg, sys2, d2)
        (fun i _ g sats _ => nulBound_not_nul i _ (by simp))
        (SlotOK_of_QTree _ n sys1 hq1) hgg
    · exact (genGasGiants_comps sys1 d1 (ngg, sys2, d2) hgg).1
    · exact (genGasGiants_comps sys1 d1 (ngg, sys2, d2) hgg).2
  rcases hgp : genPlanetoids sys2 ngg mw d2 with ⟨sys3, d3⟩
  simp only [hgp]
  have hq3 : QTree nulBound n sys3 := by
    refine QTree_of_parts _ n sys2 sys3 ?_ ?_ ?_ hq2
    · have := genPlanetoids_SlotOK nulBound sys2 ngg mw d2
        (fun i _ w sats _ => nulBound_not_nul i _ (by simp))
        (SlotOK_of_QTree _ n sys2 hq2)
      rw [hgp] at this
      exact this
    · have := (genPlanetoids_comps sys2 ngg mw d2).1
      rw [hgp] at this
      exact this
    · have := (genPlanetoids_comps sys2 ngg mw d2).2
      rw [hgp] at this
      exact this
  rcases hpm : (if b then placeMainWorld 3 sys3 mw d3 else (sys3, mw, d3))
    with ⟨sys4, mw4, d4⟩
  simp only [hpm]
  have hq4 : QTree nulBound n sys4 := by
    by_cases hb : b
    · rw [if_pos hb] at hpm
      have := placeMainWorld_QTree nulBound
        (fun i w sats _ => nulBound_not_nul i _ (by simp))
        (fun i g sats sats' _ => nulBound_not_nul i _ (by simp)) 3 n sys3 mw d3 hq3
      rw [hpm] at this
      exact this
    · rw [if_neg hb] at hpm
      injection hpm with h1 h23
      rw [← h1]
      exact hq3
  rw [sysFoldl_empty_eq]
  generalize hA : (intRangeList 0 ((getZone sys4).hot + 1)).foldl
    (fun acc i => jsSet acc i (Slot.empty i)) sys4.orbits = A
  have hq5 : QTree nulBound n (sys4.withOrbits A) := by
    refine QTree_of_parts _ n sys4 _ ?_ (withOrbits_secondary _ _) (withOrbits_tertiary _ _) hq4
    rw [withOrbits_orbits, ← hA]
    exact foldl_empty_SlotOK _ (fun i => nulBound_not_nul i _ (by simp)) _ _
      (SlotOK_of_QTree _ n sys4 hq4)
  obtain ⟨⟨sys6, d6⟩, hfl, hok6⟩ := fillerLoop_ok mw4
    (intRangeList ((getZone sys4).hot + 1) (((sys4.withOrbits A).max_orbits : Int) + 1))
    (sys4.withOrbits A) d4 (SlotOK_of_QTree _ n _ hq5)
  simp only [hfl, bind, Except.bind]
  have hq6 : QTree nulBound n sys6 := by
    refine QTree_of_parts _ n (sys4.withOrbits A) sys6 hok6 ?_ ?_ hq5
    · exact (fillerLoop_comps mw4 _ _ _ _ hfl).1
    · exact (fillerLoop_comps mw4 _ _ _ _ hfl).2
  rcases hsp : satellitePass mw4 sys6 (intRangeList 1 ((sys6.max_orbits : Int) + 1)) d6
    with ⟨sys7, d7⟩
  simp only [hsp]
  have hq7 : QTree nulBound n sys7 := by
    refine QTree_of_parts _ n sys6 sys7 ?_ ?_ ?_ hq6
    · have := satellitePass_SlotOK nulBound mw4
        (fun i w sats sats' _ => nulBound_not_nul i _ (by simp))
        (fun i g sats sats' _ => nulBound_not_nul i _ (by simp))
        (intRangeList 1 ((sys6.max_orbits : Int) + 1)) sys6 d6
        (SlotOK_of_QTree _ n sys6 hq6)
      rw [hsp] at this
      exact this
    · have := (satellitePass_comps mw4 (intRangeList 1 ((sys6.max_orbits : Int) + 1)) sys6 d6).1
      rw [hsp] at this
      exact this
    · have := (satellitePass_comps mw4 (intRangeList 1 ((sys6.max_orbits : Int) + 1)) sys6 d6).2
      rw [hsp] at this
      exact this
  cases hre : recur with
  | none =>
    simp only [hre]
    exact ⟨_, rfl⟩
  | some f =>
    simp only [hre]
    obtain ⟨k, rfl⟩ : ∃ k, n = k + 1 := by
      have := hpos f hre
      exact ⟨n - 1, by omega⟩
    cases hsec : sys7.secondary with
    | none =>
      simp only [hsec]
      cases hter : sys7.tertiary with
      | none =>
        simp only [bind, Except.bind]
        exact ⟨_, rfl⟩
      | some ter =>
        simp only [bind, Except.bind]
        by_cases hto : ter.orbit > 0
        · rw [if_pos hto]
          obtain ⟨⟨tersys, dt⟩, hrt⟩ := hrec f hre k rfl ter mw4 false d7 (hq7.2.2 ter hter)
          simp only [hrt, bind, Except.bind]
          exact ⟨_, rfl⟩
        · rw [if_neg hto]
          exact ⟨_, rfl⟩
    | some sec =>
      simp only [hsec]
      by_cases hso : sec.orbit > 0
      · rw [if_pos hso]
        obtain ⟨⟨secsys, ds⟩, hrs⟩ := hrec f hre k rfl sec mw4 false d7 (hq7.2.1 sec hsec)
        simp only [hrs, bind, Except.bind]
        rw [withSecondary_tertiary]
        cases hter : sys7.tertiary with
        | none => exact ⟨_, rfl⟩
        | some ter =>
          by_cases hto : ter.orbit > 0
          · simp only []
            rw [if_pos hto]
            obtain ⟨⟨tersys, dt⟩, hrt⟩ := hrec f hre k rfl ter mw4 false ds (hq7.2.2 ter hter)
            simp only [hrt, bind, Except.bind]
            exact ⟨_, rfl⟩
          · simp only []
            rw [if_neg hto]
            exact ⟨_, rfl⟩
      · rw [if_neg hso]
        cases hter : sys7.tertiary with
        | none => exact ⟨_, rfl⟩
        | some ter =>
          by_cases hto : ter.orbit > 0
          · simp only []
            rw [if_pos hto]
            obtain ⟨⟨tersys, dt⟩, hrt⟩ := hrec f hre k rfl ter mw4 false d7 (hq7.2.2 ter hter)
            simp only [hrt, bind, Except.bind]
            exact ⟨_, rfl⟩
          · simp only []
            rw [if_neg hto]
            exact ⟨_, rfl⟩

theorem fillSystem_ok :
    ∀ (fuel : Nat) (sys : System) (mw : World) (b : Bool) (d : Dice),
      QTree nulBound fuel sys → ∃ r, fillSystem fuel sys mw b d = Except.ok r := by
  intro fuel
  induction fuel with
  | zero =>
    intro sys mw b d h
    exact fillLevel_ok 0 none (fun f hf => by cases hf) (fun f hf => by cases hf) sys mw b d h
  | succ k ih =>
    intro sys mw b d h
    refine fillLevel_ok (k + 1) (some (fillSystem k))
      (fun f hf m hm sys2 mw2 b2 d2 hq => ?_) (fun f hf => by omega) sys mw b d h
    obtain rfl := (Option.some.inj hf)
    obtain rfl : k = m := by omega
    exact ih sys2 mw2 b2 d2 hq

theorem withMax_orbits (sys : System) (m : Nat) (a : List Slot) :
    (sys.withMax m a).orbits = a := by
  cases sys; rfl

theorem withMax_secondary (sys : System) (m : Nat) (a : List Slot) :
    (sys.withMax m a).secondary = sys.secondary := by
  cases sys; rfl

theorem withMax_tertiary (sys : System) (m : Nat) (a : List Slot) :
    (sys.withMax m a).tertiary = sys.tertiary := by
  cases sys; rfl

theorem withSecondary_max (sys : System) (c : Option System) :
    (sys.withSecondary c).max_orbits = sys.max_orbits := by
  cases sys; rfl

theorem roll2D_le_12 (d : Dice) : (roll2D d).1 ≤ 12 := by
  unfold roll2D draw
  have h1 : d.headD 0 % 6 < 6 := Nat.mod_lt _ (by omega)
  have h2 : d.tail.headD 0 % 6 < 6 := Nat.mod_lt _ (by omega)
  simp only [if_neg (by omega : ¬ (6 = 0))]
  omega

theorem genMaxOrbits_bounds (star : Star) (d : Dice) :
    0 ≤ (genMaxOrbits star d).1 ∧ (genMaxOrbits star d).1 ≤ 20 := by
  unfold genMaxOrbits
  rcases hr : roll2D d with ⟨r, d1⟩
  have hle : r ≤ 12 := by
    have := roll2D_le_12 d
    rw [hr] at this
    exact this
  simp only [hr]
  split_ifs <;> constructor <;> omega

theorem getD_of_length_le (l : List Slot) (k : Nat) (y : Slot) (h : l.length ≤ k) :
    l.getD k y = y := by
  rw [List.getD_eq_getElem?_getD, List.getElem?_eq_none (by omega)]
  rfl

theorem SlotOK_replicate_nul (n : Nat) (h : n ≤ 20) :
    SlotOK nulBound (List.replicate n Slot.nul) := by
  intro i hnul
  by_cases hi : i < 0
  · rw [jsGet_neg _ _ hi] at hnul
    cases hnul
  · unfold jsGet at hnul
    rw [if_neg hi] at hnul
    by_cases hk : i.toNat < n
    · omega
    · rw [getD_of_length_le _ _ _ (by simpa using hk)] at hnul
      cases hnul

theorem SlotOK_nil_nulBound : SlotOK nulBound ([] : List Slot) := by
  intro i hnul
  by_cases hi : i < 0
  · rw [jsGet_neg _ _ hi] at hnul
    cases hnul
  · unfold jsGet at hnul
    rw [if_neg hi] at hnul
    cases hnul

theorem QTree_all_of_no_comps (Q : Int → Slot → Prop) (sys : System)
    (hsec : sys.secondary = none)
    (hter : sys.tertiary = none) (horb : SlotOK Q sys.orbits) :
    ∀ n, QTree Q n sys := by
  intro n
  cases n with
  | zero => exact horb
  | succ k =>
    refine ⟨horb, ?_, ?_⟩
    · intro c hc
      rw [hsec] at hc
      cases hc
    · intro c hc
      rw [hter] at hc
      cases hc

theorem mkSystem_fields (t : StarType) (st : Nat) (sz : StarSize) (o : Int) (d : Dice) :
    ((mkSystem t st sz o 0 d).1).secondary = none ∧
    ((mkSystem t st sz o 0 d).1).tertiary = none ∧
    ((mkSystem t st sz o 0 d).1).orbits = [] ∧
    ((mkSystem t st sz o 0 d).1).orbit = o := by
  unfold mkSystem
  rcases hd : draw starSystemNames.length d with ⟨i, d1⟩
  simp only [hd]
  exact ⟨rfl, rfl, rfl, rfl⟩

theorem setMaxOrbits_ok (sys : System) (mo : Int) (sys' : System)
    (h : setMaxOrbits sys mo = Except.ok sys') :
    sys' = sys.withMax mo.toNat (List.replicate mo.toNat Slot.nul) := by
  unfold setMaxOrbits at h
  by_cases hm : mo < 0
  · rw [if_pos hm] at h
    cases h
  · rw [if_neg hm] at h
    exact (Except.ok.inj h).symm

theorem setMaxOrbits_err (sys : System) (mo : Int) (e : GenError)
    (h : setMaxOrbits sys mo = Except.error e) : e = GenError.arrayLength := by
  unfold setMaxOrbits at h
  by_cases hm : mo < 0
  · rw [if_pos hm] at h
    exact (Except.error.inj h).symm
  · rw [if_neg hm] at h
    cases h

theorem QTree_all_withSecondary (Q : Int → Slot → Prop) (sys c : System)
    (horb : SlotOK Q sys.orbits) (hter : sys.tertiary = none)
    (hc : ∀ n, QTree Q n c) :
    ∀ n, QTree Q n (sys.withSecondary (some c)) := by
  intro n
  cases n with
  | zero =>
    show SlotOK Q (sys.withSecondary (some c)).orbits
    rw [withSecondary_orbits]
    exact horb
  | succ k =>
    refine ⟨?_, ?_, ?_⟩
    · rw [withSecondary_orbits]
      exact horb
    · intro c' hc'
      rw [withSecondary_secondary] at hc'
      obtain rfl := (Option.some.inj hc')
      exact hc k
    · intro c' hc'
      rw [withSecondary_tertiary, hter] at hc'
      cases hc'

set_option maxHeartbeats 1000000 in
theorem genCompanionSystemGo_spec (Q : Int → Slot → Prop)
    (hrep : ∀ n : Nat, n ≤ 20 → SlotOK Q (List.replicate n Slot.nul))
    (hsr : ∀ (i : Int) (t : CompTag), Q i (Slot.sysRef t))
    (recur : Option (Int → Int → Int → Dice → Except GenError (System × Dice)))
    (hrecE : ∀ f, recur = some f → ∀ (a b o : Int) (d : Dice) (e : GenError),
      f a b o d = Except.error e → e = GenError.arrayLength)
    (hrecO : ∀ f, recur = some f → ∀ (a b o : Int) (d : Dice) (c : System) (d2 : Dice),
      f a b o d = Except.ok (c, d2) → ∀ n, QTree Q n c) :
    ∀ (a b o : Int) (d : Dice),
      (∀ e, genCompanionSystemGo recur a b o d = Except.error e → e = GenError.arrayLength) ∧
      (∀ c d2, genCompanionSystemGo recur a b o d = Except.ok (c, d2) →
        ∀ n, QTree Q n c) := by
  intro a b o d
  unfold genCompanionSystemGo
  rcases h1 : roll2D d with ⟨ct, d1⟩
  simp only [h1]
  rcases h2 : roll2D d1 with ⟨cs, d2⟩
  simp only [h2]
  rcases h3 : roll10 d2 with ⟨sub, d3⟩
  simp only [h3]
  rcases h4 : mkSystem (genCompanionStarType ((ct : Int) + a)) sub
    (genCompanionStarSize ((cs : Int) + b)) o 0 d3 with ⟨comp0, d4⟩
  simp only [h4]
  rcases h5 : genMaxOrbits comp0.star d4 with ⟨gmo, d5⟩
  simp only [h5]
  have hgmo : 0 ≤ gmo ∧ gmo ≤ 20 := by
    have := genMaxOrbits_bounds comp0.star d4
    rw [h5] at this
    exact this
  have hcomp0 : comp0.secondary = none ∧ comp0.tertiary = none := by
    have := mkSystem_fields (genCompanionStarType ((ct : Int) + a)) sub
      (genCompanionStarSize ((cs : Int) + b)) o d3
    rw [h4] at this
    exact ⟨this.1, this.2.1⟩
  cases hsm : setMaxOrbits comp0 (min (Int.fdiv o 2) gmo) with
  | error e =>
    simp only [hsm, bind, Except.bind]
    refine ⟨?_, ?_⟩
    · intro e' he'
      obtain rfl := (Except.error.inj he')
      exact setMaxOrbits_err _ _ _ hsm
    · intro c d2 hc
      cases hc
  | ok comp1 =>
    simp only [hsm, bind, Except.bind]
    have hc1 := setMaxOrbits_ok _ _ _ hsm
    have hc1sec : comp1.secondary = none := by
      rw [hc1, withMax_secondary]
      exact hcomp0.1
    have hc1ter : comp1.tertiary = none := by
      rw [hc1, withMax_tertiary]
      exact hcomp0.2
    have hc1orb : SlotOK Q comp1.orbits := by
      rw [hc1, withMax_orbits]
      exact hrep _ (by omega)
    have hc1tree : ∀ n, QTree Q n comp1 :=
      QTree_all_of_no_comps Q comp1 hc1sec hc1ter hc1orb
    by_cases hfar : comp1.orbit = FAR_ORBIT
    · rw [if_pos hfar]
      rcases h6 : genNumStars d5 with ⟨ns, d6⟩
      simp only [h6]
      by_cases hns : ns > 1
      · rw [if_pos hns]
        cases hre : recur with
        | none =>
          refine ⟨?_, ?_⟩
          · intro e' he'
            cases he'
          · intro c d2 hc
            obtain ⟨rfl, rfl⟩ := Prod.mk.injEq .. ▸ (Except.ok.inj hc)
            exact hc1tree
        | some f =>
          rcases h7 : roll2D d6 with ⟨r2, d7⟩
          simp only [h7]
          rcases h8 : genCompanionOrbit ((r2 : Int) - 4) d7 with ⟨orbit2, d8⟩
          simp only [h8]
          cases hf : f ((ct : Int) + a) ((cs : Int) + b) orbit2 d8 with
          | error e =>
            simp only [hf, bind, Except.bind]
            refine ⟨?_, ?_⟩
            · intro e' he'
              obtain rfl := (Except.error.inj he')
              exact hrecE f hre _ _ _ _ _ hf
            · intro c d2 hc
              cases hc
          | ok p =>
            rcases p with ⟨sec, d9⟩
            simp only [hf, bind, Except.bind]
            have hsectree : ∀ n, QTree Q n sec := hrecO f hre _ _ _ _ _ _ hf
            have horb2 : SlotOK Q ((comp1.withSecondary (some sec)).withOrbits
                (jsSet (comp1.withSecondary (some sec)).orbits orbit2
                  (Slot.sysRef CompTag.secondary))).orbits := by
              rw [withOrbits_orbits, withSecondary_orbits]
              exact SlotOK_jsSet _ _ _ _ hc1orb (hsr _ _)
            have hter2 : ((comp1.withSecondary (some sec)).withOrbits
                (jsSet (comp1.withSecondary (some sec)).orbits orbit2
                  (Slot.sysRef CompTag.secondary))).tertiary = none := by
              rw [withOrbits_tertiary, withSecondary_tertiary]
              exact hc1ter
            by_cases hfar2 : orbit2 = FAR_ORBIT
            · rw [if_pos hfar2]
              rcases h9 : genMaxOrbits sec.star d9 with ⟨gmo2, d10⟩
              simp only [h9]
              have hgmo2 : 0 ≤ gmo2 ∧ gmo2 ≤ 20 := by
                have := genMaxOrbits_bounds sec.star d9
                rw [h9] at this
                exact this
              cases hsm2 : setMaxOrbits sec gmo2 with
              | error e =>
                simp only [hsm2, bind, Except.bind]
                refine ⟨?_, ?_⟩
                · intro e' he'
                  obtain rfl := (Except.error.inj he')
                  exact setMaxOrbits_err _ _ _ hsm2
                · intro c d2 hc
                  cases hc
              | ok sec2 =>
                simp only [hsm2, bind, Except.bind]
                have hs2 := setMaxOrbits_ok _ _ _ hsm2
                have hsec2tree : ∀ n, QTree Q n sec2 := by
                  intro n
                  rw [hs2]
                  refine QTree_of_parts _ n sec _ ?_ (withMax_secondary _ _ _)
                    (withMax_tertiary _ _ _) (hsectree n)
                  rw [withMax_orbits]
                  exact hrep _ (by omega)
                refine ⟨?_, ?_⟩
                · intro e' he'
                  cases he'
                · intro c d2 hc
                  obtain ⟨rfl, rfl⟩ := Prod.mk.injEq .. ▸ (Except.ok.inj hc)
                  exact QTree_all_withSecondary Q _ _ horb2 hter2 hsec2tree
            · rw [if_neg hfar2]
              rcases h9 : genMaxOrbits sec.star d9 with ⟨gmo2, d10⟩
              simp only [h9]
              have hgmo2 : 0 ≤ gmo2 ∧ gmo2 ≤ 20 := by
                have := genMaxOrbits_bounds sec.star d9
                rw [h9] at this
                exact this
              cases hsm2 : setMaxOrbits sec (min (Int.fdiv orbit2 2) gmo2) with
              | error e =>
                simp only [hsm2, bind, Except.bind]
                refine ⟨?_, ?_⟩
                · intro e' he'
                  obtain rfl := (Except.error.inj he')
                  exact setMaxOrbits_err _ _ _ hsm2
                · intro c d2 hc
                  cases hc
              | ok sec2 =>
                simp only [hsm2, bind, Except.bind]
                have hs2 := setMaxOrbits_ok _ _ _ hsm2
                have hsec2tree : ∀ n, QTree Q n sec2 := by
                  intro n
                  rw [hs2]
                  refine QTree_of_parts _ n sec _ ?_ (withMax_secondary _ _ _)
                    (withMax_tertiary _ _ _) (hsectree n)
                  rw [withMax_orbits]
                  exact hrep _ (by omega)
                refine ⟨?_, ?_⟩
                · intro e' he'
                  cases he'
                · intro c d2 hc
                  obtain ⟨rfl, rfl⟩ := Prod.mk.injEq .. ▸ (Except.ok.inj hc)
                  exact QTree_all_withSecondary Q _ _ horb2 hter2 hsec2tree
      · rw [if_neg hns]
        refine ⟨?_, ?_⟩
        · intro e' he'
          cases he'
        · intro c d2 hc
          obtain ⟨rfl, rfl⟩ := Prod.mk.injEq .. ▸ (Except.ok.inj hc)
          exact hc1tree
    · rw [if_neg hfar]
      refine ⟨?_, ?_⟩
      · intro e' he'
        cases he'
      · intro c d2 hc
        obtain ⟨rfl, rfl⟩ := Prod.mk.injEq .. ▸ (Except.ok.inj hc)
        exact hc1tree

theorem genCompanionSystem_spec (Q : Int → Slot → Prop)
    (hrep : ∀ n : Nat, n ≤ 20 → SlotOK Q (List.replicate n Slot.nul))
    (hsr : ∀ (i : Int) (t : CompTag), Q i (Slot.sysRef t)) :
    ∀ (fuel : Nat) (a b o : Int) (d : Dice),
      (∀ e, genCompanionSystem fuel a b o d = Except.error e → e = GenError.arrayLength) ∧
      (∀ c d2, genCompanionSystem fuel a b o d = Except.ok (c, d2) →
        ∀ n, QTree Q n c) := by
  intro fuel
  induction fuel with
  | zero =>
    exact genCompanionSystemGo_spec Q hrep hsr none (fun f hf => by cases hf)
      (fun f hf => by cases hf)
  | succ k ih =>
    refine genCompanionSystemGo_spec Q hrep hsr (some (genCompanionSystem k)) ?_ ?_
    · intro f hf a b o d e he
      obtain rfl := (Option.some.inj hf)
      exact (ih a b o d).1 e he
    · intro f hf a b o d c d2 hc
      obtain rfl := (Option.some.inj hf)
      exact (ih a b o d).2 c d2 hc

theorem emptyOrbitsNearCompanion_SlotOK (Q : Int → Slot → Prop)
    (hE : ∀ i : Int, Q i (Slot.empty i)) (sys : System) (o : Int)
    (h : SlotOK Q sys.orbits) :
    SlotOK Q (emptyOrbitsNearCompanion sys o).orbits := by
  unfold emptyOrbitsNearCompanion
  rw [withOrbits_orbits]
  refine SlotOK_jsSet _ _ _ _ (SlotOK_jsSet _ _ _ _ ?_ (hE _)) (hE _)
  exact foldl_empty_SlotOK _ hE _ _ h

theorem emptyOrbitsNearCompanion_comps (sys : System) (o : Int) :
    (emptyOrbitsNearCompanion sys o).secondary = sys.secondary ∧
    (emptyOrbitsNearCompanion sys o).tertiary = sys.tertiary := by
  unfold emptyOrbitsNearCompanion
  rw [withOrbits_secondary, withOrbits_tertiary]
  exact ⟨rfl, rfl⟩

set_option maxHeartbeats 1000000 in
theorem genStars_spec (Q : Int → Slot → Prop)
    (hrep : ∀ n : Nat, n ≤ 20 → SlotOK Q (List.replicate n Slot.nul))
    (hE : ∀ i : Int, Q i (Slot.empty i))
    (hsr : ∀ (i : Int) (t : CompTag), Q i (Slot.sysRef t))
    (m : Int) (cp : Bool) (d : Dice) :
    (∀ e, genStars m cp d = Except.error e → e = GenError.arrayLength) ∧
    (∀ sys d2, genStars m cp d = Except.ok (sys, d2) → QTree Q 3 sys) := by
  unfold genStars
  rcases hns : (if cp then genNumStars d else (1, d)) with ⟨ns, d0⟩
  simp only [hns]
  rcases h1 : roll2D d0 with ⟨pt, d1⟩
  simp only [h1]
  rcases h2 : roll2D d1 with ⟨ps, d2⟩
  simp only [h2]
  rcases h3 : roll10 d2 with ⟨sub, d3⟩
  simp only [h3]
  rcases h4 : mkSystem (genPrimaryStarType ((pt : Int) + m)) sub
    (genPrimaryStarSize (ps : Int) (genPrimaryStarType ((pt : Int) + m)) sub)
    PRIMARY_ORBIT 0 d3 with ⟨sys0, d4⟩
  simp only [h4]
  rcases h5 : genMaxOrbits sys0.star d4 with ⟨gmo, d5⟩
  simp only [h5]
  have hgmo : 0 ≤ gmo ∧ gmo ≤ 20 := by
    have := genMaxOrbits_bounds sys0.star d4
    rw [h5] at this
    exact this
  have hsys0 : sys0.secondary = none ∧ sys0.tertiary = none := by
    have := mkSystem_fields (genPrimaryStarType ((pt : Int) + m)) sub
      (genPrimaryStarSize (ps : Int) (genPrimaryStarType ((pt : Int) + m)) sub)
      PRIMARY_ORBIT d3
    rw [h4] at this
    exact ⟨this.1, this.2.1⟩
  cases hsm : setMaxOrbits sys0 gmo with
  | error e =>
    simp only [hsm, bind, Except.bind]
    refine ⟨?_, ?_⟩
    · intro e' he'
      obtain rfl := (Except.error.inj he')
      exact setMaxOrbits_err _ _ _ hsm
    · intro sys d2 hc
      cases hc
  | ok sys1 =>
    simp only [hsm, bind, Except.bind]
    have hs1 := setMaxOrbits_ok _ _ _ hsm
    have hs1sec : sys1.secondary = none := by
      rw [hs1, withMax_secondary]
      exact hsys0.1
    have hs1ter : sys1.tertiary = none := by
      rw [hs1, withMax_tertiary]
      exact hsys0.2
    have hs1orb : SlotOK Q sys1.orbits := by
      rw [hs1, withMax_orbits]
      exact hrep _ (by omega)
    by_cases hn1 : ns > 1
    · rw [if_pos hn1]
      rcases h6 : roll2D d5 with ⟨r, d6⟩
      simp only [h6]
      rcases h7 : genCompanionOrbit (r : Int) d6 with ⟨orbit0, d7⟩
      simp only [h7]
      generalize horb : (if orbit0 ≤ (getZone sys1).inside then (0 : Int) else orbit0) = orb
      cases hcs : genCompanionSystem 1 (pt : Int) (ps : Int) orb d7 with
      | error e =>
        simp only [hcs, bind, Except.bind]
        refine ⟨?_, ?_⟩
        · intro e' he'
          obtain rfl := (Except.error.inj he')
          exact (genCompanionSystem_spec Q hrep hsr 1 _ _ _ _).1 e hcs
        · intro sys d2 hc
          cases hc
      | ok p =>
        rcases p with ⟨sec, d8⟩
        simp only [hcs, bind, Except.bind]
        have hsectree : ∀ n, QTree Q n sec :=
          (genCompanionSystem_spec Q hrep hsr 1 _ _ _ _).2 sec d8 hcs
        generalize hS3 : (if orb ≥ 0 then
            (sys1.withSecondary (some sec)).withOrbits
              (jsSet (sys1.withSecondary (some sec)).orbits orb
                (Slot.sysRef CompTag.secondary))
          else sys1.withSecondary (some sec)) = sys3
        have hs3orb : SlotOK Q sys3.orbits := by
          rw [← hS3]
          by_cases ho : orb ≥ 0
          · rw [if_pos ho, withOrbits_orbits, withSecondary_orbits]
            exact SlotOK_jsSet _ _ _ _ hs1orb (hsr _ _)
          · rw [if_neg ho, withSecondary_orbits]
            exact hs1orb
        have hs3sec : sys3.secondary = some sec := by
          rw [← hS3]
          by_cases ho : orb ≥ 0
          · rw [if_pos ho, withOrbits_secondary, withSecondary_secondary]
          · rw [if_neg ho, withSecondary_secondary]
        have hs3ter : sys3.tertiary = none := by
          rw [← hS3]
          by_cases ho : orb ≥ 0
          · rw [if_pos ho, withOrbits_tertiary, withSecondary_tertiary]
            exact hs1ter
          · rw [if_neg ho, withSecondary_tertiary]
            exact hs1ter
        have hs4orb : SlotOK Q (emptyOrbitsNearCompanion sys3 orb).orbits :=
          emptyOrbitsNearCompanion_SlotOK Q hE sys3 orb hs3orb
        have hs4sec : (emptyOrbitsNearCompanion sys3 orb).secondary = some sec :=
          (emptyOrbitsNearCompanion_comps sys3 orb).1.trans hs3sec
        have hs4ter : (emptyOrbitsNearCompanion sys3 orb).tertiary = none :=
          (emptyOrbitsNearCompanion_comps sys3 orb).2.trans hs3ter
        by_cases hn3 : ns = 3
        · rw [if_pos hn3]
          rcases h8 : roll2D d8 with ⟨r3, d9⟩
          simp only [h8]
          rcases h9 : genCompanionOrbit ((r3 : Int) + 4) d9 with ⟨orbit3a, d10⟩
          simp only [h9]
          generalize horb3 : (if orbit3a ≤ (getZone (emptyOrbitsNearCompanion sys3 orb)).inside
            then (0 : Int) else orbit3a) = orb3
          cases hct : genCompanionSystem 1 (pt : Int) (ps : Int) orb3 d10 with
          | error e =>
            simp only [hct, bind, Except.bind]
            refine ⟨?_, ?_⟩
            · intro e' he'
              obtain rfl := (Except.error.inj he')
              exact (genCompanionSystem_spec Q hrep hsr 1 _ _ _ _).1 e hct
            · intro sys d2 hc
              cases hc
          | ok q =>
            rcases q with ⟨ter, d11⟩
            simp only [hct, bind, Except.bind]
            have htertree : ∀ n, QTree Q n ter :=
              (genCompanionSystem_spec Q hrep hsr 1 _ _ _ _).2 ter d11 hct
            generalize hS6 : (if orb3 ≥ 0 then
                ((emptyOrbitsNearCompanion sys3 orb).withTertiary (some ter)).withOrbits
                  (jsSet ((emptyOrbitsNearCompanion sys3 orb).withTertiary (some ter)).orbits
                    orb3 (Slot.sysRef CompTag.tertiary))
              else (emptyOrbitsNearCompanion sys3 orb).withTertiary (some ter)) = sys6
            have hs6orb : SlotOK Q sys6.orbits := by
              rw [← hS6]
              by_cases ho : orb3 ≥ 0
              · rw [if_pos ho, withOrbits_orbits, withTertiary_orbits]
                exact SlotOK_jsSet _ _ _ _ hs4orb (hsr _ _)
              · rw [if_neg ho, withTertiary_orbits]
                exact hs4orb
            have hs6sec : sys6.secondary = some sec := by
              rw [← hS6]
              by_cases ho : orb3 ≥ 0
              · rw [if_pos ho, withOrbits_secondary, withTertiary_secondary]
                exact hs4sec
              · rw [if_neg ho, withTertiary_secondary]
                exact hs4sec
            have hs6ter : sys6.tertiary = some ter := by
              rw [← hS6]
              by_cases ho : orb3 ≥ 0
              · rw [if_pos ho, withOrbits_tertiary, withTertiary_tertiary]
              · rw [if_neg ho, withTertiary_tertiary]
            refine ⟨?_, ?_⟩
            · intro e' he'
              cases he'
            · intro sys d2 hc
              obtain ⟨rfl, rfl⟩ := Prod.mk.injEq .. ▸ (Except.ok.inj hc)
              refine ⟨emptyOrbitsNearCompanion_SlotOK Q hE sys6 orb3 hs6orb, ?_, ?_⟩
              · intro c hc'
                rw [(emptyOrbitsNearCompanion_comps sys6 orb3).1, hs6sec] at hc'
                obtain rfl := (Option.some.inj hc')
                exact hsectree 2
              · intro c hc'
                rw [(emptyOrbitsNearCompanion_comps sys6 orb3).2, hs6ter] at hc'
                obtain rfl := (Option.some.inj hc')
                exact htertree 2
        · rw [if_neg hn3]
          refine ⟨?_, ?_⟩
          · intro e' he'
            cases he'
          · intro sys d2 hc
            obtain ⟨rfl, rfl⟩ := Prod.mk.injEq .. ▸ (Except.ok.inj hc)
            refine ⟨hs4orb, ?_, ?_⟩
            · intro c hc'
              rw [hs4sec] at hc'
              obtain rfl := (Option.some.inj hc')
              exact hsectree 2
            · intro c hc'
              rw [hs4ter] at hc'
              cases hc'
    · rw [if_neg hn1]
      refine ⟨?_, ?_⟩
      · intro e' he'
        cases he'
      · intro sys d2 hc
        obtain ⟨rfl, rfl⟩ := Prod.mk.injEq .. ▸ (Except.ok.inj hc)
        exact QTree_all_of_no_comps Q sys1 hs1sec hs1ter hs1orb 3

/-- The null-bound instance of `genStars_spec`. -/
theorem genStars_nulBound (m : Int) (cp : Bool) (d : Dice) :
    (∀ e, genStars m cp d = Except.error e → e = GenError.arrayLength) ∧
    (∀ sys d2, genStars m cp d = Except.ok (sys, d2) → QTree nulBound 3 sys) :=
  genStars_spec nulBound (fun n hn => SlotOK_replicate_nul n hn)
    (fun i => nulBound_not_nul i _ (by simp))
    (fun i t => nulBound_not_nul i _ (by simp)) m cp d

/-- Pointwise form of C10's counterexample: no single run aborts with the
Roman-numeral range error. -/
theorem isRomanError_false (mw : World) (d : Dice) :
    isRomanError (generateSystem mw d) = false := by
  unfold generateSystem
  cases hgs : genStars (if (mw.atmosphere ≥ 4 ∧ mw.atmosphere ≤ 9) ∨ mw.population ≥ 8
      then 4 else 0) true d with
  | error e =>
    simp only [hgs, bind, Except.bind]
    obtain rfl := (genStars_nulBound _ _ _).1 e hgs
    rfl
  | ok p =>
    rcases p with ⟨sys, d2⟩
    simp only [hgs, bind, Except.bind]
    obtain ⟨r, hfs⟩ := fillSystem_ok 3 sys (genTradeClasses mw) true d2
      ((genStars_nulBound _ _ _).2 sys d2 hgs)
    rcases r with ⟨sys2, d3⟩
    rw [hfs]
    rfl

/-- C10, counterexample: no dice stream makes a generation run abort with
the Roman-numeral range error — `null` slots (the only places the filler
loop and the gas-giant loop name planets) sit at indices at most 19
throughout the pipeline, `genPlanetName` takes `orbit + 1 ≤ 20` there, and
the slot at index `max_orbits` reads as a hole, never as `null`; an aborted
run can only carry the array-length error of `setMaxOrbits`. -/
theorem roman_abort_never :
    (fun (mw : World) (d : Dice) => isRomanError (generateSystem mw d)) =
      (fun _ _ => false) := by
  funext mw d
  exact isRomanError_false mw d

/-- C10 (amended): `genPlanetName` renders `orbit + 1` in Roman numerals, so
it throws the range error exactly when the orbit is 20 or more and succeeds
up to orbit 19; `genMaxOrbits` yields at most 20 orbit slots, and that bound
is attained — a B0 Ia star with a boxcars roll gets exactly 20 slots; and
(per the counterexample theorem) the filler loop can still never abort a
run, because `null` never appears at an index above 19. -/
theorem roman_range_amended :
    (∀ (sys : System) (i : Int), 20 ≤ i →
      genPlanetName sys i = Except.error GenError.romanRange) ∧
    (∀ (sys : System) (i : Int), -1 ≤ i → i ≤ 19 →
      ∃ s, genPlanetName sys i = Except.ok s) ∧
    (∀ (star : Star) (d : Dice),
      0 ≤ (genMaxOrbits star d).1 ∧ (genMaxOrbits star d).1 ≤ 20) ∧
    (genMaxOrbits ⟨StarType.B, 0, StarSize.Ia⟩ [5, 5]).1 = 20 :=
  ⟨genPlanetName_error, genPlanetName_ok, genMaxOrbits_bounds, by decide⟩

/-- C10 witness: orbit 20 aborts the naming, orbit 19 does not. -/
theorem roman_range_amended_witness :
    (20 ≤ (20 : Int) ∧
      genPlanetName sysTwoOpen 20 = Except.error GenError.romanRange) ∧
    (-1 ≤ (19 : Int) ∧ (19 : Int) ≤ 19 ∧
      ∃ s, genPlanetName sysTwoOpen 19 = Except.ok s) :=
  ⟨⟨by decide, roman_range_amended.1 sysTwoOpen 20 (by decide)⟩,
    ⟨by decide, by decide, roman_range_amended.2.1 sysTwoOpen 19 (by decide) (by decide)⟩⟩

theorem alignedQ_nul (i : Int) : alignedQ i Slot.nul := rfl

theorem alignedQ_undef (i : Int) : alignedQ i Slot.undef := rfl

theorem alignedQ_sysRef (i : Int) (t : CompTag) : alignedQ i (Slot.sysRef t) := rfl

theorem alignedQ_empty (i : Int) : alignedQ i (Slot.empty i) := by
  simp [alignedQ, alignedSlotB]

theorem alignedQ_world (i : Int) (w : World) (sats : List World) (h : w.orbit = i) :
    alignedQ i (Slot.world w sats) := by
  simp [alignedQ, alignedSlotB, h]

theorem alignedQ_giant (i : Int) (g : GasGiant) (sats : List World) (h : g.orbit = i) :
    alignedQ i (Slot.gasGiant g sats) := by
  simp [alignedQ, alignedSlotB, h]

theorem alignedQ_reworld (i : Int) (w : World) (sats sats' : List World)
    (h : alignedQ i (Slot.world w sats)) : alignedQ i (Slot.world w sats') := h

theorem alignedQ_regiant (i : Int) (g : GasGiant) (sats sats' : List World)
    (h : alignedQ i (Slot.gasGiant g sats)) : alignedQ i (Slot.gasGiant g sats') := h

theorem SlotOK_replicate_aligned (n : Nat) (h : n ≤ 20) :
    SlotOK alignedQ (List.replicate n Slot.nul) := by
  intro i
  by_cases hi : i < 0
  · rw [jsGet_neg _ _ hi]
    exact alignedQ_undef i
  · unfold jsGet
    rw [if_neg hi]
    by_cases hk : i.toNat < n
    · rw [List.getD_eq_getElem _ _ (by simpa using hk)]
      simp only [List.getElem_replicate]
      exact alignedQ_nul i
    · rw [getD_of_length_le _ _ _ (by simpa using hk)]
      exact alignedQ_undef i

/-- The alignment instance of `genStars_spec`. -/
theorem genStars_aligned (m : Int) (cp : Bool) (d : Dice) :
    ∀ sys d2, genStars m cp d = Except.ok (sys, d2) → QTree alignedQ 3 sys :=
  (genStars_spec alignedQ (fun n hn => SlotOK_replicate_aligned n hn)
    alignedQ_empty alignedQ_sysRef m cp d).2

set_option maxHeartbeats 1000000 in
theorem fillLevel_aligned (n : Nat)
    (recur : Option (System → World → Bool → Dice → Except GenError (System × Dice)))
    (hrec : ∀ f, recur = some f → ∀ (m : Nat), n = m + 1 →
      ∀ (sys : System) (mw : World) (b : Bool) (d : Dice) (r : System × Dice),
        QTree alignedQ m sys → f sys mw b d = Except.ok r → QTree alignedQ m r.1)
    (hpos : ∀ f, recur = some f → 0 < n) :
    ∀ (sys : System) (mw : World) (b : Bool) (d : Dice) (r : System × Dice),
      QTree alignedQ n sys → fillLevel recur sys mw b d = Except.ok r →
      QTree alignedQ n r.1 := by
  intro sys mw b d r h hok
  unfold fillLevel at hok
  rcases hge : genEmptyOrbits sys d with ⟨sys1, d1⟩
  simp only [hge] at hok
  have hq1 : QTree alignedQ n sys1 := by
    refine QTree_of_parts _ n sys sys1 ?_ ?_ ?_ h
    · have := genEmptyOrbits_SlotOK alignedQ alignedQ_empty sys d (SlotOK_of_QTree _ n sys h)
      rw [hge] at this
      exact this
    · have := (genEmptyOrbits_comps sys d).1
      rw [hge] at this
      exact this
    · have := (genEmptyOrbits_comps sys d).2
      rw [hge] at this
      exact this
  cases hgg : genGasGiants sys1 d1 with
  | error e => simp [hgg, bind, Except.bind] at hok
  | ok trip =>
    rcases trip with ⟨ngg, sys2, d2⟩
    simp only [hgg, bind, Except.bind] at hok
    have hq2 : QTree alignedQ n sys2 := by
      refine QTree_of_parts _ n sys1 sys2 ?_ ?_ ?_ hq1
      · exact genGasGiants_SlotOK alignedQ sys1 d1 (ngg, sys2, d2)
          (fun i _ g sats hg => alignedQ_giant i g sats hg)
          (SlotOK_of_QTree _ n sys1 hq1) hgg
      · exact (genGasGiants_comps sys1 d1 (ngg, sys2, d2) hgg).1
      · exact (genGasGiants_comps sys1 d1 (ngg, sys2, d2) hgg).2
    rcases hgp : genPlanetoids sys2 ngg mw d2 with ⟨sys3, d3⟩
    simp only [hgp] at hok
    have hq3 : QTree alignedQ n sys3 := by
      refine QTree_of_parts _ n sys2 sys3 ?_ ?_ ?_ hq2
      · have := genPlanetoids_SlotOK alignedQ sys2 ngg mw d2
          (fun i _ w sats hw => alignedQ_world i w sats hw)
          (SlotOK_of_QTree _ n sys2 hq2)
        rw [hgp] at this
        exact this
      · have := (genPlanetoids_comps sys2 ngg mw d2).1
        rw [hgp] at this
        exact this
      · have := (genPlanetoids_comps sys2 ngg mw d2).2
        rw [hgp] at this
        exact this
    rcases hpm : (if b then placeMainWorld 3 sys3 mw d3 else (sys3, mw, d3))
      with ⟨sys4, mw4, d4⟩
    simp only [hpm] at hok
    have hq4 : QTree alignedQ n sys4 := by
      by_cases hb : b
      · rw [if_pos hb] at hpm
        have := placeMainWorld_QTree alignedQ alignedQ_world alignedQ_regiant 3 n sys3 mw d3 hq3
        rw [hpm] at this
        exact this
      · rw [if_neg hb] at hpm
        injection hpm with h1 h23
        rw [← h1]
        exact hq3
    rw [sysFoldl_empty_eq] at hok
    set A := (intRangeList 0 ((getZone sys4).hot + 1)).foldl
      (fun acc i => jsSet acc i (Slot.empty i)) sys4.orbits with hA
    have hq5 : QTree alignedQ n (sys4.withOrbits A) := by
      refine QTree_of_parts _ n sys4 _ ?_ (withOrbits_secondary _ _) (withOrbits_tertiary _ _) hq4
      rw [withOrbits_orbits, hA]
      exact foldl_empty_SlotOK _ alignedQ_empty _ _ (SlotOK_of_QTree _ n sys4 hq4)
    cases hfl : fillerLoop mw4 (sys4.withOrbits A)
        (intRangeList ((getZone sys4).hot + 1) (((sys4.withOrbits A).max_orbits : Int) + 1)) d4 with
    | error e => simp [hfl, bind, Except.bind] at hok
    | ok r5 =>
      rcases r5 with ⟨sys6, d6⟩
      simp only [hfl, bind, Except.bind] at hok
      have hq6 : QTree alignedQ n sys6 := by
        refine QTree_of_parts _ n (sys4.withOrbits A) sys6 ?_ ?_ ?_ hq5
        · exact fillerLoop_SlotOK alignedQ mw4
            (fun i w sats _ hw => alignedQ_world i w sats hw) _ _ _ _
            (SlotOK_of_QTree _ n _ hq5) hfl
        · exact (fillerLoop_comps mw4 _ _ _ _ hfl).1
        · exact (fillerLoop_comps mw4 _ _ _ _ hfl).2
      rcases hsp : satellitePass mw4 sys6 (intRangeList 1 ((sys6.max_orbits : Int) + 1)) d6
        with ⟨sys7, d7⟩
      simp only [hsp] at hok
      have hq7 : QTree alignedQ n sys7 := by
        refine QTree_of_parts _ n sys6 sys7 ?_ ?_ ?_ hq6
        · have := satellitePass_SlotOK alignedQ mw4 alignedQ_reworld alignedQ_regiant
            (intRangeList 1 ((sys6.max_orbits : Int) + 1)) sys6 d6
            (SlotOK_of_QTree _ n sys6 hq6)
          rw [hsp] at this
          exact this
        · have := (satellitePass_comps mw4 (intRangeList 1 ((sys6.max_orbits : Int) + 1)) sys6 d6).1
          rw [hsp] at this
          exact this
        · have := (satellitePass_comps mw4 (intRangeList 1 ((sys6.max_orbits : Int) + 1)) sys6 d6).2
          rw [hsp] at this
          exact this
      cases hre : recur with
      | none =>
        simp only [hre] at hok
        obtain rfl := (Except.ok.inj hok)
        exact hq7
      | some f =>
        simp only [hre] at hok
        obtain ⟨k, rfl⟩ : ∃ k, n = k + 1 := by
          have := hpos f hre
          exact ⟨n - 1, by omega⟩
        cases hsec : sys7.secondary with
        | none =>
          simp only [hsec] at hok
          cases hter : sys7.tertiary with
          | none =>
            simp only [hter] at hok
            obtain rfl := (Except.ok.inj hok)
            exact hq7
          | some ter =>
            simp only [hter] at hok
            by_cases hto : ter.orbit > 0
            · rw [if_pos hto] at hok
              cases hrt : f ter mw4 false d7 with
              | error e => simp [hrt, bind, Except.bind] at hok
              | ok rt =>
                rcases rt with ⟨tersys, dt⟩
                simp only [hrt, bind, Except.bind] at hok
                obtain rfl := (Except.ok.inj hok)
                refine ⟨?_, ?_, ?_⟩
                · rw [withTertiary_orbits]
                  exact hq7.1
                · intro c hc
                  rw [withTertiary_secondary] at hc
                  exact hq7.2.1 c hc
                · intro c hc
                  rw [withTertiary_tertiary] at hc
                  obtain rfl := (Option.some.inj hc)
                  exact hrec f hre k rfl ter mw4 false d7 (tersys, dt) (hq7.2.2 ter hter) hrt
            · rw [if_neg hto] at hok
              obtain rfl := (Except.ok.inj hok)
              exact hq7
        | some sec =>
          simp only [hsec] at hok
          by_cases hso : sec.orbit > 0
          · rw [if_pos hso] at hok
            cases hrs : f sec mw4 false d7 with
            | error e => simp [hrs, bind, Except.bind] at hok
            | ok rs =>
              rcases rs with ⟨secsys, ds⟩
              simp only [hrs, bind, Except.bind] at hok
              have hq8 : QTree alignedQ (k + 1) (sys7.withSecondary (some secsys)) := by
                refine ⟨?_, ?_, ?_⟩
                · rw [withSecondary_orbits]
                  exact hq7.1
                · intro c hc
                  rw [withSecondary_secondary] at hc
                  obtain rfl := (Option.some.inj hc)
                  exact hrec f hre k rfl sec mw4 false d7 (secsys, ds) (hq7.2.1 sec hsec) hrs
                · intro c hc
                  rw [withSecondary_tertiary] at hc
                  exact hq7.2.2 c hc
              rw [withSecondary_tertiary] at hok
              cases hter : sys7.tertiary with
              | none =>
                simp only [hter] at hok
                obtain rfl := (Except.ok.inj hok)
                exact hq8
              | some ter =>
                simp only [hter] at hok
                by_cases hto : ter.orbit > 0
                · rw [if_pos hto] at hok
                  cases hrt : f ter mw4 false ds with
                  | error e => simp [hrt, bind, Except.bind] at hok
                  | ok rt =>
                    rcases rt with ⟨tersys, dt⟩
                    simp only [hrt, bind, Except.bind] at hok
                    obtain rfl := (Except.ok.inj hok)
                    refine ⟨?_, ?_, ?_⟩
                    · rw [withTertiary_orbits, withSecondary_orbits]
                      exact hq7.1
                    · intro c hc
                      rw [withTertiary_secondary] at hc
                      exact hq8.2.1 c hc
                    · intro c hc
                      rw [withTertiary_tertiary] at hc
                      obtain rfl := (Option.some.inj hc)
                      exact hrec f hre k rfl ter mw4 false ds (tersys, dt) (hq7.2.2 ter hter) hrt
                · rw [if_neg hto] at hok
                  obtain rfl := (Except.ok.inj hok)
                  exact hq8
          · rw [if_neg hso] at hok
            cases hter : sys7.tertiary with
            | none =>
              simp only [hter] at hok
              obtain rfl := (Except.ok.inj hok)
              exact hq7
            | some ter =>
              simp only [hter] at hok
              by_cases hto : ter.orbit > 0
              · rw [if_pos hto] at hok
                cases hrt : f ter mw4 false d7 with
                | error e => simp [hrt, bind, Except.bind] at hok
                | ok rt =>
                  rcases rt with ⟨tersys, dt⟩
                  simp only [hrt, bind, Except.bind] at hok
                  obtain rfl := (Except.ok.inj hok)
                  refine ⟨?_, ?_, ?_⟩
                  · rw [withTertiary_orbits]
                    exact hq7.1
                  · intro c hc
                    rw [withTertiary_secondary] at hc
                    exact hq7.2.1 c hc
                  · intro c hc
                    rw [withTertiary_tertiary] at hc
                    obtain rfl := (Option.some.inj hc)
                    exact hrec f hre k rfl ter mw4 false d7 (tersys, dt) (hq7.2.2 ter hter) hrt
              · rw [if_neg hto] at hok
                obtain rfl := (Except.ok.inj hok)
                exact hq7

theorem fillSystem_aligned :
    ∀ (fuel : Nat) (sys : System) (mw : World) (b : Bool) (d : Dice) (r : System × Dice),
      QTree alignedQ fuel sys → fillSystem fuel sys mw b d = Except.ok r →
      QTree alignedQ fuel r.1 := by
  intro fuel
  induction fuel with
  | zero =>
    intro sys mw b d r h hok
    exact fillLevel_aligned 0 none (fun f hf => by cases hf) (fun f hf => by cases hf)
      sys mw b d r h hok
  | succ k ih =>
    intro sys mw b d r h hok
    refine fillLevel_aligned (k + 1) (some (fillSystem k))
      (fun f hf m hm sys2 mw2 b2 d2 r2 hq hok2 => ?_) (fun f hf => by omega)
      sys mw b d r h hok
    obtain rfl := (Option.some.inj hf)
    obtain rfl : k = m := by omega
    exact ih sys2 mw2 b2 d2 r2 hq hok2

theorem alignedFromB_of :
    ∀ (a : List Slot) (n : Nat),
      (∀ k : Nat, alignedQ (((n + k : Nat) : Int)) (a.getD k Slot.undef)) →
      alignedFromB ((n : Nat) : Int) a = true := by
  intro a
  induction a with
  | nil => intro n h; rfl
  | cons s rest ih =>
    intro n h
    unfold alignedFromB
    rw [Bool.and_eq_true]
    constructor
    · have := h 0
      simpa using this
    · have hcast : ((n : Nat) : Int) + 1 = (((n + 1 : Nat)) : Int) := by push_cast; ring
      rw [hcast]
      refine ih (n + 1) ?_
      intro k
      have := h (k + 1)
      have harith : (n + (k + 1) : Nat) = ((n + 1) + k : Nat) := by omega
      rw [harith] at this
      simpa using this

theorem alignedFromB_of_SlotOK (a : List Slot) (h : SlotOK alignedQ a) :
    alignedFromB 0 a = true := by
  have h0 : ((0 : Nat) : Int) = (0 : Int) := rfl
  rw [← h0]
  refine alignedFromB_of a 0 ?_
  intro k
  have := h ((k : Nat) : Int)
  have hget : jsGet a ((k : Nat) : Int) = a.getD k Slot.undef := by
    unfold jsGet
    rw [if_neg (by omega), Int.toNat_natCast]
  rw [hget] at this
  simpa using this

/-! ## The companion-pointer half of claim C3 -/

theorem refsFrom_self (a : List Slot) : SlotOK (refsFrom a) a :=
  fun _ _ h => h

theorem refsFrom_empty (a : List Slot) (i : Int) : refsFrom a i (Slot.empty i) :=
  fun _ h => Slot.noConfusion h

theorem refsFrom_world (a : List Slot) (i : Int) (w : World) (sats : List World) :
    refsFrom a i (Slot.world w sats) :=
  fun _ h => Slot.noConfusion h

theorem refsFrom_giant (a : List Slot) (i : Int) (g : GasGiant) (sats : List World) :
    refsFrom a i (Slot.gasGiant g sats) :=
  fun _ h => Slot.noConfusion h

theorem jsGet_replicate_nul_ne_ref (n : Nat) (i : Int) (t : CompTag) :
    jsGet (List.replicate n Slot.nul) i ≠ Slot.sysRef t := by
  by_cases hi : i < 0
  · rw [jsGet_neg _ _ hi]
    exact fun h => Slot.noConfusion h
  · unfold jsGet
    rw [if_neg hi]
    by_cases hk : i.toNat < n
    · rw [List.getD_eq_getElem _ _ (by simpa using hk)]
      simp only [List.getElem_replicate]
      exact fun h => Slot.noConfusion h
    · rw [getD_of_length_le _ _ _ (by simpa using hk)]
      exact fun h => Slot.noConfusion h

/-- Transport of `refAligned` along any step that neither writes a `sysRef`
value nor touches the companion fields. -/
theorem refAligned_of (sys sys' : System)
    (hw : SlotOK (refsFrom sys.orbits) sys'.orbits)
    (hsec : sys'.secondary = sys.secondary) (hter : sys'.tertiary = sys.tertiary)
    (h : refAligned sys) : refAligned sys' := by
  intro i t c hslot hcomp
  refine h i t c (hw i t hslot) ?_
  cases t
  · have h2 : sys'.secondary = some c := hcomp
    rw [hsec] at h2
    exact h2
  · have h2 : sys'.tertiary = some c := hcomp
    rw [hter] at h2
    exact h2

theorem refAligned_of_RATree (n : Nat) (sys : System) (h : RATree n sys) :
    refAligned sys := by
  cases n with
  | zero => exact h
  | succ k => exact h.1

theorem RATree_of_parts (n : Nat) (sys sys' : System)
    (hw : SlotOK (refsFrom sys.orbits) sys'.orbits)
    (hsec : sys'.secondary = sys.secondary) (hter : sys'.tertiary = sys.tertiary)
    (h : RATree n sys) : RATree n sys' := by
  have hra : refAligned sys' :=
    refAligned_of sys sys' hw hsec hter (refAligned_of_RATree n sys h)
  cases n with
  | zero => exact hra
  | succ k =>
    refine ⟨hra, ?_, ?_⟩
    · intro c hc
      rw [hsec] at hc
      exact h.2.1 c hc
    · intro c hc
      rw [hter] at hc
      exact h.2.2 c hc

theorem refAligned_of_no_refs (sys : System)
    (h : ∀ (i : Int) (t : CompTag), jsGet sys.orbits i ≠ Slot.sysRef t) :
    refAligned sys :=
  fun i t _ hslot _ => absurd hslot (h i t)

theorem RATree_all_of_no_comps (sys : System) (hsec : sys.secondary = none)
    (hter : sys.tertiary = none)
    (hrefs : ∀ (i : Int) (t : CompTag), jsGet sys.orbits i ≠ Slot.sysRef t) :
    ∀ n, RATree n sys := by
  intro n
  cases n with
  | zero => exact refAligned_of_no_refs sys hrefs
  | succ k =>
    refine ⟨refAligned_of_no_refs sys hrefs, ?_, ?_⟩
    · intro c hc
      rw [hsec] at hc
      cases hc
    · intro c hc
      rw [hter] at hc
      cases hc

/-- `setMaxOrbits` wipes the slot array to `null`s, so the node keeps its
companion-pointer alignment (vacuously) and its companions keep theirs. -/
theorem RATree_withMax_nul (sec : System) (mo : Nat) (h : ∀ n, RATree n sec) :
    ∀ n, RATree n (sec.withMax mo (List.replicate mo Slot.nul)) := by
  have hra : refAligned (sec.withMax mo (List.replicate mo Slot.nul)) := by
    refine refAligned_of_no_refs _ ?_
    intro i t
    rw [withMax_orbits]
    exact jsGet_replicate_nul_ne_ref mo i t
  intro n
  cases n with
  | zero => exact hra
  | succ k =>
    refine ⟨hra, ?_, ?_⟩
    · intro c hc
      rw [withMax_secondary] at hc
      exact (h (k + 1)).2.1 c hc
    · intro c hc
      rw [withMax_tertiary] at hc
      exact (h (k + 1)).2.2 c hc

theorem RATree_withMainWorld (n : Nat) (sys : System) (w : Option World)
    (h : RATree n sys) : RATree n (sys.withMainWorld w) := by
  refine RATree_of_parts n sys _ ?_ (withMainWorld_secondary _ _)
    (withMainWorld_tertiary _ _) h
  rw [withMainWorld_orbits]
  exact refsFrom_self _

/-- Assembling a companion node: a base whose only possible `sysRef` slot is
a `secondary` tag at the sub-companion's own orbit. -/
theorem RATree_node_assemble (base sub : System)
    (hter : base.tertiary = none)
    (hslots : ∀ (i : Int) (t : CompTag), jsGet base.orbits i = Slot.sysRef t →
      t = CompTag.secondary ∧ sub.orbit = i)
    (hsub : ∀ n, RATree n sub) :
    ∀ n, RATree n (base.withSecondary (some sub)) := by
  have hra : refAligned (base.withSecondary (some sub)) := by
    intro i t c hslot hcomp
    have hslot' : jsGet base.orbits i = Slot.sysRef t := by
      rw [withSecondary_orbits] at hslot
      exact hslot
    obtain ⟨rfl, horb⟩ := hslots i t hslot'
    have h2 : (base.withSecondary (some sub)).secondary = some c := hcomp
    rw [withSecondary_secondary] at h2
    obtain rfl := Option.some.inj h2
    exact horb
  intro n
  cases n with
  | zero => exact hra
  | succ k =>
    refine ⟨hra, ?_, ?_⟩
    · intro c hc
      rw [withSecondary_secondary] at hc
      obtain rfl := Option.some.inj hc
      exact hsub k
    · intro c hc
      rw [withSecondary_tertiary, hter] at hc
      cases hc

theorem genCompanionSystemGo_orbit
    (recur : Option (Int → Int → Int → Dice → Except GenError (System × Dice))) :
    ∀ (a b o : Int) (d : Dice) (c : System) (d2 : Dice),
      genCompanionSystemGo recur a b o d = Except.ok (c, d2) → c.orbit = o := by
  intro a b o d c d2 hok
  unfold genCompanionSystemGo at hok
  rcases h1 : roll2D d with ⟨ct, d1⟩
  simp only [h1] at hok
  rcases h2 : roll2D d1 with ⟨cs, dB⟩
  simp only [h2] at hok
  rcases h3 : roll10 dB with ⟨sub, d3⟩
  simp only [h3] at hok
  rcases h4 : mkSystem (genCompanionStarType ((ct : Int) + a)) sub
    (genCompanionStarSize ((cs : Int) + b)) o 0 d3 with ⟨comp0, d4⟩
  simp only [h4] at hok
  rcases h5 : genMaxOrbits comp0.star d4 with ⟨gmo, d5⟩
  simp only [h5] at hok
  have hc0orb : comp0.orbit = o := by
    have := mkSystem_fields (genCompanionStarType ((ct : Int) + a)) sub
      (genCompanionStarSize ((cs : Int) + b)) o d3
    rw [h4] at this
    exact this.2.2.2
  cases hsm : setMaxOrbits comp0 (min (Int.fdiv o 2) gmo) with
  | error e => simp only [hsm, bind, Except.bind] at hok; cases hok
  | ok comp1 =>
    simp only [hsm, bind, Except.bind] at hok
    have hc1 := setMaxOrbits_ok _ _ _ hsm
    have hc1orb : comp1.orbit = o := by
      rw [hc1, withMax_orbit]
      exact hc0orb
    by_cases hfar : comp1.orbit = FAR_ORBIT
    · rw [if_pos hfar] at hok
      rcases h6 : genNumStars d5 with ⟨ns, d6⟩
      simp only [h6] at hok
      by_cases hns : ns > 1
      · rw [if_pos hns] at hok
        cases hre : recur with
        | none =>
          simp only [hre] at hok
          obtain ⟨rfl, rfl⟩ := Prod.mk.injEq .. ▸ (Except.ok.inj hok)
          exact hc1orb
        | some f =>
          simp only [hre] at hok
          rcases h7 : roll2D d6 with ⟨r2, d7⟩
          simp only [h7] at hok
          rcases h8 : genCompanionOrbit ((r2 : Int) - 4) d7 with ⟨orbit2, d8⟩
          simp only [h8] at hok
          cases hf : f ((ct : Int) + a) ((cs : Int) + b) orbit2 d8 with
          | error e => simp only [hf, bind, Except.bind] at hok; cases hok
          | ok p =>
            rcases p with ⟨sec, d9⟩
            simp only [hf, bind, Except.bind] at hok
            by_cases hfar2 : orbit2 = FAR_ORBIT
            · rw [if_pos hfar2] at hok
              rcases h9 : genMaxOrbits sec.star d9 with ⟨gmo2, d10⟩
              simp only [h9] at hok
              cases hsm2 : setMaxOrbits sec gmo2 with
              | error e => simp only [hsm2, bind, Except.bind] at hok; cases hok
              | ok sec2 =>
                simp only [hsm2, bind, Except.bind] at hok
                obtain ⟨rfl, rfl⟩ := Prod.mk.injEq .. ▸ (Except.ok.inj hok)
                rw [withSecondary_orbit, withOrbits_orbit, withSecondary_orbit]
                exact hc1orb
            · rw [if_neg hfar2] at hok
              rcases h9 : genMaxOrbits sec.star d9 with ⟨gmo2, d10⟩
              simp only [h9] at hok
              cases hsm2 : setMaxOrbits sec (min (Int.fdiv orbit2 2) gmo2) with
              | error e => simp only [hsm2, bind, Except.bind] at hok; cases hok
              | ok sec2 =>
                simp only [hsm2, bind, Except.bind] at hok
                obtain ⟨rfl, rfl⟩ := Prod.mk.injEq .. ▸ (Except.ok.inj hok)
                rw [withSecondary_orbit, withOrbits_orbit, withSecondary_orbit]
                exact hc1orb
      · rw [if_neg hns] at hok
        obtain ⟨rfl, rfl⟩ := Prod.mk.injEq .. ▸ (Except.ok.inj hok)
        exact hc1orb
    · rw [if_neg hfar] at hok
      obtain ⟨rfl, rfl⟩ := Prod.mk.injEq .. ▸ (Except.ok.inj hok)
      exact hc1orb

theorem genCompanionSystem_orbit (fuel : Nat) :
    ∀ (a b o : Int) (d : Dice) (c : System) (d2 : Dice),
      genCompanionSystem fuel a b o d = Except.ok (c, d2) → c.orbit = o := by
  cases fuel with
  | zero => exact genCompanionSystemGo_orbit none
  | succ k => exact genCompanionSystemGo_orbit (some (genCompanionSystem k))

theorem genCompanionSystemGo_RATree
    (recur : Option (Int → Int → Int → Dice → Except GenError (System × Dice)))
    (hrecO : ∀ f, recur = some f → ∀ (a b o : Int) (d : Dice) (c : System) (d2 : Dice),
      f a b o d = Except.ok (c, d2) → c.orbit = o)
    (hrecRA : ∀ f, recur = some f → ∀ (a b o : Int) (d : Dice) (c : System) (d2 : Dice),
      f a b o d = Except.ok (c, d2) → ∀ n, RATree n c) :
    ∀ (a b o : Int) (d : Dice) (c : System) (d2 : Dice),
      genCompanionSystemGo recur a b o d = Except.ok (c, d2) → ∀ n, RATree n c := by
  intro a b o d c d2 hok
  unfold genCompanionSystemGo at hok
  rcases h1 : roll2D d with ⟨ct, d1⟩
  simp only [h1] at hok
  rcases h2 : roll2D d1 with ⟨cs, dB⟩
  simp only [h2] at hok
  rcases h3 : roll10 dB with ⟨sub, d3⟩
  simp only [h3] at hok
  rcases h4 : mkSystem (genCompanionStarType ((ct : Int) + a)) sub
    (genCompanionStarSize ((cs : Int) + b)) o 0 d3 with ⟨comp0, d4⟩
  simp only [h4] at hok
  rcases h5 : genMaxOrbits comp0.star d4 with ⟨gmo, d5⟩
  simp only [h5] at hok
  have hcomp0 : comp0.secondary = none ∧ comp0.tertiary = none := by
    have := mkSystem_fields (genCompanionStarType ((ct : Int) + a)) sub
      (genCompanionStarSize ((cs : Int) + b)) o d3
    rw [h4] at this
    exact ⟨this.1, this.2.1⟩
  cases hsm : setMaxOrbits comp0 (min (Int.fdiv o 2) gmo) with
  | error e => simp only [hsm, bind, Except.bind] at hok; cases hok
  | ok comp1 =>
    simp only [hsm, bind, Except.bind] at hok
    have hc1 := setMaxOrbits_ok _ _ _ hsm
    have hc1sec : comp1.secondary = none := by
      rw [hc1, withMax_secondary]
      exact hcomp0.1
    have hc1ter : comp1.tertiary = none := by
      rw [hc1, withMax_tertiary]
      exact hcomp0.2
    have hc1ref : ∀ (i : Int) (t : CompTag), jsGet comp1.orbits i ≠ Slot.sysRef t := by
      intro i t
      rw [hc1, withMax_orbits]
      exact jsGet_replicate_nul_ne_ref _ i t
    have hc1tree : ∀ n, RATree n comp1 :=
      RATree_all_of_no_comps comp1 hc1sec hc1ter hc1ref
    by_cases hfar : comp1.orbit = FAR_ORBIT
    · rw [if_pos hfar] at hok
      rcases h6 : genNumStars d5 with ⟨ns, d6⟩
      simp only [h6] at hok
      by_cases hns : ns > 1
      · rw [if_pos hns] at hok
        cases hre : recur with
        | none =>
          simp only [hre] at hok
          obtain ⟨rfl, rfl⟩ := Prod.mk.injEq .. ▸ (Except.ok.inj hok)
          exact hc1tree
        | some f =>
          simp only [hre] at hok
          rcases h7 : roll2D d6 with ⟨r2, d7⟩
          simp only [h7] at hok
          rcases h8 : genCompanionOrbit ((r2 : Int) - 4) d7 with ⟨orbit2, d8⟩
          simp only [h8] at hok
          cases hf : f ((ct : Int) + a) ((cs : Int) + b) orbit2 d8 with
          | error e => simp only [hf, bind, Except.bind] at hok; cases hok
          | ok p =>
            rcases p with ⟨sec, d9⟩
            simp only [hf, bind, Except.bind] at hok
            have hsecRA : ∀ n, RATree n sec := hrecRA f hre _ _ _ _ _ _ hf
            have hsecOrb : sec.orbit = orbit2 := hrecO f hre _ _ _ _ _ _ hf
            have hslots2 : ∀ (i : Int) (t : CompTag),
                jsGet ((comp1.withSecondary (some sec)).withOrbits
                  (jsSet (comp1.withSecondary (some sec)).orbits orbit2
                    (Slot.sysRef CompTag.secondary))).orbits i = Slot.sysRef t →
                t = CompTag.secondary ∧ i = orbit2 := by
              intro i t hslot
              rw [withOrbits_orbits, withSecondary_orbits] at hslot
              by_cases h02 : orbit2 < 0
              · rw [jsSet_neg _ _ _ h02] at hslot
                exact absurd hslot (hc1ref i t)
              · by_cases hio : i = orbit2
                · subst hio
                  rw [jsGet_jsSet_eq _ _ _ (by omega)] at hslot
                  injection hslot with ht
                  exact ⟨ht.symm, rfl⟩
                · rw [jsGet_jsSet_ne _ _ _ _ (fun hh => hio hh.symm)] at hslot
                  exact absurd hslot (hc1ref i t)
            have hterB : ((comp1.withSecondary (some sec)).withOrbits
                (jsSet (comp1.withSecondary (some sec)).orbits orbit2
                  (Slot.sysRef CompTag.secondary))).tertiary = none := by
              rw [withOrbits_tertiary, withSecondary_tertiary]
              exact hc1ter
            by_cases hfar2 : orbit2 = FAR_ORBIT
            · rw [if_pos hfar2] at hok
              rcases h9 : genMaxOrbits sec.star d9 with ⟨gmo2, d10⟩
              simp only [h9] at hok
              cases hsm2 : setMaxOrbits sec gmo2 with
              | error e => simp only [hsm2, bind, Except.bind] at hok; cases hok
              | ok sec2 =>
                simp only [hsm2, bind, Except.bind] at hok
                have hs2 := setMaxOrbits_ok _ _ _ hsm2
                have hsec2RA : ∀ n, RATree n sec2 := by
                  rw [hs2]
                  exact RATree_withMax_nul sec _ hsecRA
                have hsec2Orb : sec2.orbit = orbit2 := by
                  rw [hs2, withMax_orbit]
                  exact hsecOrb
                obtain ⟨rfl, rfl⟩ := Prod.mk.injEq .. ▸ (Except.ok.inj hok)
                refine RATree_node_assemble _ sec2 hterB ?_ hsec2RA
                intro i t hslot
                obtain ⟨rfl, rfl⟩ := hslots2 i t hslot
                exact ⟨rfl, hsec2Orb⟩
            · rw [if_neg hfar2] at hok
              rcases h9 : genMaxOrbits sec.star d9 with ⟨gmo2, d10⟩
              simp only [h9] at hok
              cases hsm2 : setMaxOrbits sec (min (Int.fdiv orbit2 2) gmo2) with
              | error e => simp only [hsm2, bind, Except.bind] at hok; cases hok
              | ok sec2 =>
                simp only [hsm2, bind, Except.bind] at hok
                have hs2 := setMaxOrbits_ok _ _ _ hsm2
                have hsec2RA : ∀ n, RATree n sec2 := by
                  rw [hs2]
                  exact RATree_withMax_nul sec _ hsecRA
                have hsec2Orb : sec2.orbit = orbit2 := by
                  rw [hs2, withMax_orbit]
                  exact hsecOrb
                obtain ⟨rfl, rfl⟩ := Prod.mk.injEq .. ▸ (Except.ok.inj hok)
                refine RATree_node_assemble _ sec2 hterB ?_ hsec2RA
                intro i t hslot
                obtain ⟨rfl, rfl⟩ := hslots2 i t hslot
                exact ⟨rfl, hsec2Orb⟩
      · rw [if_neg hns] at hok
        obtain ⟨rfl, rfl⟩ := Prod.mk.injEq .. ▸ (Except.ok.inj hok)
        exact hc1tree
    · rw [if_neg hfar] at hok
      obtain ⟨rfl, rfl⟩ := Prod.mk.injEq .. ▸ (Except.ok.inj hok)
      exact hc1tree

theorem genCompanionSystem_RATree :
    ∀ (fuel : Nat) (a b o : Int) (d : Dice) (c : System) (d2 : Dice),
      genCompanionSystem fuel a b o d = Except.ok (c, d2) → ∀ n, RATree n c := by
  intro fuel
  induction fuel with
  | zero =>
    exact genCompanionSystemGo_RATree none (fun f hf => by cases hf)
      (fun f hf => by cases hf)
  | succ k ih =>
    refine genCompanionSystemGo_RATree (some (genCompanionSystem k)) ?_ ?_
    · intro f hf a b o d c d2 hc
      obtain rfl := (Option.some.inj hf)
      exact genCompanionSystem_orbit k a b o d c d2 hc
    · intro f hf a b o d c d2 hc
      obtain rfl := (Option.some.inj hf)
      exact ih a b o d c d2 hc

theorem placeMainWorldGo_RATree
    (recur : Option (System → World → Dice → System × World × Dice))
    (hrec : ∀ f, recur = some f → ∀ (m : Nat) (c : System) (w : World) (d : Dice),
      RATree m c → RATree m (f c w d).1)
    (hrecO : ∀ f, recur = some f → ∀ (c : System) (w : World) (d : Dice),
      ((f c w d).1).orbit = c.orbit) :
    ∀ (n : Nat) (sys : System) (w : World) (d : Dice),
      RATree n sys → RATree n ((placeMainWorldGo recur sys w d).1) := by
  intro n sys w d h
  unfold placeMainWorldGo
  simp only []
  by_cases hreq : w.atmosphere > 1 ∧ w.atmosphere < 10 ∧ w.size > 0
  · rw [if_pos hreq]
    generalize (if ((getZone sys).habitable = -1 ∨ (getZone sys).habitable = (getZone sys).inner) ∧
        w.atmosphere > 1 ∧ w.atmosphere < 10 ∧ w.size > 0 then
        max (getZone sys).inner 0 else (getZone sys).habitable) = hb
    cases hsl : jsGet sys.orbits hb with
    | sysRef t =>
      simp only [hsl]
      cases hre : recur with
      | none =>
        simp only []
        cases hco : sys.companionOf t <;>
          exact RATree_withMainWorld n _ _ h
      | some f =>
        cases hco : sys.companionOf t with
        | none =>
          simp only []
          exact RATree_withMainWorld n _ _ h
        | some c =>
          simp only []
          rcases hpm : f c _ _ with ⟨c2, w2, d2⟩
          simp only [hpm]
          apply RATree_withMainWorld
          have horb : c2.orbit = c.orbit := by
            have := hrecO f hre c ({ w with star_orbit := hb }) d
            rw [hpm] at this
            exact this
          have hraS : refAligned sys := refAligned_of_RATree n sys h
          cases t with
          | secondary =>
            show RATree n (sys.withSecondary (some c2))
            have hra' : refAligned (sys.withSecondary (some c2)) := by
              intro i t' c' hslot hcomp
              have hslot' : jsGet sys.orbits i = Slot.sysRef t' := by
                rw [withSecondary_orbits] at hslot
                exact hslot
              cases t' with
              | secondary =>
                have h2 : (sys.withSecondary (some c2)).secondary = some c' := hcomp
                rw [withSecondary_secondary] at h2
                obtain rfl := Option.some.inj h2
                rw [horb]
                exact hraS i CompTag.secondary c hslot' hco
              | tertiary =>
                have h2 : (sys.withSecondary (some c2)).tertiary = some c' := hcomp
                rw [withSecondary_tertiary] at h2
                exact hraS i CompTag.tertiary c' hslot' h2
            cases n with
            | zero => exact hra'
            | succ k =>
              refine ⟨hra', ?_, ?_⟩
              · intro c' hc'
                rw [withSecondary_secondary] at hc'
                obtain rfl := (Option.some.inj hc')
                have hqc : RATree k c := h.2.1 c hco
                have := hrec f hre k c ({ w with star_orbit := hb }) d hqc
                rw [hpm] at this
                exact this
              · intro c' hc'
                rw [withSecondary_tertiary] at hc'
                exact h.2.2 c' hc'
          | tertiary =>
            show RATree n (sys.withTertiary (some c2))
            have hra' : refAligned (sys.withTertiary (some c2)) := by
              intro i t' c' hslot hcomp
              have hslot' : jsGet sys.orbits i = Slot.sysRef t' := by
                rw [withTertiary_orbits] at hslot
                exact hslot
              cases t' with
              | secondary =>
                have h2 : (sys.withTertiary (some c2)).secondary = some c' := hcomp
                rw [withTertiary_secondary] at h2
                exact hraS i CompTag.secondary c' hslot' h2
              | tertiary =>
                have h2 : (sys.withTertiary (some c2)).tertiary = some c' := hcomp
                rw [withTertiary_tertiary] at h2
                obtain rfl := Option.some.inj h2
                rw [horb]
                exact hraS i CompTag.tertiary c hslot' hco
            cases n with
            | zero => exact hra'
            | succ k =>
              refine ⟨hra', ?_, ?_⟩
              · intro c' hc'
                rw [withTertiary_secondary] at hc'
                exact h.2.1 c' hc'
              · intro c' hc'
                rw [withTertiary_tertiary] at hc'
                obtain rfl := (Option.some.inj hc')
                have hqc : RATree k c := h.2.2 c hco
                have := hrec f hre k c ({ w with star_orbit := hb }) d hqc
                rw [hpm] at this
                exact this
    | gasGiant g sats =>
      simp only [hsl]
      rcases ho : genSatelliteOrbit (PrimaryBody.gasGiant g) sats (w.size == 0) d
        with ⟨orb, d1⟩
      simp only [ho]
      apply RATree_withMainWorld
      refine RATree_of_parts n sys _ ?_ (withOrbits_secondary _ _) (withOrbits_tertiary _ _) h
      rw [withOrbits_orbits]
      exact SlotOK_jsSet _ _ _ _ (refsFrom_self _) (refsFrom_giant _ _ _ _)
    | world w2 sats =>
      simp only [hsl]
      apply RATree_withMainWorld
      refine RATree_of_parts n sys _ ?_ (withOrbits_secondary _ _) (withOrbits_tertiary _ _) h
      rw [withOrbits_orbits]
      exact SlotOK_jsSet _ _ _ _ (refsFrom_self _) (refsFrom_world _ _ _ _)
    | empty e =>
      simp only [hsl]
      apply RATree_withMainWorld
      refine RATree_of_parts n sys _ ?_ (withOrbits_secondary _ _) (withOrbits_tertiary _ _) h
      rw [withOrbits_orbits]
      exact SlotOK_jsSet _ _ _ _ (refsFrom_self _) (refsFrom_world _ _ _ _)
    | nul =>
      simp only [hsl]
      apply RATree_withMainWorld
      refine RATree_of_parts n sys _ ?_ (withOrbits_secondary _ _) (withOrbits_tertiary _ _) h
      rw [withOrbits_orbits]
      exact SlotOK_jsSet _ _ _ _ (refsFrom_self _) (refsFrom_world _ _ _ _)
    | undef =>
      simp only [hsl]
      apply RATree_withMainWorld
      refine RATree_of_parts n sys _ ?_ (withOrbits_secondary _ _) (withOrbits_tertiary _ _) h
      rw [withOrbits_orbits]
      exact SlotOK_jsSet _ _ _ _ (refsFrom_self _) (refsFrom_world _ _ _ _)
  · rw [if_neg hreq]
    by_cases hlen : ((nullIndices sys.orbits).filter (fun x => x > 0)).length > 0
    · rw [if_pos hlen]
      rcases hd : draw ((nullIndices sys.orbits).filter (fun x => x > 0)).length d
        with ⟨pos, d1⟩
      simp only [hd]
      apply RATree_withMainWorld
      refine RATree_of_parts n sys _ ?_ (withOrbits_secondary _ _) (withOrbits_tertiary _ _) h
      rw [withOrbits_orbits]
      exact SlotOK_jsSet _ _ _ _ (refsFrom_self _) (refsFrom_world _ _ _ _)
    · rw [if_neg hlen]
      rcases hd : draw sys.max_orbits d with ⟨pos, d1⟩
      simp only [hd]
      apply RATree_withMainWorld
      refine RATree_of_parts n sys _ ?_ (withOrbits_secondary _ _) (withOrbits_tertiary _ _) h
      rw [withOrbits_orbits]
      exact SlotOK_jsSet _ _ _ _ (refsFrom_self _) (refsFrom_world _ _ _ _)

theorem placeMainWorld_RATree :
    ∀ (fuel n : Nat) (sys : System) (w : World) (d : Dice),
      RATree n sys → RATree n ((placeMainWorld fuel sys w d).1) := by
  intro fuel
  induction fuel with
  | zero =>
    intro n sys w d h
    exact placeMainWorldGo_RATree none (fun f hf => by cases hf)
      (fun f hf => by cases hf) n sys w d h
  | succ k ih =>
    intro n sys w d h
    refine placeMainWorldGo_RATree (some (placeMainWorld k))
      (fun f hf => by
        obtain rfl := (Option.some.inj hf)
        intro m c w2 d2 hq
        exact ih m c w2 d2 hq)
      (fun f hf => by
        obtain rfl := (Option.some.inj hf)
        intro c w2 d2
        exact placeMainWorld_orbit k c w2 d2) n sys w d h

set_option maxHeartbeats 1000000 in
theorem fillLevel_orbit
    (recur : Option (System → World → Bool → Dice → Except GenError (System × Dice))) :
    ∀ (sys : System) (mw : World) (b : Bool) (d : Dice) (r : System × Dice),
      fillLevel recur sys mw b d = Except.ok r → r.1.orbit = sys.orbit := by
  intro sys mw b d r hok
  unfold fillLevel at hok
  rcases hge : genEmptyOrbits sys d with ⟨sys1, d1⟩
  simp only [hge] at hok
  have e1 : sys1.orbit = sys.orbit := by
    have := genEmptyOrbits_orbit sys d
    rw [hge] at this
    exact this
  cases hgg : genGasGiants sys1 d1 with
  | error e => simp [hgg, bind, Except.bind] at hok
  | ok trip =>
    rcases trip with ⟨ngg, sys2, d2⟩
    simp only [hgg, bind, Except.bind] at hok
    have e2 : sys2.orbit = sys1.orbit := genGasGiants_orbit sys1 d1 (ngg, sys2, d2) hgg
    rcases hgp : genPlanetoids sys2 ngg mw d2 with ⟨sys3, d3⟩
    simp only [hgp] at hok
    have e3 : sys3.orbit = sys2.orbit := by
      have := genPlanetoids_orbit sys2 ngg mw d2
      rw [hgp] at this
      exact this
    rcases hpm : (if b then placeMainWorld 3 sys3 mw d3 else (sys3, mw, d3))
      with ⟨sys4, mw4, d4⟩
    simp only [hpm] at hok
    have e4 : sys4.orbit = sys3.orbit := by
      by_cases hb : b
      · rw [if_pos hb] at hpm
        have := placeMainWorld_orbit 3 sys3 mw d3
        rw [hpm] at this
        exact this
      · rw [if_neg hb] at hpm
        injection hpm with hA hB
        rw [← hA]
    rw [sysFoldl_empty_eq] at hok
    set A := (intRangeList 0 ((getZone sys4).hot + 1)).foldl
      (fun acc i => jsSet acc i (Slot.empty i)) sys4.orbits with hA
    cases hfl : fillerLoop mw4 (sys4.withOrbits A)
        (intRangeList ((getZone sys4).hot + 1) (((sys4.withOrbits A).max_orbits : Int) + 1)) d4 with
    | error e => simp [hfl, bind, Except.bind] at hok
    | ok r5 =>
      rcases r5 with ⟨sys6, d6⟩
      simp only [hfl, bind, Except.bind] at hok
      have e6 : sys6.orbit = sys4.orbit := by
        rw [fillerLoop_orbit mw4 _ _ _ _ hfl, withOrbits_orbit]
      rcases hsp : satellitePass mw4 sys6 (intRangeList 1 ((sys6.max_orbits : Int) + 1)) d6
        with ⟨sys7, d7⟩
      simp only [hsp] at hok
      have e7 : sys7.orbit = sys6.orbit := by
        have := satellitePass_orbit mw4 (intRangeList 1 ((sys6.max_orbits : Int) + 1)) sys6 d6
        rw [hsp] at this
        exact this
      have echain : sys7.orbit = sys.orbit := by
        rw [e7, e6, e4, e3, e2, e1]
      cases hre : recur with
      | none =>
        simp only [hre] at hok
        obtain rfl := (Except.ok.inj hok)
        exact echain
      | some f =>
        simp only [hre] at hok
        cases hsec : sys7.secondary with
        | none =>
          simp only [hsec] at hok
          cases hter : sys7.tertiary with
          | none =>
            simp only [hter] at hok
            obtain rfl := (Except.ok.inj hok)
            exact echain
          | some ter =>
            simp only [hter] at hok
            by_cases hto : ter.orbit > 0
            · rw [if_pos hto] at hok
              cases hrt : f ter mw4 false d7 with
              | error e => simp [hrt, bind, Except.bind] at hok
              | ok rt =>
                rcases rt with ⟨tersys, dt⟩
                simp only [hrt, bind, Except.bind] at hok
                obtain rfl := (Except.ok.inj hok)
                rw [withTertiary_orbit]
                exact echain
            · rw [if_neg hto] at hok
              obtain rfl := (Except.ok.inj hok)
              exact echain
        | some sec =>
          simp only [hsec] at hok
          by_cases hso : sec.orbit > 0
          · rw [if_pos hso] at hok
            cases hrs : f sec mw4 false d7 with
            | error e => simp [hrs, bind, Except.bind] at hok
            | ok rs =>
              rcases rs with ⟨secsys, ds⟩
              simp only [hrs, bind, Except.bind] at hok
              rw [withSecondary_tertiary] at hok
              cases hter : sys7.tertiary with
              | none =>
                simp only [hter] at hok
                obtain rfl := (Except.ok.inj hok)
                rw [withSecondary_orbit]
                exact echain
              | some ter =>
                simp only [hter] at hok
                by_cases hto : ter.orbit > 0
                · rw [if_pos hto] at hok
                  cases hrt : f ter mw4 false ds with
                  | error e => simp [hrt, bind, Except.bind] at hok
                  | ok rt =>
                    rcases rt with ⟨tersys, dt⟩
                    simp only [hrt, bind, Except.bind] at hok
                    obtain rfl := (Except.ok.inj hok)
                    rw [withTertiary_orbit, withSecondary_orbit]
                    exact echain
                · rw [if_neg hto] at hok
                  obtain rfl := (Except.ok.inj hok)
                  rw [withSecondary_orbit]
                  exact echain
          · rw [if_neg hso] at hok
            cases hter : sys7.tertiary with
            | none =>
              simp only [hter] at hok
              obtain rfl := (Except.ok.inj hok)
              exact echain
            | some ter =>
              simp only [hter] at hok
              by_cases hto : ter.orbit > 0
              · rw [if_pos hto] at hok
                cases hrt : f ter mw4 false d7 with
                | error e => simp [hrt, bind, Except.bind] at hok
                | ok rt =>
                  rcases rt with ⟨tersys, dt⟩
                  simp only [hrt, bind, Except.bind] at hok
                  obtain rfl := (Except.ok.inj hok)
                  rw [withTertiary_orbit]
                  exact echain
              · rw [if_neg hto] at hok
                obtain rfl := (Except.ok.inj hok)
                exact echain

theorem fillSystem_orbit :
    ∀ (fuel : Nat) (sys : System) (mw : World) (b : Bool) (d : Dice) (r : System × Dice),
      fillSystem fuel sys mw b d = Except.ok r → r.1.orbit = sys.orbit := by
  intro fuel
  cases fuel with
  | zero => exact fillLevel_orbit none
  | succ k => exact fillLevel_orbit (some (fillSystem k))

set_option maxHeartbeats 1000000 in
theorem fillLevel_RATree (n : Nat)
    (recur : Option (System → World → Bool → Dice → Except GenError (System × Dice)))
    (hrec : ∀ f, recur = some f → ∀ (m : Nat), n = m + 1 →
      ∀ (sys : System) (mw : World) (b : Bool) (d : Dice) (r : System × Dice),
        RATree m sys → f sys mw b d = Except.ok r → RATree m r.1)
    (hrecO : ∀ f, recur = some f →
      ∀ (sys : System) (mw : World) (b : Bool) (d : Dice) (r : System × Dice),
        f sys mw b d = Except.ok r → r.1.orbit = sys.orbit)
    (hpos : ∀ f, recur = some f → 0 < n) :
    ∀ (sys : System) (mw : World) (b : Bool) (d : Dice) (r : System × Dice),
      RATree n sys → fillLevel recur sys mw b d = Except.ok r →
      RATree n r.1 := by
  intro sys mw b d r h hok
  unfold fillLevel at hok
  rcases hge : genEmptyOrbits sys d with ⟨sys1, d1⟩
  simp only [hge] at hok
  have hq1 : RATree n sys1 := by
    refine RATree_of_parts n sys sys1 ?_ ?_ ?_ h
    · have := genEmptyOrbits_SlotOK (refsFrom sys.orbits) (refsFrom_empty _) sys d
        (refsFrom_self _)
      rw [hge] at this
      exact this
    · have := (genEmptyOrbits_comps sys d).1
      rw [hge] at this
      exact this
    · have := (genEmptyOrbits_comps sys d).2
      rw [hge] at this
      exact this
  cases hgg : genGasGiants sys1 d1 with
  | error e => simp [hgg, bind, Except.bind] at hok
  | ok trip =>
    rcases trip with ⟨ngg, sys2, d2⟩
    simp only [hgg, bind, Except.bind] at hok
    have hq2 : RATree n sys2 := by
      refine RATree_of_parts n sys1 sys2 ?_ ?_ ?_ hq1
      · exact genGasGiants_SlotOK (refsFrom sys1.orbits) sys1 d1 (ngg, sys2, d2)
          (fun i _ g sats _ => refsFrom_giant _ _ _ _) (refsFrom_self _) hgg
      · exact (genGasGiants_comps sys1 d1 (ngg, sys2, d2) hgg).1
      · exact (genGasGiants_comps sys1 d1 (ngg, sys2, d2) hgg).2
    rcases hgp : genPlanetoids sys2 ngg mw d2 with ⟨sys3, d3⟩
    simp only [hgp] at hok
    have hq3 : RATree n sys3 := by
      refine RATree_of_parts n sys2 sys3 ?_ ?_ ?_ hq2
      · have := genPlanetoids_SlotOK (refsFrom sys2.orbits) sys2 ngg mw d2
          (fun i _ w sats _ => refsFrom_world _ _ _ _) (refsFrom_self _)
        rw [hgp] at this
        exact this
      · have := (genPlanetoids_comps sys2 ngg mw d2).1
        rw [hgp] at this
        exact this
      · have := (genPlanetoids_comps sys2 ngg mw d2).2
        rw [hgp] at this
        exact this
    rcases hpm : (if b then placeMainWorld 3 sys3 mw d3 else (sys3, mw, d3))
      with ⟨sys4, mw4, d4⟩
    simp only [hpm] at hok
    have hq4 : RATree n sys4 := by
      by_cases hb : b
      · rw [if_pos hb] at hpm
        have := placeMainWorld_RATree 3 n sys3 mw d3 hq3
        rw [hpm] at this
        exact this
      · rw [if_neg hb] at hpm
        injection hpm with h1 h23
        rw [← h1]
        exact hq3
    rw [sysFoldl_empty_eq] at hok
    set A := (intRangeList 0 ((getZone sys4).hot + 1)).foldl
      (fun acc i => jsSet acc i (Slot.empty i)) sys4.orbits with hA
    have hq5 : RATree n (sys4.withOrbits A) := by
      refine RATree_of_parts n sys4 _ ?_ (withOrbits_secondary _ _) (withOrbits_tertiary _ _) hq4
      rw [withOrbits_orbits, hA]
      exact foldl_empty_SlotOK _ (refsFrom_empty _) _ _ (refsFrom_self _)
    cases hfl : fillerLoop mw4 (sys4.withOrbits A)
        (intRangeList ((getZone sys4).hot + 1) (((sys4.withOrbits A).max_orbits : Int) + 1)) d4 with
    | error e => simp [hfl, bind, Except.bind] at hok
    | ok r5 =>
      rcases r5 with ⟨sys6, d6⟩
      simp only [hfl, bind, Except.bind] at hok
      have hq6 : RATree n sys6 := by
        refine RATree_of_parts n (sys4.withOrbits A) sys6 ?_ ?_ ?_ hq5
        · exact fillerLoop_SlotOK (refsFrom (sys4.withOrbits A).orbits) mw4
            (fun i w sats _ _ => refsFrom_world _ _ _ _) _ _ _ _
            (refsFrom_self _) hfl
        · exact (fillerLoop_comps mw4 _ _ _ _ hfl).1
        · exact (fillerLoop_comps mw4 _ _ _ _ hfl).2
      rcases hsp : satellitePass mw4 sys6 (intRangeList 1 ((sys6.max_orbits : Int) + 1)) d6
        with ⟨sys7, d7⟩
      simp only [hsp] at hok
      have hq7 : RATree n sys7 := by
        refine RATree_of_parts n sys6 sys7 ?_ ?_ ?_ hq6
        · have := satellitePass_SlotOK (refsFrom sys6.orbits) mw4
            (fun i w sats sats' _ => refsFrom_world _ _ _ _)
            (fun i g sats sats' _ => refsFrom_giant _ _ _ _)
            (intRangeList 1 ((sys6.max_orbits : Int) + 1)) sys6 d6
            (refsFrom_self _)
          rw [hsp] at this
          exact this
        · have := (satellitePass_comps mw4 (intRangeList 1 ((sys6.max_orbits : Int) + 1)) sys6 d6).1
          rw [hsp] at this
          exact this
        · have := (satellitePass_comps mw4 (intRangeList 1 ((sys6.max_orbits : Int) + 1)) sys6 d6).2
          rw [hsp] at this
          exact this
      cases hre : recur with
      | none =>
        simp only [hre] at hok
        obtain rfl := (Except.ok.inj hok)
        exact hq7
      | some f =>
        simp only [hre] at hok
        obtain ⟨k, rfl⟩ : ∃ k, n = k + 1 := by
          have := hpos f hre
          exact ⟨n - 1, by omega⟩
        cases hsec : sys7.secondary with
        | none =>
          simp only [hsec] at hok
          cases hter : sys7.tertiary with
          | none =>
            simp only [hter] at hok
            obtain rfl := (Except.ok.inj hok)
            exact hq7
          | some ter =>
            simp only [hter] at hok
            by_cases hto : ter.orbit > 0
            · rw [if_pos hto] at hok
              cases hrt : f ter mw4 false d7 with
              | error e => simp [hrt, bind, Except.bind] at hok
              | ok rt =>
                rcases rt with ⟨tersys, dt⟩
                simp only [hrt, bind, Except.bind] at hok
                obtain rfl := (Except.ok.inj hok)
                have horbT : tersys.orbit = ter.orbit :=
                  hrecO f hre ter mw4 false d7 (tersys, dt) hrt
                have hra' : refAligned (sys7.withTertiary (some tersys)) := by
                  intro i t c hslot hcomp
                  have hslot' : jsGet sys7.orbits i = Slot.sysRef t := by
                    rw [withTertiary_orbits] at hslot
                    exact hslot
                  cases t with
                  | secondary =>
                    have h2 : (sys7.withTertiary (some tersys)).secondary = some c := hcomp
                    rw [withTertiary_secondary] at h2
                    exact hq7.1 i CompTag.secondary c hslot' h2
                  | tertiary =>
                    have h2 : (sys7.withTertiary (some tersys)).tertiary = some c := hcomp
                    rw [withTertiary_tertiary] at h2
                    obtain rfl := Option.some.inj h2
                    rw [horbT]
                    exact hq7.1 i CompTag.tertiary ter hslot' hter
                refine ⟨hra', ?_, ?_⟩
                · intro c hc
                  rw [withTertiary_secondary] at hc
                  exact hq7.2.1 c hc
                · intro c hc
                  rw [withTertiary_tertiary] at hc
                  obtain rfl := (Option.some.inj hc)
                  exact hrec f hre k rfl ter mw4 false d7 (tersys, dt) (hq7.2.2 ter hter) hrt
            · rw [if_neg hto] at hok
              obtain rfl := (Except.ok.inj hok)
              exact hq7
        | some sec =>
          simp only [hsec] at hok
          by_cases hso : sec.orbit > 0
          · rw [if_pos hso] at hok
            cases hrs : f sec mw4 false d7 with
            | error e => simp [hrs, bind, Except.bind] at hok
            | ok rs =>
              rcases rs with ⟨secsys, ds⟩
              simp only [hrs, bind, Except.bind] at hok
              have horbS : secsys.orbit = sec.orbit :=
                hrecO f hre sec mw4 false d7 (secsys, ds) hrs
              have hra8 : refAligned (sys7.withSecondary (some secsys)) := by
                intro i t c hslot hcomp
                have hslot' : jsGet sys7.orbits i = Slot.sysRef t := by
                  rw [withSecondary_orbits] at hslot
                  exact hslot
                cases t with
                | secondary =>
                  have h2 : (sys7.withSecondary (some secsys)).secondary = some c := hcomp
                  rw [withSecondary_secondary] at h2
                  obtain rfl := Option.some.inj h2
                  rw [horbS]
                  exact hq7.1 i CompTag.secondary sec hslot' hsec
                | tertiary =>
                  have h2 : (sys7.withSecondary (some secsys)).tertiary = some c := hcomp
                  rw [withSecondary_tertiary] at h2
                  exact hq7.1 i CompTag.tertiary c hslot' h2
              have hq8 : RATree (k + 1) (sys7.withSecondary (some secsys)) := by
                refine ⟨hra8, ?_, ?_⟩
                · intro c hc
                  rw [withSecondary_secondary] at hc
                  obtain rfl := (Option.some.inj hc)
                  exact hrec f hre k rfl sec mw4 false d7 (secsys, ds) (hq7.2.1 sec hsec) hrs
                · intro c hc
                  rw [withSecondary_tertiary] at hc
                  exact hq7.2.2 c hc
              rw [withSecondary_tertiary] at hok
              cases hter : sys7.tertiary with
              | none =>
                simp only [hter] at hok
                obtain rfl := (Except.ok.inj hok)
                exact hq8
              | some ter =>
                simp only [hter] at hok
                by_cases hto : ter.orbit > 0
                · rw [if_pos hto] at hok
                  cases hrt : f ter mw4 false ds with
                  | error e => simp [hrt, bind, Except.bind] at hok
                  | ok rt =>
                    rcases rt with ⟨tersys, dt⟩
                    simp only [hrt, bind, Except.bind] at hok
                    obtain rfl := (Except.ok.inj hok)
                    have horbT : tersys.orbit = ter.orbit :=
                      hrecO f hre ter mw4 false ds (tersys, dt) hrt
                    have hra9 : refAligned ((sys7.withSecondary (some secsys)).withTertiary
                        (some tersys)) := by
                      intro i t c hslot hcomp
                      have hslot' : jsGet (sys7.withSecondary (some secsys)).orbits i =
                          Slot.sysRef t := by
                        rw [withTertiary_orbits] at hslot
                        exact hslot
                      cases t with
                      | secondary =>
                        have h2 : ((sys7.withSecondary (some secsys)).withTertiary
                            (some tersys)).secondary = some c := hcomp
                        rw [withTertiary_secondary] at h2
                        exact hq8.1 i CompTag.secondary c hslot' h2
                      | tertiary =>
                        have h2 : ((sys7.withSecondary (some secsys)).withTertiary
                            (some tersys)).tertiary = some c := hcomp
                        rw [withTertiary_tertiary] at h2
                        obtain rfl := Option.some.inj h2
                        rw [horbT]
                        have hslot0 : jsGet sys7.orbits i = Slot.sysRef CompTag.tertiary := by
                          rw [withSecondary_orbits] at hslot'
                          exact hslot'
                        exact hq7.1 i CompTag.tertiary ter hslot0 hter
                    refine ⟨hra9, ?_, ?_⟩
                    · intro c hc
                      rw [withTertiary_secondary] at hc
                      exact hq8.2.1 c hc
                    · intro c hc
                      rw [withTertiary_tertiary] at hc
                      obtain rfl := (Option.some.inj hc)
                      exact hrec f hre k rfl ter mw4 false ds (tersys, dt) (hq7.2.2 ter hter) hrt
                · rw [if_neg hto] at hok
                  obtain rfl := (Except.ok.inj hok)
                  exact hq8
          · rw [if_neg hso] at hok
            cases hter : sys7.tertiary with
            | none =>
              simp only [hter] at hok
              obtain rfl := (Except.ok.inj hok)
              exact hq7
            | some ter =>
              simp only [hter] at hok
              by_cases hto : ter.orbit > 0
              · rw [if_pos hto] at hok
                cases hrt : f ter mw4 false d7 with
                | error e => simp [hrt, bind, Except.bind] at hok
                | ok rt =>
                  rcases rt with ⟨tersys, dt⟩
                  simp only [hrt, bind, Except.bind] at hok
                  obtain rfl := (Except.ok.inj hok)
                  have horbT : tersys.orbit = ter.orbit :=
                    hrecO f hre ter mw4 false d7 (tersys, dt) hrt
                  have hra' : refAligned (sys7.withTertiary (some tersys)) := by
                    intro i t c hslot hcomp
                    have hslot' : jsGet sys7.orbits i = Slot.sysRef t := by
                      rw [withTertiary_orbits] at hslot
                      exact hslot
                    cases t with
                    | secondary =>
                      have h2 : (sys7.withTertiary (some tersys)).secondary = some c := hcomp
                      rw [withTertiary_secondary] at h2
                      exact hq7.1 i CompTag.secondary c hslot' h2
                    | tertiary =>
                      have h2 : (sys7.withTertiary (some tersys)).tertiary = some c := hcomp
                      rw [withTertiary_tertiary] at h2
                      obtain rfl := Option.some.inj h2
                      rw [horbT]
                      exact hq7.1 i CompTag.tertiary ter hslot' hter
                  refine ⟨hra', ?_, ?_⟩
                  · intro c hc
                    rw [withTertiary_secondary] at hc
                    exact hq7.2.1 c hc
                  · intro c hc
                    rw [withTertiary_tertiary] at hc
                    obtain rfl := (Option.some.inj hc)
                    exact hrec f hre k rfl ter mw4 false d7 (tersys, dt) (hq7.2.2 ter hter) hrt
              · rw [if_neg hto] at hok
                obtain rfl := (Except.ok.inj hok)
                exact hq7

theorem fillSystem_RATree :
    ∀ (fuel : Nat) (sys : System) (mw : World) (b : Bool) (d : Dice) (r : System × Dice),
      RATree fuel sys → fillSystem fuel sys mw b d = Except.ok r → RATree fuel r.1 := by
  intro fuel
  induction fuel with
  | zero =>
    intro sys mw b d r h hok
    exact fillLevel_RATree 0 none (fun f hf => by cases hf) (fun f hf => by cases hf)
      (fun f hf => by cases hf) sys mw b d r h hok
  | succ k ih =>
    intro sys mw b d r h hok
    refine fillLevel_RATree (k + 1) (some (fillSystem k))
      (fun f hf m hm sys2 mw2 b2 d2 r2 hq hok2 => ?_)
      (fun f hf sys2 mw2 b2 d2 r2 hok2 => ?_)
      (fun f hf => by omega) sys mw b d r h hok
    · obtain rfl := (Option.some.inj hf)
      obtain rfl : k = m := by omega
      exact ih sys2 mw2 b2 d2 r2 hq hok2
    · obtain rfl := (Option.some.inj hf)
      exact fillSystem_orbit k sys2 mw2 b2 d2 r2 hok2

set_option maxHeartbeats 1000000 in
theorem genStars_RATree (m : Int) (cp : Bool) (d : Dice) :
    ∀ sys d2, genStars m cp d = Except.ok (sys, d2) → ∀ n, RATree n sys := by
  unfold genStars
  rcases hns : (if cp then genNumStars d else (1, d)) with ⟨ns, d0⟩
  simp only [hns]
  rcases h1 : roll2D d0 with ⟨pt, d1⟩
  simp only [h1]
  rcases h2 : roll2D d1 with ⟨ps, d2⟩
  simp only [h2]
  rcases h3 : roll10 d2 with ⟨sub, d3⟩
  simp only [h3]
  rcases h4 : mkSystem (genPrimaryStarType ((pt : Int) + m)) sub
    (genPrimaryStarSize (ps : Int) (genPrimaryStarType ((pt : Int) + m)) sub)
    PRIMARY_ORBIT 0 d3 with ⟨sys0, d4⟩
  simp only [h4]
  rcases h5 : genMaxOrbits sys0.star d4 with ⟨gmo, d5⟩
  simp only [h5]
  have hsys0 : sys0.secondary = none ∧ sys0.tertiary = none := by
    have := mkSystem_fields (genPrimaryStarType ((pt : Int) + m)) sub
      (genPrimaryStarSize (ps : Int) (genPrimaryStarType ((pt : Int) + m)) sub)
      PRIMARY_ORBIT d3
    rw [h4] at this
    exact ⟨this.1, this.2.1⟩
  cases hsm : setMaxOrbits sys0 gmo with
  | error e =>
    simp only [hsm, bind, Except.bind]
    intro sys d2 hc
    cases hc
  | ok sys1 =>
    simp only [hsm, bind, Except.bind]
    have hs1 := setMaxOrbits_ok _ _ _ hsm
    have hs1sec : sys1.secondary = none := by
      rw [hs1, withMax_secondary]
      exact hsys0.1
    have hs1ter : sys1.tertiary = none := by
      rw [hs1, withMax_tertiary]
      exact hsys0.2
    have hs1ref : ∀ (i : Int) (t : CompTag), jsGet sys1.orbits i ≠ Slot.sysRef t := by
      intro i t
      rw [hs1, withMax_orbits]
      exact jsGet_replicate_nul_ne_ref _ i t
    by_cases hn1 : ns > 1
    · rw [if_pos hn1]
      rcases h6 : roll2D d5 with ⟨r, d6⟩
      simp only [h6]
      rcases h7 : genCompanionOrbit (r : Int) d6 with ⟨orbit0, d7⟩
      simp only [h7]
      generalize horb : (if orbit0 ≤ (getZone sys1).inside then (0 : Int) else orbit0) = orb
      cases hcs : genCompanionSystem 1 (pt : Int) (ps : Int) orb d7 with
      | error e =>
        simp only [hcs, bind, Except.bind]
        intro sys d2 hc
        cases hc
      | ok p =>
        rcases p with ⟨sec, d8⟩
        simp only [hcs, bind, Except.bind]
        have hsecRA : ∀ n, RATree n sec := genCompanionSystem_RATree 1 _ _ _ _ _ _ hcs
        have hsecOrb : sec.orbit = orb := genCompanionSystem_orbit 1 _ _ _ _ _ _ hcs
        generalize hS3 : (if orb ≥ 0 then
            (sys1.withSecondary (some sec)).withOrbits
              (jsSet (sys1.withSecondary (some sec)).orbits orb
                (Slot.sysRef CompTag.secondary))
          else sys1.withSecondary (some sec)) = sys3
        have hs3sec : sys3.secondary = some sec := by
          rw [← hS3]
          by_cases ho : orb ≥ 0
          · rw [if_pos ho, withOrbits_secondary, withSecondary_secondary]
          · rw [if_neg ho, withSecondary_secondary]
        have hs3ter : sys3.tertiary = none := by
          rw [← hS3]
          by_cases ho : orb ≥ 0
          · rw [if_pos ho, withOrbits_tertiary, withSecondary_tertiary]
            exact hs1ter
          · rw [if_neg ho, withSecondary_tertiary]
            exact hs1ter
        have hs3slots : ∀ (i : Int) (t : CompTag), jsGet sys3.orbits i = Slot.sysRef t →
            t = CompTag.secondary ∧ i = orb := by
          intro i t hslot
          rw [← hS3] at hslot
          by_cases ho : orb ≥ 0
          · rw [if_pos ho, withOrbits_orbits, withSecondary_orbits] at hslot
            by_cases hio : i = orb
            · subst hio
              rw [jsGet_jsSet_eq _ _ _ (by omega)] at hslot
              injection hslot with ht
              exact ⟨ht.symm, rfl⟩
            · rw [jsGet_jsSet_ne _ _ _ _ (fun hh => hio hh.symm)] at hslot
              exact absurd hslot (hs1ref i t)
          · rw [if_neg ho, withSecondary_orbits] at hslot
            exact absurd hslot (hs1ref i t)
        have hra3 : refAligned sys3 := by
          intro i t c hslot hcomp
          obtain ⟨rfl, rfl⟩ := hs3slots i t hslot
          have h2 : sys3.secondary = some c := hcomp
          rw [hs3sec] at h2
          obtain rfl := Option.some.inj h2
          exact hsecOrb
        have hs4sec : (emptyOrbitsNearCompanion sys3 orb).secondary = some sec :=
          (emptyOrbitsNearCompanion_comps sys3 orb).1.trans hs3sec
        have hs4ter : (emptyOrbitsNearCompanion sys3 orb).tertiary = none :=
          (emptyOrbitsNearCompanion_comps sys3 orb).2.trans hs3ter
        have hs4refs : SlotOK (refsFrom sys3.orbits) (emptyOrbitsNearCompanion sys3 orb).orbits :=
          emptyOrbitsNearCompanion_SlotOK (refsFrom sys3.orbits) (refsFrom_empty _)
            sys3 orb (refsFrom_self _)
        have hra4 : refAligned (emptyOrbitsNearCompanion sys3 orb) :=
          refAligned_of sys3 _ hs4refs (emptyOrbitsNearCompanion_comps sys3 orb).1
            (emptyOrbitsNearCompanion_comps sys3 orb).2 hra3
        by_cases hn3 : ns = 3
        · rw [if_pos hn3]
          rcases h8 : roll2D d8 with ⟨r3, d9⟩
          simp only [h8]
          rcases h9 : genCompanionOrbit ((r3 : Int) + 4) d9 with ⟨orbit3a, d10⟩
          simp only [h9]
          generalize horb3 : (if orbit3a ≤ (getZone (emptyOrbitsNearCompanion sys3 orb)).inside
            then (0 : Int) else orbit3a) = orb3
          cases hct : genCompanionSystem 1 (pt : Int) (ps : Int) orb3 d10 with
          | error e =>
            simp only [hct, bind, Except.bind]
            intro sys d2 hc
            cases hc
          | ok q =>
            rcases q with ⟨ter, d11⟩
            simp only [hct, bind, Except.bind]
            have hterRA : ∀ n, RATree n ter := genCompanionSystem_RATree 1 _ _ _ _ _ _ hct
            have hterOrb : ter.orbit = orb3 := genCompanionSystem_orbit 1 _ _ _ _ _ _ hct
            generalize hS6 : (if orb3 ≥ 0 then
                ((emptyOrbitsNearCompanion sys3 orb).withTertiary (some ter)).withOrbits
                  (jsSet ((emptyOrbitsNearCompanion sys3 orb).withTertiary (some ter)).orbits
                    orb3 (Slot.sysRef CompTag.tertiary))
              else (emptyOrbitsNearCompanion sys3 orb).withTertiary (some ter)) = sys6
            have hs6sec : sys6.secondary = some sec := by
              rw [← hS6]
              by_cases ho : orb3 ≥ 0
              · rw [if_pos ho, withOrbits_secondary, withTertiary_secondary]
                exact hs4sec
              · rw [if_neg ho, withTertiary_secondary]
                exact hs4sec
            have hs6ter : sys6.tertiary = some ter := by
              rw [← hS6]
              by_cases ho : orb3 ≥ 0
              · rw [if_pos ho, withOrbits_tertiary, withTertiary_tertiary]
              · rw [if_neg ho, withTertiary_tertiary]
            have hra6 : refAligned sys6 := by
              intro i t c hslot hcomp
              rw [← hS6] at hslot
              by_cases ho : orb3 ≥ 0
              · rw [if_pos ho, withOrbits_orbits, withTertiary_orbits] at hslot
                by_cases hio : i = orb3
                · subst hio
                  rw [jsGet_jsSet_eq _ _ _ (by omega)] at hslot
                  injection hslot with ht
                  subst ht
                  have h2 : sys6.tertiary = some c := hcomp
                  rw [hs6ter] at h2
                  obtain rfl := Option.some.inj h2
                  exact hterOrb
                · rw [jsGet_jsSet_ne _ _ _ _ (fun hh => hio hh.symm)] at hslot
                  have hs3r : jsGet sys3.orbits i = Slot.sysRef t := hs4refs i t hslot
                  obtain ⟨rfl, rfl⟩ := hs3slots i t hs3r
                  have h2 : sys6.secondary = some c := hcomp
                  rw [hs6sec] at h2
                  obtain rfl := Option.some.inj h2
                  exact hsecOrb
              · rw [if_neg ho, withTertiary_orbits] at hslot
                have hs3r : jsGet sys3.orbits i = Slot.sysRef t := hs4refs i t hslot
                obtain ⟨rfl, rfl⟩ := hs3slots i t hs3r
                have h2 : sys6.secondary = some c := hcomp
                rw [hs6sec] at h2
                obtain rfl := Option.some.inj h2
                exact hsecOrb
            intro sys d2 hc
            obtain ⟨rfl, rfl⟩ := Prod.mk.injEq .. ▸ (Except.ok.inj hc)
            have hraF : refAligned (emptyOrbitsNearCompanion sys6 orb3) :=
              refAligned_of sys6 _
                (emptyOrbitsNearCompanion_SlotOK (refsFrom sys6.orbits) (refsFrom_empty _)
                  sys6 orb3 (refsFrom_self _))
                (emptyOrbitsNearCompanion_comps sys6 orb3).1
                (emptyOrbitsNearCompanion_comps sys6 orb3).2 hra6
            intro n
            cases n with
            | zero => exact hraF
            | succ k =>
              refine ⟨hraF, ?_, ?_⟩
              · intro c hc'
                rw [(emptyOrbitsNearCompanion_comps sys6 orb3).1, hs6sec] at hc'
                obtain rfl := (Option.some.inj hc')
                exact hsecRA k
              · intro c hc'
                rw [(emptyOrbitsNearCompanion_comps sys6 orb3).2, hs6ter] at hc'
                obtain rfl := (Option.some.inj hc')
                exact hterRA k
        · rw [if_neg hn3]
          intro sys d2 hc
          obtain ⟨rfl, rfl⟩ := Prod.mk.injEq .. ▸ (Except.ok.inj hc)
          intro n
          cases n with
          | zero => exact hra4
          | succ k =>
            refine ⟨hra4, ?_, ?_⟩
            · intro c hc'
              rw [hs4sec] at hc'
              obtain rfl := (Option.some.inj hc')
              exact hsecRA k
            · intro c hc'
              rw [hs4ter] at hc'
              cases hc'
    · rw [if_neg hn1]
      intro sys d2 hc
      obtain ⟨rfl, rfl⟩ := Prod.mk.injEq .. ▸ (Except.ok.inj hc)
      exact RATree_all_of_no_comps sys1 hs1sec hs1ter hs1ref

theorem refAlignedFromB_of (sys : System) :
    ∀ (a : List Slot) (n : Nat),
      (∀ (k : Nat) (t : CompTag) (c : System),
        a.getD k Slot.undef = Slot.sysRef t → sys.companionOf t = some c →
        c.orbit = ((n + k : Nat) : Int)) →
      refAlignedFromB sys ((n : Nat) : Int) a = true := by
  intro a
  induction a with
  | nil => intro n h; rfl
  | cons s rest ih =>
    intro n h
    unfold refAlignedFromB
    rw [Bool.and_eq_true]
    constructor
    · cases hs : s with
      | sysRef t =>
        cases hc : sys.companionOf t with
        | some c =>
          simp only [hc]
          have := h 0 t c (by rw [show (s :: rest).getD 0 Slot.undef = s from rfl, hs]) hc
          simp only [Nat.add_zero] at this
          simp [this]
        | none => simp only [hc]
      | world w sats => rfl
      | gasGiant g sats => rfl
      | empty e => rfl
      | nul => rfl
      | undef => rfl
    · have hcast : ((n : Nat) : Int) + 1 = (((n + 1 : Nat)) : Int) := by push_cast; ring
      rw [hcast]
      refine ih (n + 1) ?_
      intro k t c hk hc
      have := h (k + 1) t c hk hc
      have harith : (n + (k + 1) : Nat) = ((n + 1) + k : Nat) := by omega
      rw [harith] at this
      exact this

theorem refAlignedFromB_of_refAligned (sys : System) (h : refAligned sys) :
    refAlignedFromB sys 0 sys.orbits = true := by
  have h0 : ((0 : Nat) : Int) = (0 : Int) := rfl
  rw [← h0]
  refine refAlignedFromB_of sys sys.orbits 0 ?_
  intro k t c hk hc
  have hj : jsGet sys.orbits ((k : Nat) : Int) = Slot.sysRef t := by
    unfold jsGet
    rw [if_neg (by omega), Int.toNat_natCast]
    exact hk
  have := h ((k : Nat) : Int) t c hj hc
  simpa using this

theorem treeAlignedB_of_trees :
    ∀ (n : Nat) (sys : System), QTree alignedQ n sys → RATree n sys →
      treeAlignedB n sys = true := by
  intro n
  induction n with
  | zero =>
    intro sys h hr
    unfold treeAlignedB
    rw [Bool.and_eq_true]
    exact ⟨alignedFromB_of_SlotOK _ h, refAlignedFromB_of_refAligned sys hr⟩
  | succ k ih =>
    intro sys h hr
    unfold treeAlignedB
    rw [Bool.and_eq_true, Bool.and_eq_true, Bool.and_eq_true]
    refine ⟨⟨⟨alignedFromB_of_SlotOK _ h.1, refAlignedFromB_of_refAligned sys hr.1⟩, ?_⟩, ?_⟩
    · cases hsec : sys.secondary with
      | none => rfl
      | some c => exact ih c (h.2.1 c hsec) (hr.2.1 c hsec)
    · cases hter : sys.tertiary with
      | none => rfl
      | some c => exact ih c (h.2.2 c hter) (hr.2.2 c hter)

/-- C3 (amended): in every generation run that completes, each star-system
node of the result — the primary and the companion nodes to depth 3 — has
all its World, GasGiant and Empty slots storing an orbit equal to their
array position, and every nested-System (`sysRef`) slot points at a
companion node whose own `orbit` field equals that array position (the
companion slot is written at `system.orbits[orbit]` with
`companion.orbit = orbit`, and every later phase preserves both the slot
and the companion's orbit).  The `orbits.length = max_orbits` half of the
original claim is refuted by the counterexample. -/
theorem orbit_alignment_amended (mw : World) (d : Dice) :
    alignedResult (generateSystem mw d) = true := by
  unfold generateSystem
  cases hgs : genStars (if (mw.atmosphere ≥ 4 ∧ mw.atmosphere ≤ 9) ∨ mw.population ≥ 8
      then 4 else 0) true d with
  | error e =>
    simp only [hgs, bind, Except.bind]
    rfl
  | ok p =>
    rcases p with ⟨sys, d2⟩
    simp only [hgs, bind, Except.bind]
    cases hfs : fillSystem 3 sys (genTradeClasses mw) true d2 with
    | error e => rfl
    | ok r =>
      rcases r with ⟨sys2, d3⟩
      unfold alignedResult
      refine treeAlignedB_of_trees 3 sys2 ?_ ?_
      · exact fillSystem_aligned 3 sys (genTradeClasses mw) true d2 (sys2, d3)
          (genStars_aligned _ _ _ sys d2 hgs) hfs
      · exact fillSystem_RATree 3 sys (genTradeClasses mw) true d2 (sys2, d3)
          (genStars_RATree _ _ _ sys d2 hgs 3) hfs

set_option maxRecDepth 100000 in
/-- C3, counterexample: in the far-companion run driven by `diceFar`, the
secondary star lands at orbit 20; writing its slot and the Empty padding
around it grows the primary orbit array to 23 entries while `max_orbits`
stays 4, so the finished system violates `orbits.length = max_orbits`. -/
theorem orbits_length_counterexample :
    lenMismatch (generateSystem mwVac diceFar) = true := by
  have h1 : genStars 0 true diceFar = Except.ok (sysFar, diceFarRest) := rfl
  unfold generateSystem
  rw [if_neg (by decide :
    ¬ ((mwVac.atmosphere ≥ 4 ∧ mwVac.atmosphere ≤ 9) ∨ mwVac.population ≥ 8))]
  simp only [h1, bind, Except.bind]
  rw [show genTradeClasses mwVac = mwVacT from by decide]
  decide

end Worldgen
